import Mathlib

/-!
# FlatSliderSimple3d: state determination of the flat slider bearing

A shallow embedding of `SRC/element/frictionBearing/FlatSliderSimple3d.cpp`.

* `double` values are elements of an arbitrary linearly ordered field `α`
  (instantiated at `ℚ` for concrete runs); rounding, infinities and NaN are
  outside the model, and `x / 0 = 0` as in every Lean field.
* `sqrt` of `math.h` is a function argument `sqrt : α → α`; concrete runs use
  `Rat.sqrt`, which is exact on squares of rationals.
* The classes `UniaxialMaterial` and `FrictionModel` are abstract in the
  source: they are records of operations over a state type, the operations
  being state transformers.
* `int` counters are integers without wrap-around.
-/

namespace OpenSees

/-- Operations of the abstract class `UniaxialMaterial` used by the element,
over a state type `M`. The status returned by `setTrialStrain` is dropped by
every caller in the element and is not modelled. -/
structure UniaxialMaterial (α M : Type) where
  setTrialStrain : M → α → α → M
  getStrain : M → α
  getStress : M → α
  getTangent : M → α
  getInitialTangent : M → α
  commitState : M → M × Int
  revertToLastCommit : M → M × Int
  revertToStart : M → M × Int

/-- Operations of the abstract class `FrictionModel` used by the element,
over a state type `F`. The status returned by `setTrial` is dropped by the
element and is not modelled. -/
structure FrictionModel (α F : Type) where
  setTrial : F → α → α → F
  getFrictionForce : F → α
  commitState : F → F × Int
  revertToLastCommit : F → F × Int
  revertToStart : F → F × Int

/-- Value of `DBL_EPSILON` from `float.h` for IEEE doubles, `2^-52`. -/
def DBL_EPSILON {α : Type} [LinearOrderedField α] : α := 1 / 2 ^ 52

/-- Modelled from the spec: `Vector::Norm` of the matrix library, which is not
under the element's directory; the Euclidean norm of a vector. -/
def Norm {α : Type} [LinearOrderedField α] {n : ℕ} (sqrt : α → α) (v : Fin n → α) : α :=
  sqrt (∑ i, v i * v i)

/-- Assignment `A(i,j) = v` to one entry of a matrix. -/
def setEntry {α : Type} {m n : ℕ} (A : Matrix (Fin m) (Fin n) α) (i : Fin m) (j : Fin n)
    (v : α) : Matrix (Fin m) (Fin n) α :=
  fun r c => if r = i ∧ c = j then v else A r c

/-- The 12-vector whose first six entries are `a` and last six are `b`
(the loop filling `ug` and `ugdot` in `update`). -/
def stack {α : Type} (a b : Fin 6 → α) : Fin 12 → α :=
  fun i => if h : i.val < 6 then a ⟨i.val, h⟩ else b ⟨i.val - 6, by omega⟩

/-- Data members of `FlatSliderSimple3d` that the state determination reads
or writes. An orientation vector `x` or `y` is `none` when it is empty (size
0) and `some v` when it has three components; the other sizes, on which
`setUp` exits, are not represented. -/
@[ext]
structure FlatSliderSimple3d (α M F : Type) where
  theFrnMdl : F
  theMaterials : Fin 4 → M
  uy : α
  x : Option (Fin 3 → α)
  y : Option (Fin 3 → α)
  mass : α
  maxIter : Int
  tol : α
  L : α
  ub : Fin 6 → α
  ubPlastic : Fin 2 → α
  qb : Fin 6 → α
  kb : Matrix (Fin 6) (Fin 6) α
  ul : Fin 12 → α
  Tgl : Matrix (Fin 12) (Fin 12) α
  Tlb : Matrix (Fin 6) (Fin 12) α
  ubPlasticC : Fin 2 → α
  kbInit : Matrix (Fin 6) (Fin 6) α

namespace FlatSliderSimple3d

variable {α M F : Type} [LinearOrderedField α]

/-- `FlatSliderSimple3d::commitState`: copies the trial plastic displacement
to the committed one, commits the friction model and the four materials, and
returns the sum of their statuses. -/
def commitState (mat : UniaxialMaterial α M) (frn : FrictionModel α F)
    (e : FlatSliderSimple3d α M F) : FlatSliderSimple3d α M F × Int :=
  let f := frn.commitState e.theFrnMdl
  let c := fun i => mat.commitState (e.theMaterials i)
  ({ e with ubPlasticC := e.ubPlastic, theFrnMdl := f.1, theMaterials := fun i => (c i).1 },
    0 + f.2 + (c 0).2 + (c 1).2 + (c 2).2 + (c 3).2)

/-- `FlatSliderSimple3d::revertToLastCommit`: reverts the friction model and
the four materials and returns the sum of their statuses; no data member of
the element itself is assigned. -/
def revertToLastCommit (mat : UniaxialMaterial α M) (frn : FrictionModel α F)
    (e : FlatSliderSimple3d α M F) : FlatSliderSimple3d α M F × Int :=
  let f := frn.revertToLastCommit e.theFrnMdl
  let c := fun i => mat.revertToLastCommit (e.theMaterials i)
  ({ e with theFrnMdl := f.1, theMaterials := fun i => (c i).1 },
    0 + f.2 + (c 0).2 + (c 1).2 + (c 2).2 + (c 3).2)

/-- `FlatSliderSimple3d::revertToStart`: zeroes `ub`, `ubPlastic`, `qb` and
`ubPlasticC`, resets `kb` to `kbInit`, and reverts the friction model and the
four materials to their start. -/
def revertToStart (mat : UniaxialMaterial α M) (frn : FrictionModel α F)
    (e : FlatSliderSimple3d α M F) : FlatSliderSimple3d α M F × Int :=
  let f := frn.revertToStart e.theFrnMdl
  let c := fun i => mat.revertToStart (e.theMaterials i)
  ({ e with ub := 0, ubPlastic := 0, qb := 0, ubPlasticC := 0, kb := e.kbInit,
            theFrnMdl := f.1, theMaterials := fun i => (c i).1 },
    0 + f.2 + (c 0).2 + (c 1).2 + (c 2).2 + (c 3).2)

/-- The initial basic stiffness assembled by the constructor: the axial
initial tangent at (0,0), that tangent times `DBL_EPSILON` at (1,1) and (2,2),
and the initial tangents of the three rotational materials. -/
def initialStiffness (mat : UniaxialMaterial α M) (materials : Fin 4 → M) :
    Matrix (Fin 6) (Fin 6) α :=
  let k0 : Matrix (Fin 6) (Fin 6) α := setEntry 0 0 0 (mat.getInitialTangent (materials 0))
  let k1 := setEntry k0 1 1 (k0 0 0 * DBL_EPSILON)
  let k2 := setEntry k1 2 2 (k1 1 1)
  let k3 := setEntry k2 3 3 (mat.getInitialTangent (materials 1))
  let k4 := setEntry k3 4 4 (mat.getInitialTangent (materials 2))
  setEntry k4 5 5 (mat.getInitialTangent (materials 3))

/-- The constructor `FlatSliderSimple3d(tag, Nd1, Nd2, thefrnmdl, uy,
materials, y, x, m, maxiter, tol)`: stores the parameters and the copies of
the collaborators, sizes the vectors and matrices (zero filled), builds
`kbInit` and calls `revertToStart`. -/
def create (mat : UniaxialMaterial α M) (frn : FrictionModel α F) (thefrnmdl : F) (uy : α)
    (materials : Fin 4 → M) (y x : Option (Fin 3 → α)) (m : α) (maxiter : Int) (tol : α) :
    FlatSliderSimple3d α M F :=
  (revertToStart mat frn
    { theFrnMdl := thefrnmdl, theMaterials := materials, uy := uy, x := x, y := y, mass := m,
      maxIter := maxiter, tol := tol, L := 0, ub := 0, ubPlastic := 0, qb := 0, kb := 0,
      ul := 0, Tgl := 0, Tlb := 0, ubPlasticC := 0,
      kbInit := initialStiffness mat materials }).1

/-- The global-to-local operator written by `setUp`: four copies of the 3x3
block whose rows are `x/xn`, `y/yn`, `z/zn` on the diagonal, zero elsewhere. -/
def globalToLocal (x y z : Fin 3 → α) (xn yn zn : α) : Matrix (Fin 12) (Fin 12) α :=
  fun i j =>
    if i.val / 3 = j.val / 3 then
      (if i.val % 3 = 0 then x ⟨j.val % 3, Nat.mod_lt _ (by decide)⟩ / xn
       else if i.val % 3 = 1 then y ⟨j.val % 3, Nat.mod_lt _ (by decide)⟩ / yn
       else z ⟨j.val % 3, Nat.mod_lt _ (by decide)⟩ / zn)
    else 0

/-- The local-to-basic operator written by `setUp`: `-1` at `(i,i)`, `1` at
`(i,i+6)`, `-L` at `(1,11)`, `L` at `(2,10)`, zero elsewhere. -/
def localToBasic (L : α) : Matrix (Fin 6) (Fin 12) α :=
  fun i j =>
    if j.val = i.val then -1
    else if j.val = i.val + 6 then 1
    else if i.val = 1 ∧ j.val = 11 then -L
    else if i.val = 2 ∧ j.val = 10 then L
    else 0

/-- `FlatSliderSimple3d::setUp` for end coordinates `end1Crd`, `end2Crd`;
`none` stands for `exit(-1)`. -/
def setUp (sqrt : α → α) (e : FlatSliderSimple3d α M F) (end1Crd end2Crd : Fin 3 → α) :
    Option (FlatSliderSimple3d α M F) :=
  let xp : Fin 3 → α := fun i => end2Crd i - end1Crd i
  let L := Norm sqrt xp
  let x0 := if L > DBL_EPSILON then (match e.x with
    | none => some xp
    | some v => some v) else e.x
  match x0, e.y with
  | some x, some y =>
    let z : Fin 3 → α := ![x 1 * y 2 - x 2 * y 1, x 2 * y 0 - x 0 * y 2, x 0 * y 1 - x 1 * y 0]
    let y1 : Fin 3 → α := ![z 1 * x 2 - z 2 * x 1, z 2 * x 0 - z 0 * x 2, z 0 * x 1 - z 1 * x 0]
    let xn := Norm sqrt x
    let yn := Norm sqrt y1
    let zn := Norm sqrt z
    if xn = 0 ∨ yn = 0 ∨ zn = 0 then none
    else some { e with L := L, x := some x, y := some y1,
                       Tgl := globalToLocal x y1 z xn yn zn, Tlb := localToBasic L }
  | _, _ => none

/-- Local displacement (or velocity) `Tgl*ug` for the two nodal 6-vectors. -/
@[irreducible]
def localDisp (e : FlatSliderSimple3d α M F) (d1 d2 : Fin 6 → α) : Fin 12 → α :=
  e.Tgl.mulVec (stack d1 d2)

/-- Basic deformation (or rate) `Tlb*(Tgl*ug)` for the two nodal 6-vectors. -/
@[irreducible]
def basicDisp (e : FlatSliderSimple3d α M F) (d1 d2 : Fin 6 → α) : Fin 6 → α :=
  e.Tlb.mulVec (localDisp e d1 d2)

/-- Sliding speed `ubdotAbs` computed at the top of `update`. -/
@[irreducible]
def slidingSpeed (sqrt : α → α) (e : FlatSliderSimple3d α M F) (vel1 vel2 : Fin 6 → α) : α :=
  sqrt (basicDisp e vel1 vel2 1 ^ 2 + basicDisp e vel1 vel2 2 ^ 2)

/-- Step 1 of `update` up to the uplift test: stores `ul` and `ub`, sets the
trial strain of the axial material and reads its stress into `qb(0)` and its
tangent into `kb(0,0)`. -/
def axialTrial (mat : UniaxialMaterial α M) (e : FlatSliderSimple3d α M F)
    (dsp1 dsp2 vel1 vel2 : Fin 6 → α) : FlatSliderSimple3d α M F :=
  let m0 := mat.setTrialStrain (e.theMaterials 0) (basicDisp e dsp1 dsp2 0)
    (basicDisp e vel1 vel2 0)
  { e with ul := localDisp e dsp1 dsp2, ub := basicDisp e dsp1 dsp2,
           theMaterials := Function.update e.theMaterials 0 m0,
           qb := Function.update e.qb 0 (mat.getStress m0),
           kb := setEntry e.kb 0 0 (mat.getTangent m0) }

/-- Axial force `qb(0)` that `update` tests for uplift. -/
def axialForce (mat : UniaxialMaterial α M) (e : FlatSliderSimple3d α M F)
    (dsp1 dsp2 vel1 vel2 : Fin 6 → α) : α :=
  (axialTrial mat e dsp1 dsp2 vel1 vel2).qb 0

/-- The body of `if (qb(0) >= 0.0)` in `update`, before `return 0`. -/
@[irreducible]
def upliftBranch (mat : UniaxialMaterial α M) (e : FlatSliderSimple3d α M F) (ub0Old : α) :
    FlatSliderSimple3d α M F :=
  let e1 := { e with kb := e.kbInit }
  let e2 := if e1.qb 0 > 0 then
      { e1 with theMaterials := Function.update e1.theMaterials 0
                  (mat.setTrialStrain (e1.theMaterials 0) ub0Old 0),
                kb := setEntry e1.kb 0 0 (e1.kb 0 0 * DBL_EPSILON) }
    else e1
  { e2 with qb := 0 }

/-- Normal force `N` of one pass of the shear loop. -/
def normalForce (e : FlatSliderSimple3d α M F) : α :=
  -e.qb 0 - e.qb 1 * e.ul 5 + e.qb 2 * e.ul 4

/-- Friction model after the `setTrial(N, ubdotAbs)` call of one pass. -/
def passFriction (frn : FrictionModel α F) (ubdotAbs : α) (e : FlatSliderSimple3d α M F) : F :=
  frn.setTrial e.theFrnMdl (normalForce e) ubdotAbs

/-- Yield force `qYield` of one pass. -/
def passYield (frn : FrictionModel α F) (ubdotAbs : α) (e : FlatSliderSimple3d α M F) : α :=
  frn.getFrictionForce (passFriction frn ubdotAbs e)

/-- Stiffness `k0 = qYield/uy` of one pass. -/
def passK0 (frn : FrictionModel α F) (ubdotAbs : α) (e : FlatSliderSimple3d α M F) : α :=
  passYield frn ubdotAbs e / e.uy

/-- Trial shear force `qTrial` of one pass. -/
def passTrial (frn : FrictionModel α F) (ubdotAbs : α) (e : FlatSliderSimple3d α M F) :
    Fin 2 → α :=
  ![passK0 frn ubdotAbs e * (e.ub 1 - e.ubPlasticC 0),
    passK0 frn ubdotAbs e * (e.ub 2 - e.ubPlasticC 1)]

/-- Norm `qTrialNorm` of the trial shear force of one pass. -/
def passTrialNorm (frn : FrictionModel α F) (sqrt : α → α) (ubdotAbs : α)
    (e : FlatSliderSimple3d α M F) : α :=
  Norm sqrt (passTrial frn ubdotAbs e)

/-- Yield criterion `Y = qTrialNorm - qYield` of one pass. -/
def passY (frn : FrictionModel α F) (sqrt : α → α) (ubdotAbs : α)
    (e : FlatSliderSimple3d α M F) : α :=
  passTrialNorm frn sqrt ubdotAbs e - passYield frn ubdotAbs e

/-- The `if (Y <= 0.0)` branch of a pass ("elastic step -> no updates
required"): shear forces and tangent, `ubPlastic` is not assigned. -/
def elasticStep (frn : FrictionModel α F) (ubdotAbs : α) (e : FlatSliderSimple3d α M F) :
    FlatSliderSimple3d α M F :=
  let N := normalForce e
  let k0 := passK0 frn ubdotAbs e
  let qTrial := passTrial frn ubdotAbs e
  { e with theFrnMdl := passFriction frn ubdotAbs e,
           qb := Function.update (Function.update e.qb 1 (qTrial 0 - N * e.ul 5)) 2
                   (qTrial 1 + N * e.ul 4),
           kb := setEntry (setEntry (setEntry (setEntry e.kb 2 2 k0) 1 1 k0) 2 1 0) 1 2 0 }

/-- The `else` branch of a pass ("plastic step -> return mapping"). -/
def plasticStep (frn : FrictionModel α F) (sqrt : α → α) (ubdotAbs : α)
    (e : FlatSliderSimple3d α M F) : FlatSliderSimple3d α M F :=
  let N := normalForce e
  let qYield := passYield frn ubdotAbs e
  let k0 := passK0 frn ubdotAbs e
  let qTrial := passTrial frn ubdotAbs e
  let qTrialNorm := passTrialNorm frn sqrt ubdotAbs e
  let dGamma := passY frn sqrt ubdotAbs e / k0
  { e with theFrnMdl := passFriction frn ubdotAbs e,
           ubPlastic := ![e.ubPlasticC 0 + dGamma * qTrial 0 / qTrialNorm,
                          e.ubPlasticC 1 + dGamma * qTrial 1 / qTrialNorm],
           qb := Function.update (Function.update e.qb 1
                     (qYield * qTrial 0 / qTrialNorm - N * e.ul 5)) 2
                   (qYield * qTrial 1 / qTrialNorm + N * e.ul 4),
           kb := setEntry (setEntry (setEntry (setEntry e.kb 1 1
                     (qYield * k0 * qTrial 1 ^ 2 / qTrialNorm ^ 3)) 1 2
                     (-qYield * k0 * qTrial 0 * qTrial 1 / qTrialNorm ^ 3)) 2 1
                     (-qYield * k0 * qTrial 0 * qTrial 1 / qTrialNorm ^ 3)) 2 2
                     (qYield * k0 * qTrial 0 ^ 2 / qTrialNorm ^ 3) }

/-- One execution of the body of the `do ... while` loop of `update`, before
`iter++`; `qbOld` is recovered from the state the pass starts from. -/
@[irreducible]
def shearPass (frn : FrictionModel α F) (sqrt : α → α) (ubdotAbs : α)
    (e : FlatSliderSimple3d α M F) : FlatSliderSimple3d α M F :=
  if passY frn sqrt ubdotAbs e ≤ 0 then elasticStep frn ubdotAbs e
  else plasticStep frn sqrt ubdotAbs e

/-- What the shear loop leaves behind: the element, the saved `qbOld` of the
last pass and the value of `iter`, which counts the passes executed. -/
structure ShearResult (α M F : Type) where
  e : FlatSliderSimple3d α M F
  qbOld : Fin 2 → α
  iter : Int

/-- The quantity `sqrt(pow(qb(1)-qbOld(0),2)+pow(qb(2)-qbOld(1),2))` tested by
the loop condition and printed by the warning. -/
def ShearResult.change (sqrt : α → α) (r : ShearResult α M F) : α :=
  sqrt ((r.e.qb 1 - r.qbOld 0) ^ 2 + (r.e.qb 2 - r.qbOld 1) ^ 2)

/-- The `do ... while` loop of `update` entered with counter `iter`: a pass,
`iter++`, and another round while the change is `>= tol` and
`iter <= maxIter`. -/
def shearLoop (frn : FrictionModel α F) (sqrt : α → α) (ubdotAbs : α) (maxIter : Int) (tol : α)
    (e : FlatSliderSimple3d α M F) (iter : Int) : ShearResult α M F :=
  let r : ShearResult α M F :=
    { e := shearPass frn sqrt ubdotAbs e, qbOld := ![e.qb 1, e.qb 2], iter := iter + 1 }
  if h : r.change sqrt ≥ tol ∧ iter + 1 ≤ maxIter then
    shearLoop frn sqrt ubdotAbs maxIter tol r.e (iter + 1)
  else r
termination_by (maxIter - iter).toNat
decreasing_by omega

/-- Steps 3 to 5 of `update`: the torsion and the two bending materials. -/
def rotationalTrial (mat : UniaxialMaterial α M) (e : FlatSliderSimple3d α M F)
    (ubdot : Fin 6 → α) : FlatSliderSimple3d α M F :=
  let m1 := mat.setTrialStrain (e.theMaterials 1) (e.ub 3) (ubdot 3)
  let m2 := mat.setTrialStrain (e.theMaterials 2) (e.ub 4) (ubdot 4)
  let m3 := mat.setTrialStrain (e.theMaterials 3) (e.ub 5) (ubdot 5)
  { e with theMaterials :=
             Function.update (Function.update (Function.update e.theMaterials 1 m1) 2 m2) 3 m3,
           qb := Function.update (Function.update (Function.update e.qb 3 (mat.getStress m1)) 4
                   (mat.getStress m2)) 5 (mat.getStress m3),
           kb := setEntry (setEntry (setEntry e.kb 3 3 (mat.getTangent m1)) 4 4
                   (mat.getTangent m2)) 5 5 (mat.getTangent m3) }

/-- The shear loop as `update` runs it: from the state left by the axial
step, with the counter at zero. -/
def shearSolve (mat : UniaxialMaterial α M) (frn : FrictionModel α F) (sqrt : α → α)
    (e : FlatSliderSimple3d α M F) (dsp1 dsp2 vel1 vel2 : Fin 6 → α) : ShearResult α M F :=
  shearLoop frn sqrt (slidingSpeed sqrt e vel1 vel2) e.maxIter e.tol
    (axialTrial mat e dsp1 dsp2 vel1 vel2) 0

/-- `FlatSliderSimple3d::update` for trial nodal displacements `dsp1`, `dsp2`
and velocities `vel1`, `vel2`; returns the element and the status. -/
@[irreducible]
def update (mat : UniaxialMaterial α M) (frn : FrictionModel α F) (sqrt : α → α)
    (e : FlatSliderSimple3d α M F) (dsp1 dsp2 vel1 vel2 : Fin 6 → α) :
    FlatSliderSimple3d α M F × Int :=
  let ub0Old := mat.getStrain (e.theMaterials 0)
  let e1 := axialTrial mat e dsp1 dsp2 vel1 vel2
  if e1.qb 0 ≥ 0 then
    (upliftBranch mat e1 ub0Old, 0)
  else
    let r := shearSolve mat frn sqrt e dsp1 dsp2 vel1 vel2
    if r.iter ≥ e.maxIter then (r.e, -1)
    else (rotationalTrial mat r.e (basicDisp e vel1 vel2), 0)

/-- The data members that `update` reads but never assigns: `uy`, `maxIter`,
`tol`, `Tgl`, `Tlb`, `kbInit` and `ubPlasticC`. -/
def readOnlyPart (e : FlatSliderSimple3d α M F) :
    α × Int × α × Matrix (Fin 12) (Fin 12) α × Matrix (Fin 6) (Fin 12) α ×
      Matrix (Fin 6) (Fin 6) α × (Fin 2 → α) :=
  (e.uy, e.maxIter, e.tol, e.Tgl, e.Tlb, e.kbInit, e.ubPlasticC)

/-- Trial kinematics of one `update` call: the trial displacements and
velocities of the two nodes. -/
structure Kinematics (α : Type) where
  dsp1 : Fin 6 → α
  dsp2 : Fin 6 → α
  vel1 : Fin 6 → α
  vel2 : Fin 6 → α

/-- A run of `update` calls, one per entry of `ks`, with nothing in between;
the statuses are dropped. -/
def updateSeq (mat : UniaxialMaterial α M) (frn : FrictionModel α F) (sqrt : α → α)
    (e : FlatSliderSimple3d α M F) : List (Kinematics α) → FlatSliderSimple3d α M F
  | [] => e
  | k :: ks => updateSeq mat frn sqrt (update mat frn sqrt e k.dsp1 k.dsp2 k.vel1 k.vel2).1 ks

/-- `FlatSliderSimple3d::sgn`: the sign of `x` as `1`, `-1` or `0`. -/
def sgn (x : α) : α :=
  if x > 0 then 1
  else if x < 0 then -1
  else 0

/-- The cross product as `setUp` writes it out, component by component
(`z = x cross y` and `y = z cross x`). -/
def cross (a b : Fin 3 → α) : Fin 3 → α :=
  ![a 1 * b 2 - a 2 * b 1, a 2 * b 0 - a 0 * b 2, a 0 * b 1 - a 1 * b 0]

/-- The element as it stands at the top of the last execution of the body of
the `do ... while` loop of `update`, for the loop entered with counter `iter`:
the branch this state takes is the branch the shear solve ends in. It follows
the recursion of `shearLoop`. -/
def lastPassEntry (frn : FrictionModel α F) (sqrt : α → α) (ubdotAbs : α) (maxIter : Int)
    (tol : α) (e : FlatSliderSimple3d α M F) (iter : Int) : FlatSliderSimple3d α M F :=
  let r : ShearResult α M F :=
    { e := shearPass frn sqrt ubdotAbs e, qbOld := ![e.qb 1, e.qb 2], iter := iter + 1 }
  if h : r.change sqrt ≥ tol ∧ iter + 1 ≤ maxIter then
    lastPassEntry frn sqrt ubdotAbs maxIter tol r.e (iter + 1)
  else e
termination_by (maxIter - iter).toNat
decreasing_by omega

/-- The state entering the last pass of the shear solve of `update`. -/
def solveEntry (mat : UniaxialMaterial α M) (frn : FrictionModel α F) (sqrt : α → α)
    (e : FlatSliderSimple3d α M F) (dsp1 dsp2 vel1 vel2 : Fin 6 → α) :
    FlatSliderSimple3d α M F :=
  lastPassEntry frn sqrt (slidingSpeed sqrt e vel1 vel2) e.maxIter e.tol
    (axialTrial mat e dsp1 dsp2 vel1 vel2) 0

/-- Modelled from the spec: `Matrix::addMatrixTripleProduct(0.0, T, B, 1.0)`
of the matrix library, which is not under the element's directory; with the
factors `0.0` and `1.0` it overwrites the receiver with `T^T*B*T`. -/
def addMatrixTripleProduct {m n : ℕ} (T : Matrix (Fin m) (Fin n) α)
    (B : Matrix (Fin m) (Fin m) α) : Matrix (Fin n) (Fin n) α :=
  T.transpose * B * T

/-- Modelled from the spec: `Matrix::operator^(const Vector &)` of the matrix
library, which is not under the element's directory; `T^v` is the product of
the transpose of `T` with `v`. -/
def transposeTimes {m n : ℕ} (T : Matrix (Fin m) (Fin n) α) (v : Fin m → α) : Fin n → α :=
  T.transpose.mulVec v

/-- The local stiffness `kl` of `getTangentStiff`: `Tlb^T*kb*Tlb` with the
geometric stiffness entries added one after the other. -/
def localTangentStiff (e : FlatSliderSimple3d α M F) : Matrix (Fin 12) (Fin 12) α :=
  let kl0 := addMatrixTripleProduct e.Tlb e.kb
  let kl1 := setEntry kl0 5 1 (kl0 5 1 - 1 * e.qb 0)
  let kl2 := setEntry kl1 5 7 (kl1 5 7 + 1 * e.qb 0)
  let kl3 := setEntry kl2 4 2 (kl2 4 2 + 1 * e.qb 0)
  let kl4 := setEntry kl3 4 8 (kl3 4 8 - 1 * e.qb 0)
  let kl5 := setEntry kl4 3 1 (kl4 3 1 + e.qb 2)
  let kl6 := setEntry kl5 3 2 (kl5 3 2 - e.qb 1)
  let kl7 := setEntry kl6 3 7 (kl6 3 7 - e.qb 2)
  setEntry kl7 3 8 (kl7 3 8 + e.qb 1)

/-- `FlatSliderSimple3d::getTangentStiff`: the local stiffness transformed to
the global system. -/
def getTangentStiff (e : FlatSliderSimple3d α M F) : Matrix (Fin 12) (Fin 12) α :=
  addMatrixTripleProduct e.Tgl (localTangentStiff e)

/-- `FlatSliderSimple3d::getInitialStiff`. -/
def getInitialStiff (e : FlatSliderSimple3d α M F) : Matrix (Fin 12) (Fin 12) α :=
  addMatrixTripleProduct e.Tgl (addMatrixTripleProduct e.Tlb e.kbInit)

/-- `FlatSliderSimple3d::getMass`: the zero matrix for `mass == 0.0`,
otherwise `m = 0.5*mass` written to `(i,i)` and `(i+3,i+3)` for `i = 0, 1, 2`
(the loop is written out). -/
def getMass (e : FlatSliderSimple3d α M F) : Matrix (Fin 12) (Fin 12) α :=
  if e.mass = 0 then 0
  else
    let m := 1 / 2 * e.mass
    setEntry (setEntry (setEntry (setEntry (setEntry (setEntry 0 0 0 m) 3 3 m) 1 1 m) 4 4 m)
      2 2 m) 5 5 m

/-- `FlatSliderSimple3d::addInertiaLoadToUnbalance` for the vectors `Raccel1`
and `Raccel2` (`R*accel` of the two nodes, six components each): the new value
of the load vector `theLoad`, a static member shared by the class (the loop is
written out). -/
def addInertiaLoadToUnbalance (e : FlatSliderSimple3d α M F) (theLoad : Fin 12 → α)
    (Raccel1 Raccel2 : Fin 6 → α) : (Fin 12 → α) × Int :=
  if e.mass = 0 then (theLoad, 0)
  else
    let m := 1 / 2 * e.mass
    let l0 := Function.update theLoad 0 (theLoad 0 - m * Raccel1 0)
    let l1 := Function.update l0 3 (l0 3 - m * Raccel2 0)
    let l2 := Function.update l1 1 (l1 1 - m * Raccel1 1)
    let l3 := Function.update l2 4 (l2 4 - m * Raccel2 1)
    let l4 := Function.update l3 2 (l3 2 - m * Raccel1 2)
    (Function.update l4 5 (l4 5 - m * Raccel2 2), 0)

/-- The local force `ql` that `getResistingForce` assembles before the
transformation to the global system: `Tlb^qb`, the P-Delta moments on
components 5 and 4, and the assignment to component 3. -/
def resistingLocalForce (e : FlatSliderSimple3d α M F) : Fin 12 → α :=
  let ql0 := transposeTimes e.Tlb e.qb
  let ql1 := Function.update ql0 5 (ql0 5 + 1 * (e.qb 0 * (e.ul 7 - e.ul 1)))
  let ql2 := Function.update ql1 4 (ql1 4 - 1 * (e.qb 0 * (e.ul 8 - e.ul 2)))
  Function.update ql2 3 (e.qb 1 * (e.ul 8 - e.ul 2) - e.qb 2 * (e.ul 7 - e.ul 1))

/-- `FlatSliderSimple3d::getResistingForce` for the accumulated load
`theLoad` (a static member shared by the class): `Tgl^ql` minus the load. -/
def getResistingForce (e : FlatSliderSimple3d α M F) (theLoad : Fin 12 → α) : Fin 12 → α :=
  fun i => transposeTimes e.Tgl (resistingLocalForce e) i - theLoad i

/-- The vector that case 2 (`local forces`) of `getResponse` hands over:
`Tlb^qb` with the P-Delta moments on components 5 and 4. -/
def responseLocalForce (e : FlatSliderSimple3d α M F) : Fin 12 → α :=
  let v0 := transposeTimes e.Tlb e.qb
  let v1 := Function.update v0 5 (v0 5 + 1 * (e.qb 0 * (e.ul 7 - e.ul 1)))
  Function.update v1 4 (v1 4 - 1 * (e.qb 0 * (e.ul 8 - e.ul 2)))

/-- `FlatSliderSimple3d::getResponse`: the vector set in `eleInfo` for the
response ids 1 to 5 with its size, `none` for the `default` case (`-1`). -/
def getResponse (e : FlatSliderSimple3d α M F) (theLoad : Fin 12 → α) (responseID : Int) :
    Option (Σ n : ℕ, Fin n → α) :=
  if responseID = 1 then some ⟨12, getResistingForce e theLoad⟩
  else if responseID = 2 then some ⟨12, responseLocalForce e⟩
  else if responseID = 3 then some ⟨6, e.qb⟩
  else if responseID = 4 then some ⟨12, e.ul⟩
  else if responseID = 5 then some ⟨6, e.ub⟩
  else none

/-- Spec: the geometric correction `G` of the local stiffness, with
`G(5,1) = -qb0`, `G(5,7) = +qb0`, `G(4,2) = +qb0`, `G(4,8) = -qb0`,
`G(3,1) = +qb2`, `G(3,2) = -qb1`, `G(3,7) = -qb2`, `G(3,8) = +qb1` and zeros
elsewhere. -/
def specGeometricStiffness (qb : Fin 6 → α) : Matrix (Fin 12) (Fin 12) α :=
  fun i j =>
    if i = 5 ∧ j = 1 then -qb 0
    else if i = 5 ∧ j = 7 then qb 0
    else if i = 4 ∧ j = 2 then qb 0
    else if i = 4 ∧ j = 8 then -qb 0
    else if i = 3 ∧ j = 1 then qb 2
    else if i = 3 ∧ j = 2 then -qb 1
    else if i = 3 ∧ j = 7 then -qb 2
    else if i = 3 ∧ j = 8 then qb 1
    else 0

/-- Spec: the local force of force recovery, `Tlb^T*qb` plus `qb0*(ul7-ul1)`
on component 5, minus `qb0*(ul8-ul2)` on component 4, plus the V-Delta torsion
`qb1*(ul8-ul2) - qb2*(ul7-ul1)` on component 3. -/
def specLocalForce (Tlb : Matrix (Fin 6) (Fin 12) α) (qb : Fin 6 → α) (ul : Fin 12 → α) :
    Fin 12 → α :=
  fun i =>
    Tlb.transpose.mulVec qb i +
      (if i = 5 then qb 0 * (ul 7 - ul 1)
       else if i = 4 then -(qb 0 * (ul 8 - ul 2))
       else if i = 3 then qb 1 * (ul 8 - ul 2) - qb 2 * (ul 7 - ul 1)
       else 0)

/-- Spec: the lumped mass matrix, `m/2` on the translational degrees of
freedom 0, 1, 2 of the first endpoint and 6, 7, 8 of the second, zero
elsewhere. -/
def specMass (m : α) : Matrix (Fin 12) (Fin 12) α :=
  fun i j => if i = j ∧ (i.val < 3 ∨ (6 ≤ i.val ∧ i.val < 9)) then m / 2 else 0

/-- The element with its basic shear deformations `ub(1)`, `ub(2)` replaced by
`u1`, `u2`, everything else as it is. -/
def withShear (e : FlatSliderSimple3d α M F) (u1 u2 : α) : FlatSliderSimple3d α M F :=
  { e with ub := Function.update (Function.update e.ub 1 u1) 2 u2 }

/-! ## Collaborators and an element for concrete runs -/

/-- A linear elastic material of modulus `E`; the state is the pair of the
trial strain and the committed strain. -/
def elasticMaterial (E : α) : UniaxialMaterial α (α × α) where
  setTrialStrain := fun m strain _ => (strain, m.2)
  getStrain := fun m => m.1
  getStress := fun m => E * m.1
  getTangent := fun _ => E
  getInitialTangent := fun _ => E
  commitState := fun m => ((m.1, m.1), 0)
  revertToLastCommit := fun m => ((m.2, m.2), 0)
  revertToStart := fun _ => ((0, 0), 0)

/-- A material whose `commitState`, `revertToLastCommit` and `revertToStart`
return its state, an integer, as their status and leave it as it is; a linear
elastic law of modulus `E` at strain zero otherwise. -/
def statusMaterial (E : α) : UniaxialMaterial α Int where
  setTrialStrain := fun m _ _ => m
  getStrain := fun _ => 0
  getStress := fun _ => 0
  getTangent := fun _ => E
  getInitialTangent := fun _ => E
  commitState := fun m => (m, m)
  revertToLastCommit := fun m => (m, m)
  revertToStart := fun m => (m, m)

/-- A friction model of constant friction force `Fy`; its state counts the
calls of `setTrial`. -/
def constantFriction (Fy : α) : FrictionModel α ℕ where
  setTrial := fun n _ _ => n + 1
  getFrictionForce := fun _ => Fy
  commitState := fun n => (n, 0)
  revertToLastCommit := fun n => (n, 0)
  revertToStart := fun _ => (0, 0)

/-- Coulomb friction of coefficient `mu`: friction force `mu*N` for a positive
normal force `N`, zero otherwise; the state is the trial normal force. -/
def coulombFriction (mu : α) : FrictionModel α α where
  setTrial := fun _ N _ => N
  getFrictionForce := fun N => if N > 0 then mu * N else 0
  commitState := fun N => (N, 0)
  revertToLastCommit := fun N => (N, 0)
  revertToStart := fun _ => (0, 0)

/-- The element left by the constructor and `setUp` for nodes `0.1` apart
along global x with orientation `x = (1,0,0)`, `y = (0,1,0)`, yield
displacement `0.01`, four elastic materials of modulus `1000`, friction model
state `f0`, and the given iteration cap and tolerance. -/
def bearing {F : Type} (f0 : F) (maxIter : Int) (tol : ℚ) : FlatSliderSimple3d ℚ (ℚ × ℚ) F :=
  { theFrnMdl := f0, theMaterials := fun _ => (0, 0), uy := 1 / 100,
    x := some ![1, 0, 0], y := some ![0, 1, 0], mass := 0, maxIter := maxIter, tol := tol,
    L := 1 / 10, ub := 0, ubPlastic := 0, qb := 0,
    kb := initialStiffness (elasticMaterial 1000) (fun _ => (0, 0)),
    ul := 0, Tgl := 1, Tlb := localToBasic (1 / 10), ubPlasticC := 0,
    kbInit := initialStiffness (elasticMaterial 1000) (fun _ => (0, 0)) }

/-- Nodal displacement with translations `a`, `d` along x and y and rotation
`r` about z. -/
def nodal (a d r : ℚ) : Fin 6 → ℚ := ![a, d, 0, 0, 0, r]

/-! ## Frame and loop lemmas -/

section General

variable (mat : UniaxialMaterial α M) (frn : FrictionModel α F) (sqrt : α → α)

theorem shearPass_ubPlasticC (ubdotAbs : α) (e : FlatSliderSimple3d α M F) :
    (shearPass frn sqrt ubdotAbs e).ubPlasticC = e.ubPlasticC := by
  unfold shearPass
  split <;> rfl

theorem shearPass_theMaterials (ubdotAbs : α) (e : FlatSliderSimple3d α M F) :
    (shearPass frn sqrt ubdotAbs e).theMaterials = e.theMaterials := by
  unfold shearPass
  split <;> rfl

theorem shearLoop_ubPlasticC (ubdotAbs : α) (maxIter : Int) (tol : α)
    (e : FlatSliderSimple3d α M F) (iter : Int) :
    (shearLoop frn sqrt ubdotAbs maxIter tol e iter).e.ubPlasticC = e.ubPlasticC := by
  induction e, iter using shearLoop.induct frn sqrt ubdotAbs maxIter tol with
  | case1 e iter r h ih =>
    rw [shearLoop, dif_pos h, ih]
    exact shearPass_ubPlasticC frn sqrt ubdotAbs e
  | case2 e iter r h =>
    rw [shearLoop, dif_neg h]
    exact shearPass_ubPlasticC frn sqrt ubdotAbs e

theorem shearLoop_theMaterials (ubdotAbs : α) (maxIter : Int) (tol : α)
    (e : FlatSliderSimple3d α M F) (iter : Int) :
    (shearLoop frn sqrt ubdotAbs maxIter tol e iter).e.theMaterials = e.theMaterials := by
  induction e, iter using shearLoop.induct frn sqrt ubdotAbs maxIter tol with
  | case1 e iter r h ih =>
    rw [shearLoop, dif_pos h, ih]
    exact shearPass_theMaterials frn sqrt ubdotAbs e
  | case2 e iter r h =>
    rw [shearLoop, dif_neg h]
    exact shearPass_theMaterials frn sqrt ubdotAbs e

/-- When the loop is left, its condition is false: the last change is below
`tol` or the counter is above `maxIter`. -/
theorem shearLoop_exit (ubdotAbs : α) (maxIter : Int) (tol : α)
    (e : FlatSliderSimple3d α M F) (iter : Int) :
    ¬ ((shearLoop frn sqrt ubdotAbs maxIter tol e iter).change sqrt ≥ tol ∧
       (shearLoop frn sqrt ubdotAbs maxIter tol e iter).iter ≤ maxIter) := by
  induction e, iter using shearLoop.induct frn sqrt ubdotAbs maxIter tol with
  | case1 e iter r h ih =>
    rw [shearLoop, dif_pos h]
    exact ih
  | case2 e iter r h =>
    rw [shearLoop, dif_neg h]
    exact h

/-- The counter grows by at least one over the loop. -/
theorem shearLoop_iter_gt (ubdotAbs : α) (maxIter : Int) (tol : α)
    (e : FlatSliderSimple3d α M F) (iter : Int) :
    iter < (shearLoop frn sqrt ubdotAbs maxIter tol e iter).iter := by
  induction e, iter using shearLoop.induct frn sqrt ubdotAbs maxIter tol with
  | case1 e iter r h ih =>
    rw [shearLoop, dif_pos h]
    exact lt_trans (by omega) ih
  | case2 e iter r h =>
    rw [shearLoop, dif_neg h]
    show iter < iter + 1
    omega

theorem update_of_uplift (e : FlatSliderSimple3d α M F) (dsp1 dsp2 vel1 vel2 : Fin 6 → α)
    (h : 0 ≤ axialForce mat e dsp1 dsp2 vel1 vel2) :
    update mat frn sqrt e dsp1 dsp2 vel1 vel2 =
      (upliftBranch mat (axialTrial mat e dsp1 dsp2 vel1 vel2)
        (mat.getStrain (e.theMaterials 0)), 0) := by
  unfold update
  exact if_pos h

theorem update_of_contact (e : FlatSliderSimple3d α M F) (dsp1 dsp2 vel1 vel2 : Fin 6 → α)
    (h : axialForce mat e dsp1 dsp2 vel1 vel2 < 0) :
    update mat frn sqrt e dsp1 dsp2 vel1 vel2 =
      if (shearSolve mat frn sqrt e dsp1 dsp2 vel1 vel2).iter ≥ e.maxIter then
        ((shearSolve mat frn sqrt e dsp1 dsp2 vel1 vel2).e, -1)
      else (rotationalTrial mat (shearSolve mat frn sqrt e dsp1 dsp2 vel1 vel2).e
        (basicDisp e vel1 vel2), 0) := by
  unfold update
  exact if_neg (not_le.mpr h)

theorem upliftBranch_ubPlasticC (e : FlatSliderSimple3d α M F) (ub0Old : α) :
    (upliftBranch mat e ub0Old).ubPlasticC = e.ubPlasticC := by
  unfold upliftBranch
  dsimp only
  split <;> rfl

theorem upliftBranch_qb (e : FlatSliderSimple3d α M F) (ub0Old : α) :
    (upliftBranch mat e ub0Old).qb = 0 := by
  unfold upliftBranch
  rfl

theorem upliftBranch_kb (e : FlatSliderSimple3d α M F) (ub0Old : α) :
    (upliftBranch mat e ub0Old).kb =
      if 0 < e.qb 0 then setEntry e.kbInit 0 0 (e.kbInit 0 0 * DBL_EPSILON) else e.kbInit := by
  unfold upliftBranch
  dsimp only
  split <;> rfl

theorem update_kb_of_uplift (e : FlatSliderSimple3d α M F) (dsp1 dsp2 vel1 vel2 : Fin 6 → α)
    (h : 0 ≤ axialForce mat e dsp1 dsp2 vel1 vel2) :
    (update mat frn sqrt e dsp1 dsp2 vel1 vel2).1.kb =
      if 0 < axialForce mat e dsp1 dsp2 vel1 vel2 then
        setEntry e.kbInit 0 0 (e.kbInit 0 0 * DBL_EPSILON)
      else e.kbInit := by
  rw [update_of_uplift mat frn sqrt e dsp1 dsp2 vel1 vel2 h]
  exact upliftBranch_kb mat _ _

theorem initialStiffness_axial (materials : Fin 4 → M) :
    initialStiffness mat materials 0 0 = mat.getInitialTangent (materials 0) := by
  simp [initialStiffness, setEntry]

theorem shearPass_readOnlyPart (ubdotAbs : α) (e : FlatSliderSimple3d α M F) :
    readOnlyPart (shearPass frn sqrt ubdotAbs e) = readOnlyPart e := by
  unfold shearPass
  split <;> rfl

theorem shearLoop_readOnlyPart (ubdotAbs : α) (maxIter : Int) (tol : α)
    (e : FlatSliderSimple3d α M F) (iter : Int) :
    readOnlyPart (shearLoop frn sqrt ubdotAbs maxIter tol e iter).e = readOnlyPart e := by
  induction e, iter using shearLoop.induct frn sqrt ubdotAbs maxIter tol with
  | case1 e iter r h ih =>
    rw [shearLoop, dif_pos h, ih]
    exact shearPass_readOnlyPart frn sqrt ubdotAbs e
  | case2 e iter r h =>
    rw [shearLoop, dif_neg h]
    exact shearPass_readOnlyPart frn sqrt ubdotAbs e

theorem upliftBranch_readOnlyPart (e : FlatSliderSimple3d α M F) (ub0Old : α) :
    readOnlyPart (upliftBranch mat e ub0Old) = readOnlyPart e := by
  unfold upliftBranch
  dsimp only
  split <;> rfl

theorem update_readOnlyPart (e : FlatSliderSimple3d α M F) (dsp1 dsp2 vel1 vel2 : Fin 6 → α) :
    readOnlyPart (update mat frn sqrt e dsp1 dsp2 vel1 vel2).1 = readOnlyPart e := by
  unfold update
  dsimp only
  split
  · exact upliftBranch_readOnlyPart mat _ _
  · split
    · exact shearLoop_readOnlyPart frn sqrt _ _ _ _ _
    · exact shearLoop_readOnlyPart frn sqrt _ _ _ _ _

theorem update_Tgl (e : FlatSliderSimple3d α M F) (dsp1 dsp2 vel1 vel2 : Fin 6 → α) :
    (update mat frn sqrt e dsp1 dsp2 vel1 vel2).1.Tgl = e.Tgl :=
  congrArg (fun p => p.2.2.2.1) (update_readOnlyPart mat frn sqrt e dsp1 dsp2 vel1 vel2)

theorem update_Tlb (e : FlatSliderSimple3d α M F) (dsp1 dsp2 vel1 vel2 : Fin 6 → α) :
    (update mat frn sqrt e dsp1 dsp2 vel1 vel2).1.Tlb = e.Tlb :=
  congrArg (fun p => p.2.2.2.2.1) (update_readOnlyPart mat frn sqrt e dsp1 dsp2 vel1 vel2)

theorem update_uy (e : FlatSliderSimple3d α M F) (dsp1 dsp2 vel1 vel2 : Fin 6 → α) :
    (update mat frn sqrt e dsp1 dsp2 vel1 vel2).1.uy = e.uy :=
  congrArg (fun p => p.1) (update_readOnlyPart mat frn sqrt e dsp1 dsp2 vel1 vel2)

theorem update_maxIter (e : FlatSliderSimple3d α M F) (dsp1 dsp2 vel1 vel2 : Fin 6 → α) :
    (update mat frn sqrt e dsp1 dsp2 vel1 vel2).1.maxIter = e.maxIter :=
  congrArg (fun p => p.2.1) (update_readOnlyPart mat frn sqrt e dsp1 dsp2 vel1 vel2)

theorem update_tol (e : FlatSliderSimple3d α M F) (dsp1 dsp2 vel1 vel2 : Fin 6 → α) :
    (update mat frn sqrt e dsp1 dsp2 vel1 vel2).1.tol = e.tol :=
  congrArg (fun p => p.2.2.1) (update_readOnlyPart mat frn sqrt e dsp1 dsp2 vel1 vel2)

theorem update_kbInit (e : FlatSliderSimple3d α M F) (dsp1 dsp2 vel1 vel2 : Fin 6 → α) :
    (update mat frn sqrt e dsp1 dsp2 vel1 vel2).1.kbInit = e.kbInit :=
  congrArg (fun p => p.2.2.2.2.2.1) (update_readOnlyPart mat frn sqrt e dsp1 dsp2 vel1 vel2)

theorem update_ubPlasticC_eq (e : FlatSliderSimple3d α M F) (dsp1 dsp2 vel1 vel2 : Fin 6 → α) :
    (update mat frn sqrt e dsp1 dsp2 vel1 vel2).1.ubPlasticC = e.ubPlasticC :=
  congrArg (fun p => p.2.2.2.2.2.2) (update_readOnlyPart mat frn sqrt e dsp1 dsp2 vel1 vel2)

end General

/-! ## Claims about `update`, `commitState` and `revertToLastCommit` -/

section Claims

variable (mat : UniaxialMaterial α M) (frn : FrictionModel α F) (sqrt : α → α)

/-- C1: whenever the axial sub-model returns an axial force `>= 0` for the
trial kinematics, `update` returns 0 and all six components of the basic force
are zero afterwards. -/
theorem update_uplift_returns_zero_force (e : FlatSliderSimple3d α M F)
    (dsp1 dsp2 vel1 vel2 : Fin 6 → α) (h : 0 ≤ axialForce mat e dsp1 dsp2 vel1 vel2) :
    (update mat frn sqrt e dsp1 dsp2 vel1 vel2).2 = 0 ∧
      ∀ i : Fin 6, (update mat frn sqrt e dsp1 dsp2 vel1 vel2).1.qb i = 0 := by
  rw [update_of_uplift mat frn sqrt e dsp1 dsp2 vel1 vel2 h]
  exact ⟨rfl, fun i => congrFun (upliftBranch_qb mat _ _) i⟩

/-- C2 (amended): for an element whose `kbInit` is the matrix built by the
constructor from materials `ms`, an update with strictly positive axial force
leaves the basic stiffness equal to `kbInit` except for entry (0,0), which is
the initial axial tangent times `DBL_EPSILON`; an update with axial force
exactly zero leaves the basic stiffness equal to `kbInit`, axial entry
included. -/
theorem update_uplift_stiffness (e : FlatSliderSimple3d α M F) (ms : Fin 4 → M)
    (dsp1 dsp2 vel1 vel2 : Fin 6 → α) (hk : e.kbInit = initialStiffness mat ms)
    (h : 0 ≤ axialForce mat e dsp1 dsp2 vel1 vel2) :
    (update mat frn sqrt e dsp1 dsp2 vel1 vel2).1.kb =
      if 0 < axialForce mat e dsp1 dsp2 vel1 vel2 then
        setEntry (initialStiffness mat ms) 0 0 (mat.getInitialTangent (ms 0) * DBL_EPSILON)
      else initialStiffness mat ms := by
  rw [update_kb_of_uplift mat frn sqrt e dsp1 dsp2 vel1 vel2 h, hk,
    initialStiffness_axial]

/-- C3: when the element is in contact and the shear loop is left with the
last change of the shear-force pair still `>= tol`, `update` returns -1 (so it
does not return 0), and the torsion and the two bending materials are left as
they were. -/
theorem update_unconverged_fails (e : FlatSliderSimple3d α M F)
    (dsp1 dsp2 vel1 vel2 : Fin 6 → α) (hc : axialForce mat e dsp1 dsp2 vel1 vel2 < 0)
    (hu : e.tol ≤ (shearSolve mat frn sqrt e dsp1 dsp2 vel1 vel2).change sqrt) :
    (update mat frn sqrt e dsp1 dsp2 vel1 vel2).2 = -1 ∧
      (update mat frn sqrt e dsp1 dsp2 vel1 vel2).2 ≠ 0 ∧
      ∀ i : Fin 4, i ≠ 0 →
        (update mat frn sqrt e dsp1 dsp2 vel1 vel2).1.theMaterials i = e.theMaterials i := by
  have hexit := shearLoop_exit frn sqrt (slidingSpeed sqrt e vel1 vel2) e.maxIter e.tol
    (axialTrial mat e dsp1 dsp2 vel1 vel2) 0
  have hiter : e.maxIter ≤ (shearSolve mat frn sqrt e dsp1 dsp2 vel1 vel2).iter := by
    by_contra hlt
    exact hexit ⟨hu, le_of_lt (not_le.mp hlt)⟩
  rw [update_of_contact mat frn sqrt e dsp1 dsp2 vel1 vel2 hc, if_pos hiter]
  refine ⟨rfl, (by decide : (-1 : Int) ≠ 0), fun i hi => ?_⟩
  show (shearLoop frn sqrt _ _ _ _ _).e.theMaterials i = _
  rw [shearLoop_theMaterials]
  exact Function.update_noteq hi _ _

/-- C6: `update` never changes the committed plastic shear displacement,
whatever the state, the trial kinematics and the returned status. -/
theorem update_keeps_committed_plastic (e : FlatSliderSimple3d α M F)
    (dsp1 dsp2 vel1 vel2 : Fin 6 → α) :
    (update mat frn sqrt e dsp1 dsp2 vel1 vel2).1.ubPlasticC = e.ubPlasticC :=
  update_ubPlasticC_eq mat frn sqrt e dsp1 dsp2 vel1 vel2

/-- C10: in a pass that takes the plastic branch (trial shear-force norm `a`
greater than the yield force `Fy`, with `k0 = Fy/uy`), the trial plastic shear
displacement becomes the committed one plus `(a - Fy)/k0` times the trial
shear force `k0*(ub - ubPlasticC)` divided by its norm `a`. -/
theorem plastic_pass_plastic_displacement (ubdotAbs : α) (e : FlatSliderSimple3d α M F)
    (a Fy k0 : α) (ha : a = passTrialNorm frn sqrt ubdotAbs e)
    (hFy : Fy = passYield frn ubdotAbs e) (hk : k0 = Fy / e.uy) (h : Fy < a) :
    (shearPass frn sqrt ubdotAbs e).ubPlastic =
      ![e.ubPlasticC 0 + (a - Fy) / k0 * (k0 * (e.ub 1 - e.ubPlasticC 0) / a),
        e.ubPlasticC 1 + (a - Fy) / k0 * (k0 * (e.ub 2 - e.ubPlasticC 1) / a)] := by
  subst ha hFy hk
  have hY : ¬ passY frn sqrt ubdotAbs e ≤ 0 := by
    unfold passY
    exact not_le.mpr (sub_pos.mpr h)
  unfold shearPass
  rw [if_neg hY]
  unfold plasticStep passY passTrial passK0
  simp only [Matrix.cons_val_zero, Matrix.cons_val_one, Matrix.head_cons, mul_div_assoc]

end Claims

/-! ## Concrete runs -/

section Runs

theorem sum_univ_twelve {β : Type} [AddCommMonoid β] (f : Fin 12 → β) :
    ∑ i, f i = f 0 + (f 1 + (f 2 + (f 3 + (f 4 + (f 5 + (f 6 + (f 7 + (f 8 + (f 9 +
      (f 10 + f 11)))))))))) := by
  simp only [Fin.sum_univ_succ, Fin.sum_univ_zero, add_zero]
  rfl

theorem localToBasic_mulVec (L : α) (u : Fin 12 → α) :
    (localToBasic L).mulVec u = ![u 6 - u 0, u 7 - u 1 - L * u 11, u 8 - u 2 + L * u 10,
      u 9 - u 3, u 10 - u 4, u 11 - u 5] := by
  funext i
  fin_cases i <;>
    simp +decide [localToBasic, Matrix.mulVec, Matrix.dotProduct, sum_univ_twelve] <;>
    (try ring1)
  show -u 5 + u 11 = u 11 - u 5
  ring

theorem basicDisp_of_unit (e : FlatSliderSimple3d α M F) (L : α) (h1 : e.Tgl = 1)
    (h2 : e.Tlb = localToBasic L) (d1 d2 : Fin 6 → α) :
    basicDisp e d1 d2 = ![d2 0 - d1 0, d2 1 - d1 1 - L * d2 5, d2 2 - d1 2 + L * d2 4,
      d2 3 - d1 3, d2 4 - d1 4, d2 5 - d1 5] := by
  rw [basicDisp, localDisp, h1, h2, Matrix.one_mulVec, localToBasic_mulVec]
  rfl

theorem localDisp_of_unit (e : FlatSliderSimple3d α M F) (h1 : e.Tgl = 1) (d1 d2 : Fin 6 → α) :
    localDisp e d1 d2 = stack d1 d2 := by
  rw [localDisp, h1, Matrix.one_mulVec]

theorem nodal_apply (a d r : ℚ) :
    nodal a d r 0 = a ∧ nodal a d r 1 = d ∧ nodal a d r 2 = 0 ∧ nodal a d r 3 = 0 ∧
      nodal a d r 4 = 0 ∧ nodal a d r 5 = r :=
  ⟨rfl, rfl, rfl, rfl, rfl, rfl⟩

/-! ### One pass, field by field -/

section Pass

variable (frn : FrictionModel α F) (sqrt : α → α) (v : α) (e : FlatSliderSimple3d α M F)

theorem shearPass_of_elastic (h : passY frn sqrt v e ≤ 0) :
    shearPass frn sqrt v e = elasticStep frn v e := by
  unfold shearPass
  exact if_pos h

theorem shearPass_of_plastic (h : 0 < passY frn sqrt v e) :
    shearPass frn sqrt v e = plasticStep frn sqrt v e := by
  unfold shearPass
  exact if_neg (not_le.mpr h)

theorem elasticStep_qb_one :
    (elasticStep frn v e).qb 1 = passTrial frn v e 0 - normalForce e * e.ul 5 := by
  simp [elasticStep]

theorem elasticStep_qb_two :
    (elasticStep frn v e).qb 2 = passTrial frn v e 1 + normalForce e * e.ul 4 := by
  simp [elasticStep]

theorem plasticStep_qb_one :
    (plasticStep frn sqrt v e).qb 1 =
      passYield frn v e * passTrial frn v e 0 / passTrialNorm frn sqrt v e
        - normalForce e * e.ul 5 := by
  simp [plasticStep]

theorem plasticStep_qb_two :
    (plasticStep frn sqrt v e).qb 2 =
      passYield frn v e * passTrial frn v e 1 / passTrialNorm frn sqrt v e
        + normalForce e * e.ul 4 := by
  simp [plasticStep]

omit [LinearOrderedField α] in
theorem rotationalTrial_qb_one (mat : UniaxialMaterial α M) (u : Fin 6 → α) :
    (rotationalTrial mat e u).qb 1 = e.qb 1 := by
  simp [rotationalTrial]

omit [LinearOrderedField α] in
theorem rotationalTrial_qb_two (mat : UniaxialMaterial α M) (u : Fin 6 → α) :
    (rotationalTrial mat e u).qb 2 = e.qb 2 := by
  simp [rotationalTrial]

theorem shearPass_qb_zero : (shearPass frn sqrt v e).qb 0 = e.qb 0 := by
  unfold shearPass
  split <;> simp [elasticStep, plasticStep]

theorem shearPass_ul : (shearPass frn sqrt v e).ul = e.ul := by
  unfold shearPass
  split <;> rfl

theorem shearPass_ub : (shearPass frn sqrt v e).ub = e.ub := by
  unfold shearPass
  split <;> rfl

theorem shearPass_uy : (shearPass frn sqrt v e).uy = e.uy := by
  unfold shearPass
  split <;> rfl

theorem shearPass_theFrnMdl :
    (shearPass frn sqrt v e).theFrnMdl = passFriction frn v e := by
  unfold shearPass
  split <;> rfl

end Pass

/-! ### The loop, one round at a time -/

section Rounds

variable (frn : FrictionModel α F) (sqrt : α → α) (v : α) (maxIter : Int) (tol : α)
  (e : FlatSliderSimple3d α M F) (iter : Int)

theorem shearLoop_stop
    (h : ¬ (tol ≤ sqrt (((shearPass frn sqrt v e).qb 1 - e.qb 1) ^ 2 +
        ((shearPass frn sqrt v e).qb 2 - e.qb 2) ^ 2) ∧ iter + 1 ≤ maxIter)) :
    shearLoop frn sqrt v maxIter tol e iter =
      { e := shearPass frn sqrt v e, qbOld := ![e.qb 1, e.qb 2], iter := iter + 1 } := by
  rw [shearLoop]
  exact dif_neg h

theorem shearLoop_step
    (h : tol ≤ sqrt (((shearPass frn sqrt v e).qb 1 - e.qb 1) ^ 2 +
        ((shearPass frn sqrt v e).qb 2 - e.qb 2) ^ 2) ∧ iter + 1 ≤ maxIter) :
    shearLoop frn sqrt v maxIter tol e iter =
      shearLoop frn sqrt v maxIter tol (shearPass frn sqrt v e) (iter + 1) := by
  rw [shearLoop]
  exact dif_pos h

end Rounds

/-! ### Passes with the shear deformation along basic y only -/

section Axis

variable (frn : FrictionModel ℚ F) (v Fy t : ℚ) (s : FlatSliderSimple3d ℚ M F)

theorem axis_quantities (h4 : s.ul 4 = 0) (hz : s.ub 2 = s.ubPlasticC 1)
    (hFy : passYield frn v s = Fy) (ht : Fy / s.uy * (s.ub 1 - s.ubPlasticC 0) = t) :
    passTrial frn v s 0 = t ∧ passTrial frn v s 1 = 0 ∧
      passTrialNorm frn Rat.sqrt v s = |t| ∧ passY frn Rat.sqrt v s = |t| - Fy ∧
      normalForce s * s.ul 4 = 0 := by
  have h0 : passTrial frn v s 0 = t := by
    simp only [passTrial, passK0, hFy, Matrix.cons_val_zero]
    exact ht
  have h1 : passTrial frn v s 1 = 0 := by
    simp only [passTrial, Matrix.cons_val_one, Matrix.head_cons, hz, sub_self, mul_zero]
  have hn : passTrialNorm frn Rat.sqrt v s = |t| := by
    rw [passTrialNorm, Norm, Fin.sum_univ_two, h0, h1, mul_zero, add_zero, Rat.sqrt_eq]
  refine ⟨h0, h1, hn, ?_, ?_⟩
  · rw [passY, hn, hFy]
  · rw [h4, mul_zero]

theorem axis_pass_elastic (h4 : s.ul 4 = 0) (hz : s.ub 2 = s.ubPlasticC 1)
    (hFy : passYield frn v s = Fy) (ht : Fy / s.uy * (s.ub 1 - s.ubPlasticC 0) = t)
    (hel : |t| ≤ Fy) :
    (shearPass frn Rat.sqrt v s).qb 1 = t - normalForce s * s.ul 5 ∧
      (shearPass frn Rat.sqrt v s).qb 2 = 0 ∧
      (shearPass frn Rat.sqrt v s).ubPlastic = s.ubPlastic := by
  obtain ⟨h0, h1, _, hY, hr4⟩ := axis_quantities frn v Fy t s h4 hz hFy ht
  rw [shearPass_of_elastic frn Rat.sqrt v s (by rw [hY]; exact sub_nonpos.mpr hel)]
  refine ⟨?_, ?_, rfl⟩
  · rw [elasticStep_qb_one, h0]
  · rw [elasticStep_qb_two, h1, hr4, add_zero]

theorem axis_pass_plastic (h4 : s.ul 4 = 0) (hz : s.ub 2 = s.ubPlasticC 1)
    (hFy : passYield frn v s = Fy) (ht : Fy / s.uy * (s.ub 1 - s.ubPlasticC 0) = t)
    (hpl : Fy < |t|) :
    (shearPass frn Rat.sqrt v s).qb 1 = Fy * t / |t| - normalForce s * s.ul 5 ∧
      (shearPass frn Rat.sqrt v s).qb 2 = 0 ∧
      (shearPass frn Rat.sqrt v s).ubPlastic =
        ![s.ubPlasticC 0 + (|t| - Fy) / (Fy / s.uy) * t / |t|, s.ubPlasticC 1] := by
  obtain ⟨h0, h1, hn, hY, hr4⟩ := axis_quantities frn v Fy t s h4 hz hFy ht
  rw [shearPass_of_plastic frn Rat.sqrt v s (by rw [hY]; exact sub_pos.mpr hpl)]
  refine ⟨?_, ?_, ?_⟩
  · rw [plasticStep_qb_one, h0, hn, hFy]
  · rw [plasticStep_qb_two, h1, hr4, mul_zero, zero_div, add_zero]
  · simp only [plasticStep, h0, h1, hn, hY, passK0, hFy, mul_zero, zero_div, add_zero]

end Axis

section AxisLoop

variable (frn : FrictionModel ℚ F) (v Fy t : ℚ) (s : FlatSliderSimple3d ℚ M F)

/-- Shear forces after a pass without rotation: the trial force, or the
yield force along it. -/
theorem axis_pass_force (h4 : s.ul 4 = 0) (h5 : s.ul 5 = 0) (hz : s.ub 2 = s.ubPlasticC 1)
    (hFy : passYield frn v s = Fy) (ht : Fy / s.uy * (s.ub 1 - s.ubPlasticC 0) = t) :
    (shearPass frn Rat.sqrt v s).qb 1 = (if |t| ≤ Fy then t else Fy * t / |t|) ∧
      (shearPass frn Rat.sqrt v s).qb 2 = 0 ∧
      (shearPass frn Rat.sqrt v s).ubPlastic = (if |t| ≤ Fy then s.ubPlastic else
        ![s.ubPlasticC 0 + (|t| - Fy) / (Fy / s.uy) * t / |t|, s.ubPlasticC 1]) := by
  by_cases hel : |t| ≤ Fy
  · obtain ⟨h1, h2, h3⟩ := axis_pass_elastic frn v Fy t s h4 hz hFy ht hel
    rw [if_pos hel, if_pos hel, h1, h2, h3, h5, mul_zero, sub_zero]
    exact ⟨rfl, rfl, rfl⟩
  · obtain ⟨h1, h2, h3⟩ := axis_pass_plastic frn v Fy t s h4 hz hFy ht (not_le.mp hel)
    rw [if_neg hel, if_neg hel, h1, h2, h3, h5, mul_zero, sub_zero]
    exact ⟨rfl, rfl, rfl⟩

theorem sqrt_axis (a : ℚ) : Rat.sqrt (a ^ 2 + (0 - 0) ^ 2) = |a| := by
  rw [show a ^ 2 + (0 - 0) ^ 2 = a * a by ring, Rat.sqrt_eq]

theorem sqrt_rest : Rat.sqrt ((0 : ℚ) ^ 2 + 0 ^ 2) = 0 := by
  norm_num

/-- Shear forces and plastic displacement after a second pass without
rotation, for a yield force that does not depend on the state. -/
theorem axis_pass_twice (h4 : s.ul 4 = 0) (h5 : s.ul 5 = 0) (hz : s.ub 2 = s.ubPlasticC 1)
    (hFy : ∀ s1 : FlatSliderSimple3d ℚ M F, passYield frn v s1 = Fy)
    (ht : Fy / s.uy * (s.ub 1 - s.ubPlasticC 0) = t) :
    (shearPass frn Rat.sqrt v (shearPass frn Rat.sqrt v s)).qb 1 =
        (if |t| ≤ Fy then t else Fy * t / |t|) ∧
      (shearPass frn Rat.sqrt v (shearPass frn Rat.sqrt v s)).qb 2 = 0 ∧
      (shearPass frn Rat.sqrt v (shearPass frn Rat.sqrt v s)).ubPlastic =
        (if |t| ≤ Fy then s.ubPlastic else
          ![s.ubPlasticC 0 + (|t| - Fy) / (Fy / s.uy) * t / |t|, s.ubPlasticC 1]) := by
  have h4b : (shearPass frn Rat.sqrt v s).ul 4 = 0 := by rw [shearPass_ul]; exact h4
  have h5b : (shearPass frn Rat.sqrt v s).ul 5 = 0 := by rw [shearPass_ul]; exact h5
  have hzb : (shearPass frn Rat.sqrt v s).ub 2 = (shearPass frn Rat.sqrt v s).ubPlasticC 1 := by
    rw [shearPass_ub, shearPass_ubPlasticC]; exact hz
  have htb : Fy / (shearPass frn Rat.sqrt v s).uy * ((shearPass frn Rat.sqrt v s).ub 1 -
      (shearPass frn Rat.sqrt v s).ubPlasticC 0) = t := by
    rw [shearPass_uy, shearPass_ub, shearPass_ubPlasticC]; exact ht
  obtain ⟨hk1, hk2, hk3⟩ := axis_pass_force frn v Fy t (shearPass frn Rat.sqrt v s) h4b h5b hzb
    (hFy _) htb
  refine ⟨hk1, hk2, ?_⟩
  rw [hk3, shearPass_uy, shearPass_ubPlasticC]
  by_cases hel : |t| ≤ Fy
  · rw [if_pos hel, if_pos hel]
    exact (axis_pass_force frn v Fy t s h4 h5 hz (hFy s) ht).2.2.trans (if_pos hel)
  · rw [if_neg hel, if_neg hel]

/-- Two passes of the loop when the first one moves the shear force by at
least `tol` and the yield force does not depend on the state. -/
theorem axis_loop_two (maxIter : Int) (tol : ℚ) (h4 : s.ul 4 = 0) (h5 : s.ul 5 = 0)
    (hz : s.ub 2 = s.ubPlasticC 1)
    (hFy : ∀ s1 : FlatSliderSimple3d ℚ M F, passYield frn v s1 = Fy)
    (ht : Fy / s.uy * (s.ub 1 - s.ubPlasticC 0) = t) (hq : s.qb 2 = 0) (htol : 0 < tol)
    (hmove : tol ≤ |(if |t| ≤ Fy then t else Fy * t / |t|) - s.qb 1|) (hm : 1 ≤ maxIter) :
    shearLoop frn Rat.sqrt v maxIter tol s 0 =
      { e := shearPass frn Rat.sqrt v (shearPass frn Rat.sqrt v s),
        qbOld := ![(if |t| ≤ Fy then t else Fy * t / |t|), 0], iter := 2 } := by
  obtain ⟨hg1, hg2, _⟩ := axis_pass_force frn v Fy t s h4 h5 hz (hFy s) ht
  obtain ⟨hk1, hk2, _⟩ := axis_pass_twice frn v Fy t s h4 h5 hz hFy ht
  rw [shearLoop_step, shearLoop_stop, hg1, hg2]
  · rfl
  · rw [hk1, hk2, hg1, hg2, sub_self, sub_self, sqrt_rest]
    intro hcon
    exact absurd hcon.1 (not_le.mpr htol)
  · rw [hg1, hg2, hq, sqrt_axis]
    exact ⟨hmove, by omega⟩

/-- One pass of the loop when the cap is below one. -/
theorem loop_capped (maxIter : Int) (tol : ℚ) (hm : maxIter < 1) :
    shearLoop frn Rat.sqrt v maxIter tol s 0 =
      { e := shearPass frn Rat.sqrt v s, qbOld := ![s.qb 1, s.qb 2], iter := 1 } := by
  rw [shearLoop_stop]
  · rfl
  · intro hcon
    omega

end AxisLoop

/-! ### A unit-frame element with elastic materials, pushed along x and y -/

section Push

variable (E : FlatSliderSimple3d ℚ (ℚ × ℚ) F) (L : ℚ) (hT : E.Tgl = 1)
  (hL : E.Tlb = localToBasic L) (a d r : ℚ)

include hT hL

theorem push_ub :
    (axialTrial (elasticMaterial 1000) E (nodal 0 0 r) (nodal a d 0) 0 0).ub =
      ![a, d, 0, 0, 0, -r] := by
  show basicDisp E (nodal 0 0 r) (nodal a d 0) = _
  rw [basicDisp_of_unit E L hT hL]
  simp [nodal_apply]

omit hL in
theorem push_ul :
    (axialTrial (elasticMaterial 1000) E (nodal 0 0 r) (nodal a d 0) 0 0).ul 4 = 0 ∧
      (axialTrial (elasticMaterial 1000) E (nodal 0 0 r) (nodal a d 0) 0 0).ul 5 = r := by
  constructor
  · show localDisp E (nodal 0 0 r) (nodal a d 0) 4 = 0
    rw [localDisp_of_unit E hT]
    rfl
  · show localDisp E (nodal 0 0 r) (nodal a d 0) 5 = r
    rw [localDisp_of_unit E hT]
    rfl

theorem push_axialForce :
    axialForce (elasticMaterial 1000) E (nodal 0 0 r) (nodal a d 0) 0 0 = 1000 * a := by
  show Function.update E.qb 0 (1000 * basicDisp E (nodal 0 0 r) (nodal a d 0) 0) 0 = _
  rw [Function.update_same, basicDisp_of_unit E L hT hL]
  simp [nodal_apply]

theorem push_slidingSpeed : slidingSpeed Rat.sqrt E 0 0 = 0 := by
  rw [slidingSpeed, basicDisp_of_unit E L hT hL]
  simp

end Push

section PushSolve

variable (frn : FrictionModel ℚ F) (Fy t : ℚ) (hFy : ∀ f, frn.getFrictionForce f = Fy)
  (E : FlatSliderSimple3d ℚ (ℚ × ℚ) F) (L : ℚ) (hT : E.Tgl = 1)
  (hL : E.Tlb = localToBasic L) (a d : ℚ) (hC : E.ubPlasticC 1 = 0)
  (ht : Fy / E.uy * (d - E.ubPlasticC 0) = t)

include hFy hT hL hC ht

/-- The loop of a push without rotation that needs a second pass. -/
theorem push_solve (hq : E.qb 2 = 0) (htol : 0 < E.tol)
    (hmove : E.tol ≤ |(if |t| ≤ Fy then t else Fy * t / |t|) - E.qb 1|) (hm : 1 ≤ E.maxIter) :
    shearSolve (elasticMaterial 1000) frn Rat.sqrt E (nodal 0 0 0) (nodal a d 0) 0 0 =
      { e := shearPass frn Rat.sqrt 0 (shearPass frn Rat.sqrt 0
          (axialTrial (elasticMaterial 1000) E (nodal 0 0 0) (nodal a d 0) 0 0)),
        qbOld := ![(if |t| ≤ Fy then t else Fy * t / |t|), 0], iter := 2 } := by
  have hub := push_ub E L hT hL a d 0
  have hul := push_ul E hT a d 0
  rw [shearSolve, push_slidingSpeed E L hT hL]
  refine axis_loop_two frn 0 Fy t _ _ _ hul.1 hul.2 ?_ (fun _ => hFy _) ?_ hq htol hmove hm
  · rw [hub]
    exact hC.symm
  · rw [hub]
    exact ht

/-- Shear forces and plastic displacement left by those two passes. -/
theorem push_fields :
    (shearPass frn Rat.sqrt 0 (shearPass frn Rat.sqrt 0
        (axialTrial (elasticMaterial 1000) E (nodal 0 0 0) (nodal a d 0) 0 0))).qb 1 =
        (if |t| ≤ Fy then t else Fy * t / |t|) ∧
      (shearPass frn Rat.sqrt 0 (shearPass frn Rat.sqrt 0
        (axialTrial (elasticMaterial 1000) E (nodal 0 0 0) (nodal a d 0) 0 0))).qb 2 = 0 ∧
      (shearPass frn Rat.sqrt 0 (shearPass frn Rat.sqrt 0
        (axialTrial (elasticMaterial 1000) E (nodal 0 0 0) (nodal a d 0) 0 0))).ubPlastic =
        (if |t| ≤ Fy then E.ubPlastic else
          ![E.ubPlasticC 0 + (|t| - Fy) / (Fy / E.uy) * t / |t|, E.ubPlasticC 1]) := by
  have hub := push_ub E L hT hL a d 0
  have hul := push_ul E hT a d 0
  refine axis_pass_twice frn 0 Fy t _ hul.1 hul.2 ?_ (fun _ => hFy _) ?_
  · rw [hub]
    exact hC.symm
  · rw [hub]
    exact ht

/-- Yield criterion of the second of those passes. -/
theorem push_last_pass :
    passY frn Rat.sqrt 0 (shearPass frn Rat.sqrt 0
      (axialTrial (elasticMaterial 1000) E (nodal 0 0 0) (nodal a d 0) 0 0)) = |t| - Fy := by
  have hub := push_ub E L hT hL a d 0
  have hul := push_ul E hT a d 0
  refine (axis_quantities frn 0 Fy t _ ?_ ?_ (hFy _) ?_).2.2.2.1
  · rw [shearPass_ul]
    exact hul.1
  · rw [shearPass_ub, shearPass_ubPlasticC, hub]
    exact hC.symm
  · rw [shearPass_uy, shearPass_ub, shearPass_ubPlasticC, hub]
    exact ht

/-- The whole `update` of such a push in contact: failure when the cap is at
most two, otherwise the rotational step after the two passes. -/
theorem push_update (ha : a < 0) (hq : E.qb 2 = 0) (htol : 0 < E.tol)
    (hmove : E.tol ≤ |(if |t| ≤ Fy then t else Fy * t / |t|) - E.qb 1|) (hm : 1 ≤ E.maxIter) :
    (update (elasticMaterial 1000) frn Rat.sqrt E (nodal 0 0 0) (nodal a d 0) 0 0).2 =
        (if 2 ≥ E.maxIter then -1 else 0) ∧
      (update (elasticMaterial 1000) frn Rat.sqrt E (nodal 0 0 0) (nodal a d 0) 0 0).1 =
        (if 2 ≥ E.maxIter then
          shearPass frn Rat.sqrt 0 (shearPass frn Rat.sqrt 0
            (axialTrial (elasticMaterial 1000) E (nodal 0 0 0) (nodal a d 0) 0 0))
        else
          rotationalTrial (elasticMaterial 1000) (shearPass frn Rat.sqrt 0
            (shearPass frn Rat.sqrt 0
              (axialTrial (elasticMaterial 1000) E (nodal 0 0 0) (nodal a d 0) 0 0)))
            (basicDisp E 0 0)) := by
  rw [update_of_contact _ _ _ _ _ _ _ _ (by rw [push_axialForce E L hT hL]; linarith),
    push_solve frn Fy t hFy E L hT hL a d hC ht hq htol hmove hm]
  dsimp only
  by_cases hcap : (2 : Int) ≥ E.maxIter
  · rw [if_pos hcap, if_pos hcap, if_pos hcap]
    exact ⟨rfl, rfl⟩
  · rw [if_neg hcap, if_neg hcap, if_neg hcap]
    exact ⟨rfl, rfl⟩

/-- Status, shear forces and plastic displacement after `update` for such a
push when the cap exceeds two. -/
theorem push_update_fields (ha : a < 0) (hq : E.qb 2 = 0) (htol : 0 < E.tol)
    (hmove : E.tol ≤ |(if |t| ≤ Fy then t else Fy * t / |t|) - E.qb 1|) (hm : 2 < E.maxIter) :
    (update (elasticMaterial 1000) frn Rat.sqrt E (nodal 0 0 0) (nodal a d 0) 0 0).2 = 0 ∧
      (update (elasticMaterial 1000) frn Rat.sqrt E (nodal 0 0 0) (nodal a d 0) 0 0).1.qb 1 =
        (if |t| ≤ Fy then t else Fy * t / |t|) ∧
      (update (elasticMaterial 1000) frn Rat.sqrt E (nodal 0 0 0) (nodal a d 0) 0 0).1.qb 2 = 0 ∧
      (update (elasticMaterial 1000) frn Rat.sqrt E (nodal 0 0 0) (nodal a d 0) 0 0).1.ubPlastic =
        (if |t| ≤ Fy then E.ubPlastic else
          ![E.ubPlasticC 0 + (|t| - Fy) / (Fy / E.uy) * t / |t|, E.ubPlasticC 1]) := by
  obtain ⟨h1, h2⟩ := push_update frn Fy t hFy E L hT hL a d hC ht ha hq htol hmove (by omega)
  obtain ⟨f1, f2, f3⟩ := push_fields frn Fy t hFy E L hT hL a d hC ht
  rw [h1, h2, if_neg (not_le.mpr hm), if_neg (not_le.mpr hm), rotationalTrial_qb_one,
    rotationalTrial_qb_two, f1, f2]
  exact ⟨rfl, rfl, rfl, f3⟩

end PushSolve

end Runs

/-! ## Concrete runs behind the claims -/

section ConcreteClaims

theorem yield_fifty (f : ℕ) : (constantFriction (50 : ℚ)).getFrictionForce f = 50 := rfl

theorem force_fifty : (if |(100 : ℚ)| ≤ 50 then (100 : ℚ) else 50 * 100 / |100|) = 50 := by
  norm_num [abs_of_pos]

theorem force_twenty_five :
    (if |(25 : ℚ)| ≤ 50 then (25 : ℚ) else 50 * 25 / |25|) = 25 := by
  norm_num [abs_of_pos]

/-- C1 (witness): the bearing stretched by `0.001` along its axis. -/
theorem update_uplift_returns_zero_force_witness :
    0 ≤ axialForce (elasticMaterial 1000) (bearing (0 : ℕ) 20 (1 / 100000000))
        (nodal 0 0 0) (nodal (1 / 1000) 0 0) 0 0 ∧
      (update (elasticMaterial 1000) (constantFriction 50) Rat.sqrt
        (bearing (0 : ℕ) 20 (1 / 100000000)) (nodal 0 0 0) (nodal (1 / 1000) 0 0) 0 0).2 = 0 ∧
      ∀ i : Fin 6, (update (elasticMaterial 1000) (constantFriction 50) Rat.sqrt
        (bearing (0 : ℕ) 20 (1 / 100000000)) (nodal 0 0 0) (nodal (1 / 1000) 0 0) 0 0).1.qb i
          = 0 :=
  have h : 0 ≤ axialForce (elasticMaterial 1000) (bearing (0 : ℕ) 20 (1 / 100000000))
      (nodal 0 0 0) (nodal (1 / 1000) 0 0) 0 0 := by
    rw [push_axialForce _ (1 / 10) rfl rfl]
    norm_num
  ⟨h, update_uplift_returns_zero_force _ _ _ _ _ _ _ _ h⟩

/-- C2 (counterexample): the fresh bearing with zero trial displacement has
axial force exactly zero, and `update` leaves `kb(0,0)` at the initial axial
tangent `1000`, not at that tangent times `DBL_EPSILON`. -/
theorem update_zero_force_axial_stiffness_not_scaled :
    0 ≤ axialForce (elasticMaterial 1000) (bearing (0 : ℕ) 20 (1 / 100000000))
        (nodal 0 0 0) (nodal 0 0 0) 0 0 ∧
      (update (elasticMaterial 1000) (constantFriction 50) Rat.sqrt
        (bearing (0 : ℕ) 20 (1 / 100000000)) (nodal 0 0 0) (nodal 0 0 0) 0 0).1.kb 0 0 = 1000 ∧
      (update (elasticMaterial 1000) (constantFriction 50) Rat.sqrt
        (bearing (0 : ℕ) 20 (1 / 100000000)) (nodal 0 0 0) (nodal 0 0 0) 0 0).1.kb 0 0 ≠
        (elasticMaterial (1000 : ℚ)).getInitialTangent
          ((bearing (0 : ℕ) 20 (1 / 100000000)).theMaterials 0) * DBL_EPSILON := by
  have hf : axialForce (elasticMaterial 1000) (bearing (0 : ℕ) 20 (1 / 100000000))
      (nodal 0 0 0) (nodal 0 0 0) 0 0 = 0 := by
    rw [push_axialForce _ (1 / 10) rfl rfl]
    norm_num
  have hk : (update (elasticMaterial 1000) (constantFriction 50) Rat.sqrt
      (bearing (0 : ℕ) 20 (1 / 100000000)) (nodal 0 0 0) (nodal 0 0 0) 0 0).1.kb 0 0 = 1000 := by
    rw [update_kb_of_uplift _ _ _ _ _ _ _ _ (le_of_eq hf.symm), hf, if_neg (lt_irrefl 0)]
    exact initialStiffness_axial (elasticMaterial 1000) (fun _ => (0, 0))
  refine ⟨le_of_eq hf.symm, hk, ?_⟩
  rw [hk]
  show (1000 : ℚ) ≠ 1000 * DBL_EPSILON
  norm_num [DBL_EPSILON]

/-- C2 (witness): the bearing stretched by `0.001` along its axis. -/
theorem update_uplift_stiffness_witness :
    0 ≤ axialForce (elasticMaterial 1000) (bearing (0 : ℕ) 20 (1 / 100000000))
        (nodal 0 0 0) (nodal (1 / 1000) 0 0) 0 0 ∧
      (update (elasticMaterial 1000) (constantFriction 50) Rat.sqrt
        (bearing (0 : ℕ) 20 (1 / 100000000)) (nodal 0 0 0) (nodal (1 / 1000) 0 0) 0 0).1.kb =
        if 0 < axialForce (elasticMaterial 1000) (bearing (0 : ℕ) 20 (1 / 100000000))
            (nodal 0 0 0) (nodal (1 / 1000) 0 0) 0 0 then
          setEntry (initialStiffness (elasticMaterial 1000) (fun _ => ((0 : ℚ), (0 : ℚ)))) 0 0
            ((elasticMaterial (1000 : ℚ)).getInitialTangent ((0 : ℚ), (0 : ℚ)) * DBL_EPSILON)
        else initialStiffness (elasticMaterial 1000) (fun _ => ((0 : ℚ), (0 : ℚ))) :=
  have h : 0 ≤ axialForce (elasticMaterial 1000) (bearing (0 : ℕ) 20 (1 / 100000000))
      (nodal 0 0 0) (nodal (1 / 1000) 0 0) 0 0 := by
    rw [push_axialForce _ (1 / 10) rfl rfl]
    norm_num
  ⟨h, update_uplift_stiffness (elasticMaterial 1000) (constantFriction 50) Rat.sqrt
    (bearing (0 : ℕ) 20 (1 / 100000000)) (fun _ => (0, 0)) _ _ _ _ rfl h⟩

end ConcreteClaims

section ContactRuns

theorem capped_change {F : Type} (frn : FrictionModel ℚ F) (v : ℚ)
    (s : FlatSliderSimple3d ℚ M F) (maxIter : Int) (tol : ℚ) (hm : maxIter < 1) :
    (shearLoop frn Rat.sqrt v maxIter tol s 0).change Rat.sqrt =
      Rat.sqrt (((shearPass frn Rat.sqrt v s).qb 1 - s.qb 1) ^ 2 +
        ((shearPass frn Rat.sqrt v s).qb 2 - s.qb 2) ^ 2) := by
  rw [loop_capped frn v s maxIter tol hm]
  rfl

theorem axialTrial_qb_one (mat : UniaxialMaterial α M) (e : FlatSliderSimple3d α M F)
    (d1 d2 v1 v2 : Fin 6 → α) : (axialTrial mat e d1 d2 v1 v2).qb 1 = e.qb 1 := by
  simp [axialTrial]

theorem axialTrial_qb_two (mat : UniaxialMaterial α M) (e : FlatSliderSimple3d α M F)
    (d1 d2 v1 v2 : Fin 6 → α) : (axialTrial mat e d1 d2 v1 v2).qb 2 = e.qb 2 := by
  simp [axialTrial]

theorem bearing_qb {F : Type} (f0 : F) (maxIter : Int) (tol : ℚ) :
    (bearing f0 maxIter tol).qb = 0 := rfl

theorem bearing_maxIter {F : Type} (f0 : F) (maxIter : Int) (tol : ℚ) :
    (bearing f0 maxIter tol).maxIter = maxIter := rfl

theorem counting_pass (Fy v : ℚ) (s : FlatSliderSimple3d ℚ M ℕ) :
    (shearPass (constantFriction Fy) Rat.sqrt v s).theFrnMdl = s.theFrnMdl + 1 := by
  rw [shearPass_theFrnMdl]
  rfl

theorem bearing_tol {F : Type} (f0 : F) (maxIter : Int) (tol : ℚ) :
    (bearing f0 maxIter tol).tol = tol := rfl

/-- First pass of a fresh bearing pushed by `0.02` along y in compression:
shear force 50 along y, none along z. -/
theorem fresh_first_pass (maxIter : Int) (a : ℚ) :
    (shearPass (constantFriction 50) Rat.sqrt 0
        (axialTrial (elasticMaterial 1000) (bearing (0 : ℕ) maxIter (1 / 100000000))
          (nodal 0 0 0) (nodal a (1 / 50) 0) 0 0)).qb 1 = 50 ∧
      (shearPass (constantFriction 50) Rat.sqrt 0
        (axialTrial (elasticMaterial 1000) (bearing (0 : ℕ) maxIter (1 / 100000000))
          (nodal 0 0 0) (nodal a (1 / 50) 0) 0 0)).qb 2 = 0 := by
  have hub := push_ub (bearing (0 : ℕ) maxIter (1 / 100000000)) (1 / 10) rfl rfl a (1 / 50) 0
  have hul := push_ul (bearing (0 : ℕ) maxIter (1 / 100000000)) rfl a (1 / 50) 0
  obtain ⟨h1, h2, _⟩ := axis_pass_force (constantFriction 50) 0 50 100 _ hul.1 hul.2
    (by rw [hub]; rfl) rfl (by rw [hub]; show (50 : ℚ) / (1 / 100) * (1 / 50 - 0) = 100; norm_num)
  exact ⟨h1.trans force_fifty, h2⟩

/-- C3 (witness): with `maxIter = 0` the bearing pushed by `0.02` in
compression leaves the loop after one pass with a change of 50. -/
theorem update_unconverged_fails_witness :
    (axialForce (elasticMaterial 1000) (bearing (0 : ℕ) 0 (1 / 100000000))
        (nodal 0 0 0) (nodal (-1 / 1000) (1 / 50) 0) 0 0 < 0 ∧
      (bearing (0 : ℕ) 0 (1 / 100000000)).tol ≤
        (shearSolve (elasticMaterial 1000) (constantFriction 50) Rat.sqrt
          (bearing (0 : ℕ) 0 (1 / 100000000)) (nodal 0 0 0) (nodal (-1 / 1000) (1 / 50) 0)
          0 0).change Rat.sqrt) ∧
      (update (elasticMaterial 1000) (constantFriction 50) Rat.sqrt
        (bearing (0 : ℕ) 0 (1 / 100000000)) (nodal 0 0 0) (nodal (-1 / 1000) (1 / 50) 0)
        0 0).2 = -1 ∧
      (update (elasticMaterial 1000) (constantFriction 50) Rat.sqrt
        (bearing (0 : ℕ) 0 (1 / 100000000)) (nodal 0 0 0) (nodal (-1 / 1000) (1 / 50) 0)
        0 0).2 ≠ 0 ∧
      ∀ i : Fin 4, i ≠ 0 →
        (update (elasticMaterial 1000) (constantFriction 50) Rat.sqrt
          (bearing (0 : ℕ) 0 (1 / 100000000)) (nodal 0 0 0) (nodal (-1 / 1000) (1 / 50) 0)
          0 0).1.theMaterials i = (bearing (0 : ℕ) 0 (1 / 100000000)).theMaterials i :=
  have hc : axialForce (elasticMaterial 1000) (bearing (0 : ℕ) 0 (1 / 100000000))
      (nodal 0 0 0) (nodal (-1 / 1000) (1 / 50) 0) 0 0 < 0 := by
    rw [push_axialForce _ (1 / 10) rfl rfl]
    norm_num
  have hu : (bearing (0 : ℕ) 0 (1 / 100000000)).tol ≤
      (shearSolve (elasticMaterial 1000) (constantFriction 50) Rat.sqrt
        (bearing (0 : ℕ) 0 (1 / 100000000)) (nodal 0 0 0) (nodal (-1 / 1000) (1 / 50) 0)
        0 0).change Rat.sqrt := by
    rw [shearSolve, push_slidingSpeed _ (1 / 10) rfl rfl, capped_change _ _ _ _ _ (by decide),
      (fresh_first_pass 0 (-1 / 1000)).1, (fresh_first_pass 0 (-1 / 1000)).2,
      axialTrial_qb_one, axialTrial_qb_two, bearing_qb, bearing_tol]
    rw [show ((0 : Fin 6 → ℚ) 1) = 0 from rfl, show ((0 : Fin 6 → ℚ) 2) = 0 from rfl, sqrt_axis]
    norm_num [abs_of_pos]
  ⟨⟨hc, hu⟩, update_unconverged_fails _ _ _ _ _ _ _ _ hc hu⟩

theorem two_pass_change {F : Type} (s : FlatSliderSimple3d ℚ M F)
    (g : ℚ) (h1 : s.qb 1 = g) (h2 : s.qb 2 = 0) (n : Int) :
    ShearResult.change Rat.sqrt { e := s, qbOld := ![g, 0], iter := n } = 0 := by
  show Rat.sqrt ((s.qb 1 - g) ^ 2 + (s.qb 2 - 0) ^ 2) = 0
  rw [h1, h2, sub_self, sub_self, sqrt_rest]

/-- C4 (failing input): `maxIter = 2`, the bearing pushed by `0.02` along y in
compression. The loop is left after pass 2, within the cap, with a change of
zero, and `update` returns -1. -/
theorem update_fails_though_converged_within_cap :
    (shearSolve (elasticMaterial 1000) (constantFriction 50) Rat.sqrt
        (bearing (0 : ℕ) 2 (1 / 100000000)) (nodal 0 0 0) (nodal (-1 / 1000) (1 / 50) 0)
        0 0).iter = 2 ∧
      (bearing (0 : ℕ) 2 (1 / 100000000)).maxIter = 2 ∧
      (shearSolve (elasticMaterial 1000) (constantFriction 50) Rat.sqrt
        (bearing (0 : ℕ) 2 (1 / 100000000)) (nodal 0 0 0) (nodal (-1 / 1000) (1 / 50) 0)
        0 0).change Rat.sqrt < (bearing (0 : ℕ) 2 (1 / 100000000)).tol ∧
      (update (elasticMaterial 1000) (constantFriction 50) Rat.sqrt
        (bearing (0 : ℕ) 2 (1 / 100000000)) (nodal 0 0 0) (nodal (-1 / 1000) (1 / 50) 0)
        0 0).2 = -1 := by
  have hs := push_solve (constantFriction 50) 50 100 yield_fifty
    (bearing (0 : ℕ) 2 (1 / 100000000)) (1 / 10) rfl rfl (-1 / 1000) (1 / 50) rfl
    (by show (50 : ℚ) / (1 / 100) * (1 / 50 - 0) = 100; norm_num) rfl
    (by show (0 : ℚ) < 1 / 100000000; norm_num)
    (by rw [force_fifty, bearing_qb, bearing_tol]; norm_num [abs_of_pos])
    (by show (1 : Int) ≤ 2; decide)
  have hf := push_fields (constantFriction 50) 50 100 yield_fifty
    (bearing (0 : ℕ) 2 (1 / 100000000)) (1 / 10) rfl rfl (-1 / 1000) (1 / 50) rfl
    (by show (50 : ℚ) / (1 / 100) * (1 / 50 - 0) = 100; norm_num)
  have hu := push_update (constantFriction 50) 50 100 yield_fifty
    (bearing (0 : ℕ) 2 (1 / 100000000)) (1 / 10) rfl rfl (-1 / 1000) (1 / 50) rfl
    (by show (50 : ℚ) / (1 / 100) * (1 / 50 - 0) = 100; norm_num) (by norm_num) rfl
    (by show (0 : ℚ) < 1 / 100000000; norm_num)
    (by rw [force_fifty, bearing_qb, bearing_tol]; norm_num [abs_of_pos])
    (by show (1 : Int) ≤ 2; decide)
  refine ⟨?_, rfl, ?_, ?_⟩
  · rw [hs]
  · rw [hs, two_pass_change _ _ hf.1 hf.2.1, bearing_tol]
    norm_num
  · rw [hu.1, bearing_maxIter]
    rfl

/-- C5 (failing input): `maxIter = 1`, the same push. The loop runs two
passes and the friction model, whose state counts the `setTrial` calls from
zero, has been called twice. -/
theorem update_runs_more_passes_than_cap :
    (bearing (0 : ℕ) 1 (1 / 100000000)).maxIter = 1 ∧
      (shearSolve (elasticMaterial 1000) (constantFriction 50) Rat.sqrt
        (bearing (0 : ℕ) 1 (1 / 100000000)) (nodal 0 0 0) (nodal (-1 / 1000) (1 / 50) 0)
        0 0).iter = 2 ∧
      (update (elasticMaterial 1000) (constantFriction 50) Rat.sqrt
        (bearing (0 : ℕ) 1 (1 / 100000000)) (nodal 0 0 0) (nodal (-1 / 1000) (1 / 50) 0)
        0 0).1.theFrnMdl = 2 := by
  have hs := push_solve (constantFriction 50) 50 100 yield_fifty
    (bearing (0 : ℕ) 1 (1 / 100000000)) (1 / 10) rfl rfl (-1 / 1000) (1 / 50) rfl
    (by show (50 : ℚ) / (1 / 100) * (1 / 50 - 0) = 100; norm_num) rfl
    (by show (0 : ℚ) < 1 / 100000000; norm_num)
    (by rw [force_fifty, bearing_qb, bearing_tol]; norm_num [abs_of_pos])
    (by show (1 : Int) ≤ 1; decide)
  have hu := push_update (constantFriction 50) 50 100 yield_fifty
    (bearing (0 : ℕ) 1 (1 / 100000000)) (1 / 10) rfl rfl (-1 / 1000) (1 / 50) rfl
    (by show (50 : ℚ) / (1 / 100) * (1 / 50 - 0) = 100; norm_num) (by norm_num) rfl
    (by show (0 : ℚ) < 1 / 100000000; norm_num)
    (by rw [force_fifty, bearing_qb, bearing_tol]; norm_num [abs_of_pos])
    (by show (1 : Int) ≤ 1; decide)
  refine ⟨rfl, ?_, ?_⟩
  · rw [hs]
  rw [hu.2, bearing_maxIter, if_pos (by decide), counting_pass, counting_pass]
  rfl

end ContactRuns

section CommitRuns

theorem bearing_ubPlastic {F : Type} (f0 : F) (maxIter : Int) (tol : ℚ) :
    (bearing f0 maxIter tol).ubPlastic = 0 := rfl

theorem bearing_ubPlasticC {F : Type} (f0 : F) (maxIter : Int) (tol : ℚ) :
    (bearing f0 maxIter tol).ubPlasticC = 0 := rfl

theorem bearing_uy {F : Type} (f0 : F) (maxIter : Int) (tol : ℚ) :
    (bearing f0 maxIter tol).uy = 1 / 100 := rfl

theorem plastic_after_push :
    (if |(100 : ℚ)| ≤ 50 then (0 : Fin 2 → ℚ) else
      ![(0 : ℚ) + (|100| - 50) / (50 / (1 / 100)) * 100 / |100|, 0]) = ![1 / 100, 0] := by
  rw [if_neg (by norm_num [abs_of_pos])]
  norm_num [abs_of_pos]

/-- What a trial update pushing the fresh bearing by `0.02` along y under an
axial shortening of `0.001` leaves behind: success, shear force 50, plastic
displacement `0.01`. -/
theorem slid_fields :
    (update (elasticMaterial 1000) (constantFriction 50) Rat.sqrt
        (bearing (0 : ℕ) 20 (1 / 100000000)) (nodal 0 0 0) (nodal (-1 / 1000) (1 / 50) 0)
        0 0).2 = 0 ∧
      (update (elasticMaterial 1000) (constantFriction 50) Rat.sqrt
        (bearing (0 : ℕ) 20 (1 / 100000000)) (nodal 0 0 0) (nodal (-1 / 1000) (1 / 50) 0)
        0 0).1.qb 1 = 50 ∧
      (update (elasticMaterial 1000) (constantFriction 50) Rat.sqrt
        (bearing (0 : ℕ) 20 (1 / 100000000)) (nodal 0 0 0) (nodal (-1 / 1000) (1 / 50) 0)
        0 0).1.qb 2 = 0 ∧
      (update (elasticMaterial 1000) (constantFriction 50) Rat.sqrt
        (bearing (0 : ℕ) 20 (1 / 100000000)) (nodal 0 0 0) (nodal (-1 / 1000) (1 / 50) 0)
        0 0).1.ubPlastic = ![1 / 100, 0] := by
  obtain ⟨h0, h1, h2, h3⟩ := push_update_fields (constantFriction 50) 50 100 yield_fifty
    (bearing (0 : ℕ) 20 (1 / 100000000)) (1 / 10) rfl rfl (-1 / 1000) (1 / 50) rfl
    (by show (50 : ℚ) / (1 / 100) * (1 / 50 - 0) = 100; norm_num) (by norm_num) rfl
    (by show (0 : ℚ) < 1 / 100000000; norm_num)
    (by rw [force_fifty, bearing_qb, bearing_tol]; norm_num [abs_of_pos])
    (by show (2 : Int) < 20; decide)
  rw [bearing_ubPlastic, bearing_ubPlasticC, bearing_uy,
    show ((0 : Fin 2 → ℚ) 0) = 0 from rfl, show ((0 : Fin 2 → ℚ) 1) = 0 from rfl,
    plastic_after_push] at h3
  rw [force_fifty] at h1
  exact ⟨h0, h1, h2, h3⟩

omit [LinearOrderedField α] in
theorem revertToLastCommit_qb (mat : UniaxialMaterial α M) (frn : FrictionModel α F)
    (e : FlatSliderSimple3d α M F) : (revertToLastCommit mat frn e).1.qb = e.qb := rfl

/-- C7 (counterexample): commit the fresh bearing, run one trial update that
pushes it by `0.02` along y in compression, then revert. The shear force
`qb(1)` was 0 at the commit and is 50 after the revert. -/
theorem revert_keeps_trial_shear_force :
    (commitState (elasticMaterial 1000) (constantFriction 50)
        (bearing (0 : ℕ) 20 (1 / 100000000))).1.qb 1 = 0 ∧
      (revertToLastCommit (elasticMaterial 1000) (constantFriction 50)
        (update (elasticMaterial 1000) (constantFriction 50) Rat.sqrt
          (commitState (elasticMaterial 1000) (constantFriction 50)
            (bearing (0 : ℕ) 20 (1 / 100000000))).1
          (nodal 0 0 0) (nodal (-1 / 1000) (1 / 50) 0) 0 0).1).1.qb 1 = 50 := by
  obtain ⟨_, h1, _, _⟩ := push_update_fields (constantFriction 50) 50 100 yield_fifty
    (commitState (elasticMaterial 1000) (constantFriction 50)
      (bearing (0 : ℕ) 20 (1 / 100000000))).1 (1 / 10) rfl rfl (-1 / 1000) (1 / 50) rfl
    (by show (50 : ℚ) / (1 / 100) * (1 / 50 - 0) = 100; norm_num) (by norm_num) rfl
    (by show (0 : ℚ) < 1 / 100000000; norm_num)
    (by rw [force_fifty]; show (1 / 100000000 : ℚ) ≤ |50 - 0|; norm_num [abs_of_pos])
    (by show (2 : Int) < 20; decide)
  rw [force_fifty] at h1
  refine ⟨rfl, ?_⟩
  rw [revertToLastCommit_qb]
  exact h1

/-- C10 (witness): the first pass of the fresh bearing pushed by `0.02` along y
in compression, with `a = 100`, `Fy = 50`, `k0 = 5000`. -/
theorem plastic_pass_plastic_displacement_witness :
    (shearPass (constantFriction 50) Rat.sqrt 0
        (axialTrial (elasticMaterial 1000) (bearing (0 : ℕ) 20 (1 / 100000000))
          (nodal 0 0 0) (nodal (-1 / 1000) (1 / 50) 0) 0 0)).ubPlastic =
      ![(axialTrial (elasticMaterial 1000) (bearing (0 : ℕ) 20 (1 / 100000000))
            (nodal 0 0 0) (nodal (-1 / 1000) (1 / 50) 0) 0 0).ubPlasticC 0 +
          (100 - 50) / 5000 * (5000 *
            ((axialTrial (elasticMaterial 1000) (bearing (0 : ℕ) 20 (1 / 100000000))
              (nodal 0 0 0) (nodal (-1 / 1000) (1 / 50) 0) 0 0).ub 1 -
            (axialTrial (elasticMaterial 1000) (bearing (0 : ℕ) 20 (1 / 100000000))
              (nodal 0 0 0) (nodal (-1 / 1000) (1 / 50) 0) 0 0).ubPlasticC 0) / 100),
        (axialTrial (elasticMaterial 1000) (bearing (0 : ℕ) 20 (1 / 100000000))
            (nodal 0 0 0) (nodal (-1 / 1000) (1 / 50) 0) 0 0).ubPlasticC 1 +
          (100 - 50) / 5000 * (5000 *
            ((axialTrial (elasticMaterial 1000) (bearing (0 : ℕ) 20 (1 / 100000000))
              (nodal 0 0 0) (nodal (-1 / 1000) (1 / 50) 0) 0 0).ub 2 -
            (axialTrial (elasticMaterial 1000) (bearing (0 : ℕ) 20 (1 / 100000000))
              (nodal 0 0 0) (nodal (-1 / 1000) (1 / 50) 0) 0 0).ubPlasticC 1) / 100)] :=
  plastic_pass_plastic_displacement (constantFriction 50) Rat.sqrt 0 _ 100 50 5000
    (by
      have hub := push_ub (bearing (0 : ℕ) 20 (1 / 100000000)) (1 / 10) rfl rfl (-1 / 1000)
        (1 / 50) 0
      have hul := push_ul (bearing (0 : ℕ) 20 (1 / 100000000)) rfl (-1 / 1000) (1 / 50) 0
      rw [(axis_quantities (constantFriction 50) 0 50 100 _ hul.1 (by rw [hub]; rfl) rfl
        (by rw [hub]; show (50 : ℚ) / (1 / 100) * (1 / 50 - 0) = 100; norm_num)).2.2.1]
      norm_num [abs_of_pos])
    rfl (by show (5000 : ℚ) = 50 / (1 / 100); norm_num) (by norm_num)

omit [LinearOrderedField α] in
theorem commitState_ubPlasticC (mat : UniaxialMaterial α M) (frn : FrictionModel α F)
    (e : FlatSliderSimple3d α M F) : (commitState mat frn e).1.ubPlasticC = e.ubPlastic := rfl

theorem elastic_after_push :
    (if |(25 : ℚ)| ≤ 50 then (![1 / 100, 0] : Fin 2 → ℚ) else
      ![(0 : ℚ) + (|25| - 50) / (50 / (1 / 100)) * 25 / |25|, 0]) = ![1 / 100, 0] := by
  rw [if_pos (by norm_num [abs_of_pos])]

/-- The second trial update of the run behind C8: from the state left by the
plastic trial, a push by `0.005` along y. Two passes, success, shear force 25,
and the plastic displacement of the discarded trial still in place. -/
theorem second_trial_fields :
    (shearSolve (elasticMaterial 1000) (constantFriction 50) Rat.sqrt
        (update (elasticMaterial 1000) (constantFriction 50) Rat.sqrt
          (bearing (0 : ℕ) 20 (1 / 100000000)) (nodal 0 0 0) (nodal (-1 / 1000) (1 / 50) 0)
          0 0).1
        (nodal 0 0 0) (nodal (-1 / 1000) (1 / 200) 0) 0 0).iter = 2 ∧
      passY (constantFriction 50) Rat.sqrt 0
        (shearPass (constantFriction 50) Rat.sqrt 0
          (axialTrial (elasticMaterial 1000)
            (update (elasticMaterial 1000) (constantFriction 50) Rat.sqrt
          (bearing (0 : ℕ) 20 (1 / 100000000)) (nodal 0 0 0) (nodal (-1 / 1000) (1 / 50) 0)
          0 0).1
            (nodal 0 0 0) (nodal (-1 / 1000) (1 / 200) 0) 0 0)) ≤ 0 ∧
      (update (elasticMaterial 1000) (constantFriction 50) Rat.sqrt
        (update (elasticMaterial 1000) (constantFriction 50) Rat.sqrt
          (bearing (0 : ℕ) 20 (1 / 100000000)) (nodal 0 0 0) (nodal (-1 / 1000) (1 / 50) 0)
          0 0).1
        (nodal 0 0 0) (nodal (-1 / 1000) (1 / 200) 0) 0 0).2 = 0 ∧
      (update (elasticMaterial 1000) (constantFriction 50) Rat.sqrt
        (update (elasticMaterial 1000) (constantFriction 50) Rat.sqrt
          (bearing (0 : ℕ) 20 (1 / 100000000)) (nodal 0 0 0) (nodal (-1 / 1000) (1 / 50) 0)
          0 0).1
        (nodal 0 0 0) (nodal (-1 / 1000) (1 / 200) 0) 0 0).1.qb 1 = 25 ∧
      (update (elasticMaterial 1000) (constantFriction 50) Rat.sqrt
        (update (elasticMaterial 1000) (constantFriction 50) Rat.sqrt
          (bearing (0 : ℕ) 20 (1 / 100000000)) (nodal 0 0 0) (nodal (-1 / 1000) (1 / 50) 0)
          0 0).1
        (nodal 0 0 0) (nodal (-1 / 1000) (1 / 200) 0) 0 0).1.ubPlastic = ![1 / 100, 0] := by
  obtain ⟨_, a1, a2, a3⟩ := slid_fields
  have hT := (update_Tgl (elasticMaterial 1000) (constantFriction 50) Rat.sqrt
    (bearing (0 : ℕ) 20 (1 / 100000000)) (nodal 0 0 0) (nodal (-1 / 1000) (1 / 50) 0)
    0 0).trans (rfl : (bearing (0 : ℕ) 20 (1 / 100000000)).Tgl = 1)
  have hL := (update_Tlb (elasticMaterial 1000) (constantFriction 50) Rat.sqrt
    (bearing (0 : ℕ) 20 (1 / 100000000)) (nodal 0 0 0) (nodal (-1 / 1000) (1 / 50) 0)
    0 0).trans (rfl : (bearing (0 : ℕ) 20 (1 / 100000000)).Tlb = localToBasic (1 / 10))
  have hC := update_ubPlasticC_eq (elasticMaterial 1000) (constantFriction 50) Rat.sqrt
    (bearing (0 : ℕ) 20 (1 / 100000000)) (nodal 0 0 0) (nodal (-1 / 1000) (1 / 50) 0) 0 0
  have hy := update_uy (elasticMaterial 1000) (constantFriction 50) Rat.sqrt
    (bearing (0 : ℕ) 20 (1 / 100000000)) (nodal 0 0 0) (nodal (-1 / 1000) (1 / 50) 0) 0 0
  have ho := update_tol (elasticMaterial 1000) (constantFriction 50) Rat.sqrt
    (bearing (0 : ℕ) 20 (1 / 100000000)) (nodal 0 0 0) (nodal (-1 / 1000) (1 / 50) 0) 0 0
  have hm := update_maxIter (elasticMaterial 1000) (constantFriction 50) Rat.sqrt
    (bearing (0 : ℕ) 20 (1 / 100000000)) (nodal 0 0 0) (nodal (-1 / 1000) (1 / 50) 0) 0 0
  rw [bearing_ubPlasticC] at hC
  rw [bearing_uy] at hy
  rw [bearing_tol] at ho
  rw [bearing_maxIter] at hm
  have hC1 : (update (elasticMaterial 1000) (constantFriction 50) Rat.sqrt
          (bearing (0 : ℕ) 20 (1 / 100000000)) (nodal 0 0 0) (nodal (-1 / 1000) (1 / 50) 0)
          0 0).1.ubPlasticC 1 = 0 := by rw [hC]; rfl
  have ht : (50 : ℚ) / (update (elasticMaterial 1000) (constantFriction 50) Rat.sqrt
          (bearing (0 : ℕ) 20 (1 / 100000000)) (nodal 0 0 0) (nodal (-1 / 1000) (1 / 50) 0)
          0 0).1.uy * (1 / 200 - (update (elasticMaterial 1000) (constantFriction 50) Rat.sqrt
          (bearing (0 : ℕ) 20 (1 / 100000000)) (nodal 0 0 0) (nodal (-1 / 1000) (1 / 50) 0)
          0 0).1.ubPlasticC 0) = 25 := by
    rw [hy, hC, show ((0 : Fin 2 → ℚ) 0) = 0 from rfl]
    norm_num
  have htol : (0 : ℚ) < (update (elasticMaterial 1000) (constantFriction 50) Rat.sqrt
          (bearing (0 : ℕ) 20 (1 / 100000000)) (nodal 0 0 0) (nodal (-1 / 1000) (1 / 50) 0)
          0 0).1.tol := by
    rw [ho]
    norm_num
  have hmove : (update (elasticMaterial 1000) (constantFriction 50) Rat.sqrt
          (bearing (0 : ℕ) 20 (1 / 100000000)) (nodal 0 0 0) (nodal (-1 / 1000) (1 / 50) 0)
          0 0).1.tol ≤ |(if |(25 : ℚ)| ≤ 50 then (25 : ℚ) else 50 * 25 / |25|) - (update (elasticMaterial 1000) (constantFriction 50) Rat.sqrt
          (bearing (0 : ℕ) 20 (1 / 100000000)) (nodal 0 0 0) (nodal (-1 / 1000) (1 / 50) 0)
          0 0).1.qb 1| := by
    rw [ho, a1, force_twenty_five]
    norm_num [abs_of_neg]
  have hcap : (2 : Int) < (update (elasticMaterial 1000) (constantFriction 50) Rat.sqrt
          (bearing (0 : ℕ) 20 (1 / 100000000)) (nodal 0 0 0) (nodal (-1 / 1000) (1 / 50) 0)
          0 0).1.maxIter := by
    rw [hm]
    decide
  have hs := push_solve (constantFriction 50) 50 25 yield_fifty _ (1 / 10) hT hL (-1 / 1000)
    (1 / 200) hC1 ht a2 htol hmove (by omega)
  obtain ⟨b0, b1, _, b3⟩ := push_update_fields (constantFriction 50) 50 25 yield_fifty _
    (1 / 10) hT hL (-1 / 1000) (1 / 200) hC1 ht (by norm_num) a2 htol hmove hcap
  have hq := push_last_pass (constantFriction 50) 50 25 yield_fifty _ (1 / 10) hT hL
    (-1 / 1000) (1 / 200) hC1 ht
  refine ⟨?_, ?_, b0, ?_, ?_⟩
  · rw [hs]
  · rw [hq]
    norm_num [abs_of_pos]
  · rw [b1, force_twenty_five]
  · rw [b3, a3, hC, hy, show ((0 : Fin 2 → ℚ) 0) = 0 from rfl,
      show ((0 : Fin 2 → ℚ) 1) = 0 from rfl, elastic_after_push]

/-- C8 (failing input): from the fresh bearing (nothing committed but zeros),
a trial update pushing by `0.02` along y (plastic), then, with no commit in
between, a trial update pushing by `0.005`. The second update succeeds and its
last pass is elastic (`Y <= 0`), yet the trial plastic displacement is still
`0.01` while the committed one is 0; a commit then stores `0.01`, whereas the
same element given only the second update commits 0. -/
theorem elastic_update_keeps_discarded_plastic_displacement :
    (update (elasticMaterial 1000) (constantFriction 50) Rat.sqrt
        (update (elasticMaterial 1000) (constantFriction 50) Rat.sqrt
          (bearing (0 : ℕ) 20 (1 / 100000000)) (nodal 0 0 0) (nodal (-1 / 1000) (1 / 50) 0)
          0 0).1
        (nodal 0 0 0) (nodal (-1 / 1000) (1 / 200) 0) 0 0).2 = 0 ∧
      passY (constantFriction 50) Rat.sqrt 0
        (shearPass (constantFriction 50) Rat.sqrt 0
          (axialTrial (elasticMaterial 1000)
            (update (elasticMaterial 1000) (constantFriction 50) Rat.sqrt
          (bearing (0 : ℕ) 20 (1 / 100000000)) (nodal 0 0 0) (nodal (-1 / 1000) (1 / 50) 0)
          0 0).1
            (nodal 0 0 0) (nodal (-1 / 1000) (1 / 200) 0) 0 0)) ≤ 0 ∧
      (update (elasticMaterial 1000) (constantFriction 50) Rat.sqrt
        (update (elasticMaterial 1000) (constantFriction 50) Rat.sqrt
          (bearing (0 : ℕ) 20 (1 / 100000000)) (nodal 0 0 0) (nodal (-1 / 1000) (1 / 50) 0)
          0 0).1
        (nodal 0 0 0) (nodal (-1 / 1000) (1 / 200) 0) 0 0).1.ubPlastic 0 = 1 / 100 ∧
      (update (elasticMaterial 1000) (constantFriction 50) Rat.sqrt
        (update (elasticMaterial 1000) (constantFriction 50) Rat.sqrt
          (bearing (0 : ℕ) 20 (1 / 100000000)) (nodal 0 0 0) (nodal (-1 / 1000) (1 / 50) 0)
          0 0).1
        (nodal 0 0 0) (nodal (-1 / 1000) (1 / 200) 0) 0 0).1.ubPlasticC 0 = 0 ∧
      (commitState (elasticMaterial 1000) (constantFriction 50)
        (update (elasticMaterial 1000) (constantFriction 50) Rat.sqrt
        (update (elasticMaterial 1000) (constantFriction 50) Rat.sqrt
          (bearing (0 : ℕ) 20 (1 / 100000000)) (nodal 0 0 0) (nodal (-1 / 1000) (1 / 50) 0)
          0 0).1
        (nodal 0 0 0) (nodal (-1 / 1000) (1 / 200) 0) 0 0).1).1.ubPlasticC 0 = 1 / 100 ∧
      (commitState (elasticMaterial 1000) (constantFriction 50)
        (update (elasticMaterial 1000) (constantFriction 50) Rat.sqrt
        (bearing (0 : ℕ) 20 (1 / 100000000))
        (nodal 0 0 0) (nodal (-1 / 1000) (1 / 200) 0) 0 0).1).1.ubPlasticC 0 = 0 := by
  obtain ⟨_, hY, h0, _, hp⟩ := second_trial_fields
  obtain ⟨_, _, _, f3⟩ := push_update_fields (constantFriction 50) 50 25 yield_fifty
    (bearing (0 : ℕ) 20 (1 / 100000000)) (1 / 10) rfl rfl (-1 / 1000) (1 / 200) rfl
    (by show (50 : ℚ) / (1 / 100) * (1 / 200 - 0) = 25; norm_num) (by norm_num) rfl
    (by show (0 : ℚ) < 1 / 100000000; norm_num)
    (by rw [force_twenty_five, bearing_qb, bearing_tol]; norm_num [abs_of_pos])
    (by show (2 : Int) < 20; decide)
  rw [if_pos (by norm_num [abs_of_pos]), bearing_ubPlastic] at f3
  refine ⟨h0, hY, ?_, ?_, ?_, ?_⟩
  · rw [hp]
    rfl
  · rw [update_ubPlasticC_eq, update_ubPlasticC_eq, bearing_ubPlasticC]
    rfl
  · rw [commitState_ubPlasticC, hp]
    rfl
  · rw [commitState_ubPlasticC, f3]
    rfl

end CommitRuns

/-! ## Commit, trial updates, revert -/

section Revert

variable (mat : UniaxialMaterial α M) (frn : FrictionModel α F) (sqrt : α → α)

theorem updateSeq_ubPlasticC (ks : List (Kinematics α)) :
    ∀ e : FlatSliderSimple3d α M F,
      (updateSeq mat frn sqrt e ks).ubPlasticC = e.ubPlasticC := by
  induction ks with
  | nil => intro e; rfl
  | cons k ks ih =>
    intro e
    rw [updateSeq, ih, update_ubPlasticC_eq]

/-- C7 (amended): after a commit and any run of trial updates,
`revertToLastCommit` reverts the friction model and the four materials and
leaves the committed plastic shear displacement at the value that commit
stored (the trial value at the time of the commit); it assigns neither the
basic force nor the basic stiffness, which keep the values left by the last
trial update. -/
theorem revert_after_trial_updates (e : FlatSliderSimple3d α M F) (ks : List (Kinematics α)) :
    (revertToLastCommit mat frn
        (updateSeq mat frn sqrt (commitState mat frn e).1 ks)).1.ubPlasticC = e.ubPlastic ∧
      (revertToLastCommit mat frn
        (updateSeq mat frn sqrt (commitState mat frn e).1 ks)).1.qb =
        (updateSeq mat frn sqrt (commitState mat frn e).1 ks).qb ∧
      (revertToLastCommit mat frn
        (updateSeq mat frn sqrt (commitState mat frn e).1 ks)).1.kb =
        (updateSeq mat frn sqrt (commitState mat frn e).1 ks).kb ∧
      (revertToLastCommit mat frn
        (updateSeq mat frn sqrt (commitState mat frn e).1 ks)).1.theFrnMdl =
        (frn.revertToLastCommit
          (updateSeq mat frn sqrt (commitState mat frn e).1 ks).theFrnMdl).1 ∧
      ∀ i : Fin 4,
        (revertToLastCommit mat frn
          (updateSeq mat frn sqrt (commitState mat frn e).1 ks)).1.theMaterials i =
          (mat.revertToLastCommit
            ((updateSeq mat frn sqrt (commitState mat frn e).1 ks).theMaterials i)).1 := by
  refine ⟨?_, rfl, rfl, rfl, fun _ => rfl⟩
  show (updateSeq mat frn sqrt (commitState mat frn e).1 ks).ubPlasticC = e.ubPlastic
  rw [updateSeq_ubPlasticC]
  rfl

end Revert

/-! ## Two identical updates in a row, with a rotated first node -/

section Loops

variable (frn : FrictionModel ℚ F) (v : ℚ) (maxIter : Int) (tol : ℚ)
  (s : FlatSliderSimple3d ℚ M F) (q0 q1 q2 : ℚ)

theorem loop_one (hs1 : s.qb 1 = q0) (hs2 : s.qb 2 = 0)
    (hp1 : (shearPass frn Rat.sqrt v s).qb 1 = q1) (hp2 : (shearPass frn Rat.sqrt v s).qb 2 = 0)
    (hconv : |q1 - q0| < tol) :
    shearLoop frn Rat.sqrt v maxIter tol s 0 =
      { e := shearPass frn Rat.sqrt v s, qbOld := ![s.qb 1, s.qb 2], iter := 1 } := by
  rw [shearLoop_stop]
  · rfl
  · rw [hp1, hp2, hs1, hs2, sqrt_axis]
    intro h
    exact absurd h.1 (not_le.mpr hconv)

theorem loop_two (hs1 : s.qb 1 = q0) (hs2 : s.qb 2 = 0)
    (hp1 : (shearPass frn Rat.sqrt v s).qb 1 = q1) (hp2 : (shearPass frn Rat.sqrt v s).qb 2 = 0)
    (hmove : tol ≤ |q1 - q0|) (hm : 1 ≤ maxIter)
    (hpp1 : (shearPass frn Rat.sqrt v (shearPass frn Rat.sqrt v s)).qb 1 = q2)
    (hpp2 : (shearPass frn Rat.sqrt v (shearPass frn Rat.sqrt v s)).qb 2 = 0)
    (hconv : |q2 - q1| < tol) :
    shearLoop frn Rat.sqrt v maxIter tol s 0 =
      { e := shearPass frn Rat.sqrt v (shearPass frn Rat.sqrt v s),
        qbOld := ![(shearPass frn Rat.sqrt v s).qb 1, (shearPass frn Rat.sqrt v s).qb 2],
        iter := 2 } := by
  rw [shearLoop_step, shearLoop_stop]
  · rfl
  · rw [hpp1, hpp2, hp1, hp2, sqrt_axis]
    intro h
    exact absurd h.1 (not_le.mpr hconv)
  · rw [hp1, hp2, hs1, hs2, sqrt_axis]
    exact ⟨hmove, by omega⟩

end Loops

section Coulomb

/-- An elastic pass with Coulomb friction, shear deformation along basic y. -/
theorem coulomb_pass_elastic (mu v N t : ℚ) (s : FlatSliderSimple3d ℚ M ℚ) (h4 : s.ul 4 = 0)
    (hz : s.ub 2 = s.ubPlasticC 1) (hN : normalForce s = N) (hpos : 0 < N)
    (ht : mu * N / s.uy * (s.ub 1 - s.ubPlasticC 0) = t) (hel : |t| ≤ mu * N) :
    (shearPass (coulombFriction mu) Rat.sqrt v s).qb 1 = t - N * s.ul 5 ∧
      (shearPass (coulombFriction mu) Rat.sqrt v s).qb 2 = 0 := by
  have hFy : passYield (coulombFriction mu) v s = mu * N := by
    show (if normalForce s > 0 then mu * normalForce s else 0) = mu * N
    rw [hN, if_pos hpos]
  obtain ⟨h1, h2, _⟩ := axis_pass_elastic (coulombFriction mu) v (mu * N) t s h4 hz hFy ht hel
  rw [hN] at h1
  exact ⟨h1, h2⟩

variable (mu : ℚ) (E : FlatSliderSimple3d ℚ (ℚ × ℚ) ℚ) (L : ℚ) (hT : E.Tgl = 1)
  (hL : E.Tlb = localToBasic L) (a d r : ℚ) (hC0 : E.ubPlasticC 0 = 0)
  (hC1 : E.ubPlasticC 1 = 0) (hq2 : E.qb 2 = 0) (N1 t1 : ℚ)
  (hN1 : -(1000 * a) - E.qb 1 * r = N1) (hpos1 : 0 < N1) (ht1 : mu * N1 / E.uy * d = t1)
  (hel1 : |t1| ≤ mu * N1)

include hT hL hC0 hC1 hq2 hN1 hpos1 ht1 hel1

/-- First pass of an update with node 1 rotated by `r` about z. -/
theorem tilt_first_pass :
    (shearPass (coulombFriction mu) Rat.sqrt 0
        (axialTrial (elasticMaterial 1000) E (nodal 0 0 r) (nodal a d 0) 0 0)).qb 1 =
        t1 - N1 * r ∧
      (shearPass (coulombFriction mu) Rat.sqrt 0
        (axialTrial (elasticMaterial 1000) E (nodal 0 0 r) (nodal a d 0) 0 0)).qb 2 = 0 := by
  have hub := push_ub E L hT hL a d r
  have hul := push_ul E hT a d r
  have hax := push_axialForce E L hT hL a d r
  unfold axialForce at hax
  have hN : normalForce (axialTrial (elasticMaterial 1000) E (nodal 0 0 r) (nodal a d 0) 0 0)
      = N1 := by
    rw [normalForce, hax, axialTrial_qb_one, axialTrial_qb_two, hul.1, hul.2, hq2, ← hN1]
    ring
  obtain ⟨h1, h2⟩ := coulomb_pass_elastic mu 0 N1 t1 _ hul.1 (by rw [hub]; exact hC1.symm) hN
    hpos1 (by
      rw [hub]
      show mu * N1 / E.uy * (d - E.ubPlasticC 0) = t1
      rw [hC0, sub_zero]
      exact ht1) hel1
  rw [hul.2] at h1
  exact ⟨h1, h2⟩

/-- The update when the first pass already converges and the cap exceeds
one. -/
theorem tilt_update_one (ha : a < 0) (hconv : |t1 - N1 * r - E.qb 1| < E.tol)
    (hcap : 1 < E.maxIter) :
    (update (elasticMaterial 1000) (coulombFriction mu) Rat.sqrt E (nodal 0 0 r) (nodal a d 0)
        0 0).2 = 0 ∧
      (update (elasticMaterial 1000) (coulombFriction mu) Rat.sqrt E (nodal 0 0 r) (nodal a d 0)
        0 0).1.qb 1 = t1 - N1 * r ∧
      (update (elasticMaterial 1000) (coulombFriction mu) Rat.sqrt E (nodal 0 0 r) (nodal a d 0)
        0 0).1.qb 2 = 0 := by
  obtain ⟨p1, p2⟩ := tilt_first_pass mu E L hT hL a d r hC0 hC1 hq2 N1 t1 hN1 hpos1 ht1 hel1
  rw [update_of_contact _ _ _ _ _ _ _ _ (by rw [push_axialForce E L hT hL]; linarith),
    shearSolve, push_slidingSpeed E L hT hL,
    loop_one (coulombFriction mu) 0 E.maxIter E.tol _ (E.qb 1) (t1 - N1 * r)
      (axialTrial_qb_one _ _ _ _ _ _) ((axialTrial_qb_two _ _ _ _ _ _).trans hq2) p1 p2 hconv]
  dsimp only
  rw [if_neg (not_le.mpr hcap), rotationalTrial_qb_one, rotationalTrial_qb_two, p1, p2]
  exact ⟨rfl, rfl, rfl⟩

variable (N2 t2 : ℚ) (hN2 : -(1000 * a) - (t1 - N1 * r) * r = N2) (hpos2 : 0 < N2)
  (ht2 : mu * N2 / E.uy * d = t2) (hel2 : |t2| ≤ mu * N2)

include hN2 hpos2 ht2 hel2

/-- Second pass of that update. -/
theorem tilt_second_pass :
    (shearPass (coulombFriction mu) Rat.sqrt 0 (shearPass (coulombFriction mu) Rat.sqrt 0
        (axialTrial (elasticMaterial 1000) E (nodal 0 0 r) (nodal a d 0) 0 0))).qb 1 =
        t2 - N2 * r ∧
      (shearPass (coulombFriction mu) Rat.sqrt 0 (shearPass (coulombFriction mu) Rat.sqrt 0
        (axialTrial (elasticMaterial 1000) E (nodal 0 0 r) (nodal a d 0) 0 0))).qb 2 = 0 := by
  have hub := push_ub E L hT hL a d r
  have hul := push_ul E hT a d r
  have hax := push_axialForce E L hT hL a d r
  unfold axialForce at hax
  obtain ⟨p1, p2⟩ := tilt_first_pass mu E L hT hL a d r hC0 hC1 hq2 N1 t1 hN1 hpos1 ht1 hel1
  have hN : normalForce (shearPass (coulombFriction mu) Rat.sqrt 0
      (axialTrial (elasticMaterial 1000) E (nodal 0 0 r) (nodal a d 0) 0 0)) = N2 := by
    rw [normalForce, shearPass_qb_zero, p1, p2, shearPass_ul, hax, hul.1, hul.2, ← hN2]
    ring
  obtain ⟨h1, h2⟩ := coulomb_pass_elastic mu 0 N2 t2 _
    (by rw [shearPass_ul]; exact hul.1)
    (by rw [shearPass_ub, shearPass_ubPlasticC, hub]; exact hC1.symm) hN hpos2 (by
      rw [shearPass_uy, shearPass_ub, shearPass_ubPlasticC, hub]
      show mu * N2 / E.uy * (d - E.ubPlasticC 0) = t2
      rw [hC0, sub_zero]
      exact ht2) hel2
  rw [shearPass_ul, hul.2] at h1
  exact ⟨h1, h2⟩

/-- The update when the second pass converges and the cap exceeds two. -/
theorem tilt_update_two (ha : a < 0) (hmove : E.tol ≤ |t1 - N1 * r - E.qb 1|)
    (hconv : |t2 - N2 * r - (t1 - N1 * r)| < E.tol) (hcap : 2 < E.maxIter) :
    (update (elasticMaterial 1000) (coulombFriction mu) Rat.sqrt E (nodal 0 0 r) (nodal a d 0)
        0 0).2 = 0 ∧
      (update (elasticMaterial 1000) (coulombFriction mu) Rat.sqrt E (nodal 0 0 r) (nodal a d 0)
        0 0).1.qb 1 = t2 - N2 * r ∧
      (update (elasticMaterial 1000) (coulombFriction mu) Rat.sqrt E (nodal 0 0 r) (nodal a d 0)
        0 0).1.qb 2 = 0 := by
  obtain ⟨p1, p2⟩ := tilt_first_pass mu E L hT hL a d r hC0 hC1 hq2 N1 t1 hN1 hpos1 ht1 hel1
  obtain ⟨pp1, pp2⟩ := tilt_second_pass mu E L hT hL a d r hC0 hC1 hq2 N1 t1 hN1 hpos1 ht1 hel1
    N2 t2 hN2 hpos2 ht2 hel2
  rw [update_of_contact _ _ _ _ _ _ _ _ (by rw [push_axialForce E L hT hL]; linarith),
    shearSolve, push_slidingSpeed E L hT hL,
    loop_two (coulombFriction mu) 0 E.maxIter E.tol _ (E.qb 1) (t1 - N1 * r) (t2 - N2 * r)
      (axialTrial_qb_one _ _ _ _ _ _) ((axialTrial_qb_two _ _ _ _ _ _).trans hq2) p1 p2 hmove
      (by omega) pp1 pp2 hconv]
  dsimp only
  rw [if_neg (not_le.mpr hcap), rotationalTrial_qb_one, rotationalTrial_qb_two, pp1, pp2]
  exact ⟨rfl, rfl, rfl⟩

end Coulomb

section Repeat

/-- The first of the two identical updates: two passes, success, shear force
`48.997599`. -/
theorem tilted_first_update :
    (update (elasticMaterial 1000) (coulombFriction (1 / 10)) Rat.sqrt
        (bearing (0 : ℚ) 20 (1 / 100))
        (nodal 0 0 (1 / 1000)) (nodal (-1) (1 / 200) 0) 0 0).2 = 0 ∧
      (update (elasticMaterial 1000) (coulombFriction (1 / 10)) Rat.sqrt
        (bearing (0 : ℚ) 20 (1 / 100))
        (nodal 0 0 (1 / 1000)) (nodal (-1) (1 / 200) 0) 0 0).1.qb 1 = 999951 / 20000 - 999951 / 1000 * (1 / 1000) ∧
      (update (elasticMaterial 1000) (coulombFriction (1 / 10)) Rat.sqrt
        (bearing (0 : ℚ) 20 (1 / 100))
        (nodal 0 0 (1 / 1000)) (nodal (-1) (1 / 200) 0) 0 0).1.qb 2 = 0 :=
  tilt_update_two (1 / 10) (bearing (0 : ℚ) 20 (1 / 100)) (1 / 10) rfl rfl (-1) (1 / 200)
    (1 / 1000) rfl rfl rfl 1000 50
    (by rw [bearing_qb]; show -(1000 * (-1 : ℚ)) - 0 * (1 / 1000) = 1000; norm_num)
    (by norm_num) (by rw [bearing_uy]; norm_num) (by norm_num [abs_of_pos])
    (999951 / 1000) (999951 / 20000) (by norm_num) (by norm_num)
    (by rw [bearing_uy]; norm_num) (by norm_num [abs_of_pos]) (by norm_num)
    (by rw [bearing_tol, bearing_qb]; show (1 / 100 : ℚ) ≤ |50 - 1000 * (1 / 1000) - 0|
        norm_num [abs_of_pos])
    (by rw [bearing_tol]; norm_num [abs_of_neg])
    (by rw [bearing_maxIter]; decide)

/-- C9 (counterexample): Coulomb friction `0.1`, node 1 rotated by `0.001`
about z, axial shortening 1, shear deformation `0.005`, tolerance `0.01`. Two
`update` calls with these same trial displacements and zero velocities, with
nothing in between, both succeed; the first leaves the shear force
`48.997599`, the second `48.997599117649`. -/
theorem identical_updates_leave_different_forces :
    (update (elasticMaterial 1000) (coulombFriction (1 / 10)) Rat.sqrt
        (bearing (0 : ℚ) 20 (1 / 100))
        (nodal 0 0 (1 / 1000)) (nodal (-1) (1 / 200) 0) 0 0).2 = 0 ∧
      (update (elasticMaterial 1000) (coulombFriction (1 / 10)) Rat.sqrt
        (update (elasticMaterial 1000) (coulombFriction (1 / 10)) Rat.sqrt
        (bearing (0 : ℚ) 20 (1 / 100))
        (nodal 0 0 (1 / 1000)) (nodal (-1) (1 / 200) 0) 0 0).1
        (nodal 0 0 (1 / 1000)) (nodal (-1) (1 / 200) 0) 0 0).2 = 0 ∧
      (update (elasticMaterial 1000) (coulombFriction (1 / 10)) Rat.sqrt
        (bearing (0 : ℚ) 20 (1 / 100))
        (nodal 0 0 (1 / 1000)) (nodal (-1) (1 / 200) 0) 0 0).1.qb 1 = 48997599 / 1000000 ∧
      (update (elasticMaterial 1000) (coulombFriction (1 / 10)) Rat.sqrt
        (update (elasticMaterial 1000) (coulombFriction (1 / 10)) Rat.sqrt
        (bearing (0 : ℚ) 20 (1 / 100))
        (nodal 0 0 (1 / 1000)) (nodal (-1) (1 / 200) 0) 0 0).1
        (nodal 0 0 (1 / 1000)) (nodal (-1) (1 / 200) 0) 0 0).1.qb 1 = 48997599117649 / 1000000000000 := by
  obtain ⟨a0, a1, a2⟩ := tilted_first_update
  have hT := (update_Tgl (elasticMaterial 1000) (coulombFriction (1 / 10)) Rat.sqrt
    (bearing (0 : ℚ) 20 (1 / 100)) (nodal 0 0 (1 / 1000)) (nodal (-1) (1 / 200) 0)
    0 0).trans (rfl : (bearing (0 : ℚ) 20 (1 / 100)).Tgl = 1)
  have hL := (update_Tlb (elasticMaterial 1000) (coulombFriction (1 / 10)) Rat.sqrt
    (bearing (0 : ℚ) 20 (1 / 100)) (nodal 0 0 (1 / 1000)) (nodal (-1) (1 / 200) 0)
    0 0).trans (rfl : (bearing (0 : ℚ) 20 (1 / 100)).Tlb = localToBasic (1 / 10))
  have hC := update_ubPlasticC_eq (elasticMaterial 1000) (coulombFriction (1 / 10)) Rat.sqrt
    (bearing (0 : ℚ) 20 (1 / 100)) (nodal 0 0 (1 / 1000)) (nodal (-1) (1 / 200) 0) 0 0
  have hy := update_uy (elasticMaterial 1000) (coulombFriction (1 / 10)) Rat.sqrt
    (bearing (0 : ℚ) 20 (1 / 100)) (nodal 0 0 (1 / 1000)) (nodal (-1) (1 / 200) 0) 0 0
  have ho := update_tol (elasticMaterial 1000) (coulombFriction (1 / 10)) Rat.sqrt
    (bearing (0 : ℚ) 20 (1 / 100)) (nodal 0 0 (1 / 1000)) (nodal (-1) (1 / 200) 0) 0 0
  have hm := update_maxIter (elasticMaterial 1000) (coulombFriction (1 / 10)) Rat.sqrt
    (bearing (0 : ℚ) 20 (1 / 100)) (nodal 0 0 (1 / 1000)) (nodal (-1) (1 / 200) 0) 0 0
  rw [bearing_ubPlasticC] at hC
  rw [bearing_uy] at hy
  rw [bearing_tol] at ho
  rw [bearing_maxIter] at hm
  obtain ⟨b0, b1, _⟩ := tilt_update_one (1 / 10) _ (1 / 10) hT hL (-1) (1 / 200) (1 / 1000)
    (by rw [hC]; rfl) (by rw [hC]; rfl) a2 (999951002401 / 1000000000)
    (999951002401 / 20000000000) (by rw [a1]; norm_num) (by norm_num)
    (by rw [hy]; norm_num) (by norm_num [abs_of_pos]) (by norm_num)
    (by rw [ho, a1]; norm_num [abs_of_pos]) (by rw [hm]; decide)
  refine ⟨a0, b0, ?_, ?_⟩
  · rw [a1]
    norm_num
  · rw [b1]
    norm_num

end Repeat

/-! ## A repeated update without rotation -/

section Settled

omit [LinearOrderedField α] in
theorem setEntry_self {m n : ℕ} (A : Matrix (Fin m) (Fin n) α) (i : Fin m) (j : Fin n) :
    setEntry A i j (A i j) = A := by
  funext r c
  unfold setEntry
  split
  · rename_i h
    rw [h.1, h.2]
  · rfl

omit [LinearOrderedField α] in
theorem setEntry_of_eq {m n : ℕ} (A : Matrix (Fin m) (Fin n) α) (i : Fin m) (j : Fin n)
    (w : α) (h : w = A i j) : setEntry A i j w = A := by
  rw [h]
  exact setEntry_self A i j

variable (mat : UniaxialMaterial α M) (frn : FrictionModel α F) (sqrt : α → α) (v : α)

/-- The quantities of a pass are the same from two states that agree on what
the pass reads. -/
theorem pass_congr (s x : FlatSliderSimple3d α M F) (hN : normalForce x = normalForce s)
    (hf : ∀ a b, frn.setTrial x.theFrnMdl a b = frn.setTrial s.theFrnMdl a b)
    (huy : x.uy = s.uy) (hub : x.ub = s.ub) (hC : x.ubPlasticC = s.ubPlasticC) :
    passFriction frn v x = passFriction frn v s ∧ passYield frn v x = passYield frn v s ∧
      passK0 frn v x = passK0 frn v s ∧ passTrial frn v x = passTrial frn v s ∧
      passTrialNorm frn sqrt v x = passTrialNorm frn sqrt v s ∧
      passY frn sqrt v x = passY frn sqrt v s := by
  have h1 : passFriction frn v x = passFriction frn v s := by
    unfold passFriction
    rw [hN, hf]
  have h2 : passYield frn v x = passYield frn v s := by
    unfold passYield
    rw [h1]
  have h3 : passK0 frn v x = passK0 frn v s := by
    unfold passK0
    rw [h2, huy]
  have h4 : passTrial frn v x = passTrial frn v s := by
    unfold passTrial
    rw [h3, hub, hC]
  have h5 : passTrialNorm frn sqrt v x = passTrialNorm frn sqrt v s := by
    unfold passTrialNorm
    rw [h4]
  refine ⟨h1, h2, h3, h4, h5, ?_⟩
  unfold passY
  rw [h5, h2]

/-- An elastic step changes nothing in a state that already holds its
outputs. -/
theorem elasticStep_fixed (x : FlatSliderSimple3d α M F)
    (hf : passFriction frn v x = x.theFrnMdl)
    (h1 : passTrial frn v x 0 - normalForce x * x.ul 5 = x.qb 1)
    (h2 : passTrial frn v x 1 + normalForce x * x.ul 4 = x.qb 2)
    (k11 : passK0 frn v x = x.kb 1 1) (k22 : passK0 frn v x = x.kb 2 2)
    (k12 : x.kb 1 2 = 0) (k21 : x.kb 2 1 = 0) :
    elasticStep frn v x = x := by
  unfold elasticStep
  apply FlatSliderSimple3d.ext <;> try rfl
  · exact hf
  · show Function.update (Function.update x.qb 1 _) 2 _ = x.qb
    rw [h1, h2, Function.update_eq_self, Function.update_eq_self]
  · show setEntry (setEntry (setEntry (setEntry x.kb 2 2 _) 1 1 _) 2 1 0) 1 2 0 = x.kb
    rw [setEntry_of_eq x.kb 2 2 _ k22, setEntry_of_eq x.kb 1 1 _ k11,
      setEntry_of_eq x.kb 2 1 _ k21.symm, setEntry_of_eq x.kb 1 2 _ k12.symm]

/-- A plastic step changes nothing in a state that already holds its
outputs. -/
theorem plasticStep_fixed (x : FlatSliderSimple3d α M F)
    (hf : passFriction frn v x = x.theFrnMdl)
    (hp : (plasticStep frn sqrt v x).ubPlastic = x.ubPlastic)
    (h1 : passYield frn v x * passTrial frn v x 0 / passTrialNorm frn sqrt v x
      - normalForce x * x.ul 5 = x.qb 1)
    (h2 : passYield frn v x * passTrial frn v x 1 / passTrialNorm frn sqrt v x
      + normalForce x * x.ul 4 = x.qb 2)
    (k11 : passYield frn v x * passK0 frn v x * passTrial frn v x 1 ^ 2 /
      passTrialNorm frn sqrt v x ^ 3 = x.kb 1 1)
    (k12 : -passYield frn v x * passK0 frn v x * passTrial frn v x 0 * passTrial frn v x 1 /
      passTrialNorm frn sqrt v x ^ 3 = x.kb 1 2)
    (k21 : -passYield frn v x * passK0 frn v x * passTrial frn v x 0 * passTrial frn v x 1 /
      passTrialNorm frn sqrt v x ^ 3 = x.kb 2 1)
    (k22 : passYield frn v x * passK0 frn v x * passTrial frn v x 0 ^ 2 /
      passTrialNorm frn sqrt v x ^ 3 = x.kb 2 2) :
    plasticStep frn sqrt v x = x := by
  apply FlatSliderSimple3d.ext <;> try rfl
  · exact hf
  · exact hp
  · show Function.update (Function.update x.qb 1 _) 2 _ = x.qb
    rw [h1, h2, Function.update_eq_self, Function.update_eq_self]
  · show setEntry (setEntry (setEntry (setEntry x.kb 1 1 _) 1 2 _) 2 1 _) 2 2 _ = x.kb
    rw [setEntry_of_eq x.kb 1 1 _ k11, setEntry_of_eq x.kb 1 2 _ k12,
      setEntry_of_eq x.kb 2 1 _ k21, setEntry_of_eq x.kb 2 2 _ k22]

omit [LinearOrderedField α] in
theorem setEntry_apply {m n : ℕ} (A : Matrix (Fin m) (Fin n) α) (i r : Fin m) (j c : Fin n)
    (w : α) : setEntry A i j w r c = if r = i ∧ c = j then w else A r c := rfl

theorem elasticStep_kb (e : FlatSliderSimple3d α M F) :
    (elasticStep frn v e).kb 1 1 = passK0 frn v e ∧ (elasticStep frn v e).kb 2 2 = passK0 frn v e ∧
      (elasticStep frn v e).kb 1 2 = 0 ∧ (elasticStep frn v e).kb 2 1 = 0 := by
  unfold elasticStep
  simp +decide [setEntry_apply]

theorem plasticStep_kb (e : FlatSliderSimple3d α M F) :
    (plasticStep frn sqrt v e).kb 1 1 =
        passYield frn v e * passK0 frn v e * passTrial frn v e 1 ^ 2 /
          passTrialNorm frn sqrt v e ^ 3 ∧
      (plasticStep frn sqrt v e).kb 1 2 =
        -passYield frn v e * passK0 frn v e * passTrial frn v e 0 * passTrial frn v e 1 /
          passTrialNorm frn sqrt v e ^ 3 ∧
      (plasticStep frn sqrt v e).kb 2 1 =
        -passYield frn v e * passK0 frn v e * passTrial frn v e 0 * passTrial frn v e 1 /
          passTrialNorm frn sqrt v e ^ 3 ∧
      (plasticStep frn sqrt v e).kb 2 2 =
        passYield frn v e * passK0 frn v e * passTrial frn v e 0 ^ 2 /
          passTrialNorm frn sqrt v e ^ 3 := by
  unfold plasticStep
  simp +decide [setEntry_apply]

/-- Without rotation, a pass changes nothing in a state that holds the
outputs of a pass from a state with the same inputs, provided a `setTrial` of
the friction model overwrites the previous one. -/
theorem shearPass_fixed (s x : FlatSliderSimple3d α M F) (h4 : s.ul 4 = 0) (h5 : s.ul 5 = 0)
    (hF : ∀ f a b c d, frn.setTrial (frn.setTrial f a b) c d = frn.setTrial f c d)
    (hul : x.ul = s.ul) (hub : x.ub = s.ub) (huy : x.uy = s.uy)
    (hC : x.ubPlasticC = s.ubPlasticC) (hq0 : x.qb 0 = s.qb 0)
    (hf : x.theFrnMdl = (shearPass frn sqrt v s).theFrnMdl)
    (hq1 : x.qb 1 = (shearPass frn sqrt v s).qb 1)
    (hq2 : x.qb 2 = (shearPass frn sqrt v s).qb 2)
    (hp : x.ubPlastic = (shearPass frn sqrt v s).ubPlastic)
    (k11 : x.kb 1 1 = (shearPass frn sqrt v s).kb 1 1)
    (k12 : x.kb 1 2 = (shearPass frn sqrt v s).kb 1 2)
    (k21 : x.kb 2 1 = (shearPass frn sqrt v s).kb 2 1)
    (k22 : x.kb 2 2 = (shearPass frn sqrt v s).kb 2 2) :
    shearPass frn sqrt v x = x := by
  have hNs : normalForce s = -s.qb 0 := by
    unfold normalForce
    rw [h4, h5, mul_zero, mul_zero, sub_zero, add_zero]
  have hNx : normalForce x = normalForce s := by
    rw [hNs]
    unfold normalForce
    rw [hul, h4, h5, hq0, mul_zero, mul_zero, sub_zero, add_zero]
  have hfs : (shearPass frn sqrt v s).theFrnMdl = passFriction frn v s :=
    shearPass_theFrnMdl frn sqrt v s
  have hfx : ∀ a b, frn.setTrial x.theFrnMdl a b = frn.setTrial s.theFrnMdl a b := by
    intro a b
    rw [hf, hfs]
    unfold passFriction
    exact hF _ _ _ _ _
  obtain ⟨c1, c2, c3, c4, c5, c6⟩ := pass_congr frn sqrt v s x hNx hfx huy hub hC
  have hx5 : x.ul 5 = 0 := by rw [hul]; exact h5
  have hx4 : x.ul 4 = 0 := by rw [hul]; exact h4
  by_cases hY : passY frn sqrt v s ≤ 0
  · have hs := shearPass_of_elastic frn sqrt v s hY
    rw [hs] at hf hq1 hq2 k11 k12 k21 k22
    obtain ⟨e11, e22, e12, e21⟩ := elasticStep_kb frn v s
    rw [shearPass_of_elastic frn sqrt v x (by rw [c6]; exact hY)]
    apply elasticStep_fixed
    · rw [c1]
      exact hf.symm
    · rw [c4, hNx, hx5, hq1, elasticStep_qb_one, h5]
    · rw [c4, hNx, hx4, hq2, elasticStep_qb_two, h4]
    · rw [c3, k11, e11]
    · rw [c3, k22, e22]
    · rw [k12, e12]
    · rw [k21, e21]
  · have hs := shearPass_of_plastic frn sqrt v s (not_le.mp hY)
    rw [hs] at hf hq1 hq2 hp k11 k12 k21 k22
    obtain ⟨e11, e12, e21, e22⟩ := plasticStep_kb frn sqrt v s
    rw [shearPass_of_plastic frn sqrt v x (by rw [c6]; exact not_le.mp hY)]
    apply plasticStep_fixed
    · rw [c1]
      exact hf.symm
    · rw [hp]
      unfold plasticStep
      simp only [c3, c4, c5, c6, hC]
    · rw [c2, c4, c5, hNx, hx5, hq1, plasticStep_qb_one, h5]
    · rw [c2, c4, c5, hNx, hx4, hq2, plasticStep_qb_two, h4]
    · rw [c2, c3, c4, c5, k11, e11]
    · rw [c2, c3, c4, c5, k12, e12]
    · rw [c2, c3, c4, c5, k21, e21]
    · rw [c2, c3, c4, c5, k22, e22]

theorem shearPass_kb_axial (e : FlatSliderSimple3d α M F) :
    (shearPass frn sqrt v e).kb 0 0 = e.kb 0 0 := by
  unfold shearPass
  split
  · unfold elasticStep
    simp +decide [setEntry_apply]
  · unfold plasticStep
    simp +decide [setEntry_apply]

/-- The loop leaves a state alone that a pass leaves alone. -/
theorem shearLoop_settled (maxIter : Int) (tol : α) :
    ∀ (x : FlatSliderSimple3d α M F) (iter : Int), shearPass frn sqrt v x = x →
      (shearLoop frn sqrt v maxIter tol x iter).e = x := by
  intro x iter
  induction x, iter using shearLoop.induct frn sqrt v maxIter tol with
  | case1 e iter r h ih =>
    intro hx
    have hr : r.e = e := hx
    rw [shearLoop, dif_pos h]
    rw [hr] at ih
    show (shearLoop frn sqrt v maxIter tol (shearPass frn sqrt v e) (iter + 1)).e = e
    rw [hx]
    exact ih hx
  | case2 e iter r h =>
    intro hx
    rw [shearLoop, dif_neg h]
    exact hx

/-- When a second pass changes nothing, the loop ends in the state left by
the first pass. -/
theorem shearLoop_first_pass (maxIter : Int) (tol : α) (s : FlatSliderSimple3d α M F)
    (iter : Int)
    (h : shearPass frn sqrt v (shearPass frn sqrt v s) = shearPass frn sqrt v s) :
    (shearLoop frn sqrt v maxIter tol s iter).e = shearPass frn sqrt v s := by
  rw [shearLoop]
  split
  · exact shearLoop_settled frn sqrt v maxIter tol _ _ h
  · rfl

/-- The axial step changes nothing in a state that already holds its
outputs. -/
theorem axialTrial_fixed (x : FlatSliderSimple3d α M F) (dsp1 dsp2 vel1 vel2 : Fin 6 → α)
    (hul : localDisp x dsp1 dsp2 = x.ul) (hub : basicDisp x dsp1 dsp2 = x.ub)
    (hm : mat.setTrialStrain (x.theMaterials 0) (basicDisp x dsp1 dsp2 0)
      (basicDisp x vel1 vel2 0) = x.theMaterials 0)
    (hq : mat.getStress (x.theMaterials 0) = x.qb 0)
    (hk : mat.getTangent (x.theMaterials 0) = x.kb 0 0) :
    axialTrial mat x dsp1 dsp2 vel1 vel2 = x := by
  unfold axialTrial
  apply FlatSliderSimple3d.ext <;> try rfl
  · show Function.update x.theMaterials 0 _ = x.theMaterials
    rw [hm, Function.update_eq_self]
  · exact hub
  · show Function.update x.qb 0 _ = x.qb
    rw [hm, hq, Function.update_eq_self]
  · show setEntry x.kb 0 0 _ = x.kb
    rw [hm, hk, setEntry_self]
  · exact hul

omit [LinearOrderedField α] in
/-- The rotational step changes nothing in a state that already holds its
outputs. -/
theorem rotationalTrial_fixed (x : FlatSliderSimple3d α M F) (u : Fin 6 → α)
    (h1 : mat.setTrialStrain (x.theMaterials 1) (x.ub 3) (u 3) = x.theMaterials 1)
    (h2 : mat.setTrialStrain (x.theMaterials 2) (x.ub 4) (u 4) = x.theMaterials 2)
    (h3 : mat.setTrialStrain (x.theMaterials 3) (x.ub 5) (u 5) = x.theMaterials 3)
    (q3 : mat.getStress (x.theMaterials 1) = x.qb 3)
    (q4 : mat.getStress (x.theMaterials 2) = x.qb 4)
    (q5 : mat.getStress (x.theMaterials 3) = x.qb 5)
    (k3 : mat.getTangent (x.theMaterials 1) = x.kb 3 3)
    (k4 : mat.getTangent (x.theMaterials 2) = x.kb 4 4)
    (k5 : mat.getTangent (x.theMaterials 3) = x.kb 5 5) :
    rotationalTrial mat x u = x := by
  unfold rotationalTrial
  apply FlatSliderSimple3d.ext <;> try rfl
  · show Function.update (Function.update (Function.update x.theMaterials 1 _) 2 _) 3 _
      = x.theMaterials
    rw [h1, h2, h3, Function.update_eq_self, Function.update_eq_self, Function.update_eq_self]
  · show Function.update (Function.update (Function.update x.qb 3 _) 4 _) 5 _ = x.qb
    rw [h1, h2, h3, q3, q4, q5, Function.update_eq_self, Function.update_eq_self,
      Function.update_eq_self]
  · show setEntry (setEntry (setEntry x.kb 3 3 _) 4 4 _) 5 5 _ = x.kb
    rw [h1, h2, h3, k3, k4, k5, setEntry_self, setEntry_self, setEntry_self]

omit [LinearOrderedField α] in
/-- What the rotational step writes and what it keeps. -/
theorem rotationalTrial_fields (x : FlatSliderSimple3d α M F) (u : Fin 6 → α) :
    (rotationalTrial mat x u).theMaterials 0 = x.theMaterials 0 ∧
      (rotationalTrial mat x u).theMaterials 1 =
        mat.setTrialStrain (x.theMaterials 1) (x.ub 3) (u 3) ∧
      (rotationalTrial mat x u).theMaterials 2 =
        mat.setTrialStrain (x.theMaterials 2) (x.ub 4) (u 4) ∧
      (rotationalTrial mat x u).theMaterials 3 =
        mat.setTrialStrain (x.theMaterials 3) (x.ub 5) (u 5) ∧
      (rotationalTrial mat x u).qb 0 = x.qb 0 ∧
      (rotationalTrial mat x u).qb 3 =
        mat.getStress (mat.setTrialStrain (x.theMaterials 1) (x.ub 3) (u 3)) ∧
      (rotationalTrial mat x u).qb 4 =
        mat.getStress (mat.setTrialStrain (x.theMaterials 2) (x.ub 4) (u 4)) ∧
      (rotationalTrial mat x u).qb 5 =
        mat.getStress (mat.setTrialStrain (x.theMaterials 3) (x.ub 5) (u 5)) ∧
      (rotationalTrial mat x u).kb 0 0 = x.kb 0 0 ∧
      (rotationalTrial mat x u).kb 1 1 = x.kb 1 1 ∧
      (rotationalTrial mat x u).kb 1 2 = x.kb 1 2 ∧
      (rotationalTrial mat x u).kb 2 1 = x.kb 2 1 ∧
      (rotationalTrial mat x u).kb 2 2 = x.kb 2 2 ∧
      (rotationalTrial mat x u).kb 3 3 =
        mat.getTangent (mat.setTrialStrain (x.theMaterials 1) (x.ub 3) (u 3)) ∧
      (rotationalTrial mat x u).kb 4 4 =
        mat.getTangent (mat.setTrialStrain (x.theMaterials 2) (x.ub 4) (u 4)) ∧
      (rotationalTrial mat x u).kb 5 5 =
        mat.getTangent (mat.setTrialStrain (x.theMaterials 3) (x.ub 5) (u 5)) := by
  unfold rotationalTrial
  simp +decide [setEntry_apply, Function.update]

theorem localDisp_congr (x e : FlatSliderSimple3d α M F) (h : x.Tgl = e.Tgl)
    (a b : Fin 6 → α) : localDisp x a b = localDisp e a b := by
  unfold localDisp
  rw [h]

theorem basicDisp_congr (x e : FlatSliderSimple3d α M F) (h : x.Tgl = e.Tgl)
    (h2 : x.Tlb = e.Tlb) (a b : Fin 6 → α) : basicDisp x a b = basicDisp e a b := by
  unfold basicDisp
  rw [localDisp_congr x e h, h2]

theorem slidingSpeed_congr (x e : FlatSliderSimple3d α M F) (h : x.Tgl = e.Tgl)
    (h2 : x.Tlb = e.Tlb) (a b : Fin 6 → α) :
    slidingSpeed sqrt x a b = slidingSpeed sqrt e a b := by
  unfold slidingSpeed
  rw [basicDisp_congr x e h h2]

/-- What the axial step writes. -/
theorem axialTrial_fields (e : FlatSliderSimple3d α M F) (dsp1 dsp2 vel1 vel2 : Fin 6 → α) :
    (axialTrial mat e dsp1 dsp2 vel1 vel2).theMaterials 0 =
        mat.setTrialStrain (e.theMaterials 0) (basicDisp e dsp1 dsp2 0)
          (basicDisp e vel1 vel2 0) ∧
      (axialTrial mat e dsp1 dsp2 vel1 vel2).qb 0 =
        mat.getStress (mat.setTrialStrain (e.theMaterials 0) (basicDisp e dsp1 dsp2 0)
          (basicDisp e vel1 vel2 0)) ∧
      (axialTrial mat e dsp1 dsp2 vel1 vel2).kb 0 0 =
        mat.getTangent (mat.setTrialStrain (e.theMaterials 0) (basicDisp e dsp1 dsp2 0)
          (basicDisp e vel1 vel2 0)) ∧
      (axialTrial mat e dsp1 dsp2 vel1 vel2).ul = localDisp e dsp1 dsp2 ∧
      (axialTrial mat e dsp1 dsp2 vel1 vel2).ub = basicDisp e dsp1 dsp2 := by
  unfold axialTrial
  simp +decide [setEntry_apply]

/-- In contact, `update` returns a state unchanged when the axial step and a
pass leave it unchanged and, in case of success, the rotational step does
too. -/
theorem update_settled (x : FlatSliderSimple3d α M F) (dsp1 dsp2 vel1 vel2 : Fin 6 → α)
    (ha : axialTrial mat x dsp1 dsp2 vel1 vel2 = x)
    (hp : shearPass frn sqrt (slidingSpeed sqrt x vel1 vel2) x = x)
    (hr : (update mat frn sqrt x dsp1 dsp2 vel1 vel2).2 = 0 →
      rotationalTrial mat x (basicDisp x vel1 vel2) = x)
    (hc : axialForce mat x dsp1 dsp2 vel1 vel2 < 0) :
    (update mat frn sqrt x dsp1 dsp2 vel1 vel2).1 = x := by
  have hs : (shearSolve mat frn sqrt x dsp1 dsp2 vel1 vel2).e = x := by
    unfold shearSolve
    rw [ha]
    exact shearLoop_settled frn sqrt _ _ _ x 0 hp
  rw [update_of_contact mat frn sqrt x dsp1 dsp2 vel1 vel2 hc] at hr ⊢
  split
  · exact hs
  · rename_i hlt
    rw [if_neg hlt] at hr
    show rotationalTrial mat _ _ = x
    rw [hs]
    exact hr rfl

theorem upliftBranch_material (s : FlatSliderSimple3d α M F) (ub0Old : α) :
    (upliftBranch mat s ub0Old).theMaterials 0 =
      if s.qb 0 > 0 then mat.setTrialStrain (s.theMaterials 0) ub0Old 0
      else s.theMaterials 0 := by
  unfold upliftBranch
  dsimp only
  split <;> simp

section Repeated

variable (hM : ∀ m a b c d, mat.setTrialStrain (mat.setTrialStrain m a b) c d =
    mat.setTrialStrain m c d)
  (hF : ∀ f a b c d, frn.setTrial (frn.setTrial f a b) c d = frn.setTrial f c d)
  (e : FlatSliderSimple3d α M F) (dsp1 dsp2 vel1 vel2 : Fin 6 → α)

include hM in
/-- After an update, the axial material answers a `setTrialStrain` as it did
before the update. -/
theorem update_material_overwrite (a b : α) :
    mat.setTrialStrain ((update mat frn sqrt e dsp1 dsp2 vel1 vel2).1.theMaterials 0) a b =
      mat.setTrialStrain (e.theMaterials 0) a b := by
  obtain ⟨f0, -⟩ := axialTrial_fields mat e dsp1 dsp2 vel1 vel2
  unfold update
  dsimp only
  split
  · rw [upliftBranch_material]
    split
    · rw [hM, f0, hM]
    · rw [f0, hM]
  · split
    · show mat.setTrialStrain ((shearSolve mat frn sqrt e dsp1 dsp2 vel1 vel2).e.theMaterials 0)
        a b = _
      unfold shearSolve
      rw [shearLoop_theMaterials, f0, hM]
    · show mat.setTrialStrain ((rotationalTrial mat
        (shearSolve mat frn sqrt e dsp1 dsp2 vel1 vel2).e _).theMaterials 0) a b = _
      rw [(rotationalTrial_fields mat _ _).1]
      unfold shearSolve
      rw [shearLoop_theMaterials, f0, hM]

include hM in
/-- The axial force of a repeated update is that of the first one. -/
theorem update_axialForce_repeat :
    axialForce mat (update mat frn sqrt e dsp1 dsp2 vel1 vel2).1 dsp1 dsp2 vel1 vel2 =
      axialForce mat e dsp1 dsp2 vel1 vel2 := by
  have hTgl := update_Tgl mat frn sqrt e dsp1 dsp2 vel1 vel2
  have hTlb := update_Tlb mat frn sqrt e dsp1 dsp2 vel1 vel2
  unfold axialForce
  rw [(axialTrial_fields mat _ dsp1 dsp2 vel1 vel2).2.1,
    (axialTrial_fields mat e dsp1 dsp2 vel1 vel2).2.1,
    update_material_overwrite mat frn sqrt hM, basicDisp_congr _ e hTgl hTlb,
    basicDisp_congr _ e hTgl hTlb]

theorem update_qb_of_uplift (h : 0 ≤ axialForce mat e dsp1 dsp2 vel1 vel2) :
    (update mat frn sqrt e dsp1 dsp2 vel1 vel2).1.qb = 0 := by
  rw [update_of_uplift mat frn sqrt e dsp1 dsp2 vel1 vel2 h]
  exact upliftBranch_qb mat _ _

theorem update_ubPlastic_of_uplift (h : 0 ≤ axialForce mat e dsp1 dsp2 vel1 vel2) :
    (update mat frn sqrt e dsp1 dsp2 vel1 vel2).1.ubPlastic = e.ubPlastic := by
  rw [update_of_uplift mat frn sqrt e dsp1 dsp2 vel1 vel2 h]
  show (upliftBranch mat _ _).ubPlastic = e.ubPlastic
  unfold upliftBranch
  dsimp only
  split <;> rfl

include hM hF in
/-- Without rotation, the state left by the first pass of an update is left
unchanged by the axial step and by a pass of a repeated update. -/
theorem pass_state_settled (h4 : localDisp e dsp1 dsp2 4 = 0) (h5 : localDisp e dsp1 dsp2 5 = 0) :
    axialTrial mat (shearPass frn sqrt (slidingSpeed sqrt e vel1 vel2)
        (axialTrial mat e dsp1 dsp2 vel1 vel2)) dsp1 dsp2 vel1 vel2 =
        shearPass frn sqrt (slidingSpeed sqrt e vel1 vel2)
          (axialTrial mat e dsp1 dsp2 vel1 vel2) ∧
      shearPass frn sqrt (slidingSpeed sqrt (shearPass frn sqrt (slidingSpeed sqrt e vel1 vel2)
          (axialTrial mat e dsp1 dsp2 vel1 vel2)) vel1 vel2)
        (shearPass frn sqrt (slidingSpeed sqrt e vel1 vel2)
          (axialTrial mat e dsp1 dsp2 vel1 vel2)) =
        shearPass frn sqrt (slidingSpeed sqrt e vel1 vel2)
          (axialTrial mat e dsp1 dsp2 vel1 vel2) := by
  obtain ⟨f0, f1, f2, f3, f4⟩ := axialTrial_fields mat e dsp1 dsp2 vel1 vel2
  have hro := shearPass_readOnlyPart frn sqrt (slidingSpeed sqrt e vel1 vel2)
    (axialTrial mat e dsp1 dsp2 vel1 vel2)
  have hTgl : (shearPass frn sqrt (slidingSpeed sqrt e vel1 vel2)
      (axialTrial mat e dsp1 dsp2 vel1 vel2)).Tgl = e.Tgl := congrArg (fun p => p.2.2.2.1) hro
  have hTlb : (shearPass frn sqrt (slidingSpeed sqrt e vel1 vel2)
      (axialTrial mat e dsp1 dsp2 vel1 vel2)).Tlb = e.Tlb := congrArg (fun p => p.2.2.2.2.1) hro
  constructor
  · apply axialTrial_fixed
    · rw [localDisp_congr _ e hTgl, shearPass_ul, f3]
    · rw [basicDisp_congr _ e hTgl hTlb, shearPass_ub, f4]
    · rw [basicDisp_congr _ e hTgl hTlb, basicDisp_congr _ e hTgl hTlb, shearPass_theMaterials,
        f0, hM]
    · rw [shearPass_theMaterials, shearPass_qb_zero, f0, f1]
    · rw [shearPass_theMaterials, shearPass_kb_axial, f0, f2]
  · rw [slidingSpeed_congr sqrt _ e hTgl hTlb]
    exact shearPass_fixed frn sqrt _ (axialTrial mat e dsp1 dsp2 vel1 vel2) _
      (by rw [f3]; exact h4) (by rw [f3]; exact h5) hF
      (shearPass_ul frn sqrt _ _) (shearPass_ub frn sqrt _ _) (shearPass_uy frn sqrt _ _)
      (shearPass_ubPlasticC frn sqrt _ _) (shearPass_qb_zero frn sqrt _ _)
      rfl rfl rfl rfl rfl rfl rfl rfl

include hM hF in
/-- Without rotation, the state left by a successful update is left unchanged
by the axial step, by a pass and by the rotational step of a repeated
update. -/
theorem rotated_state_settled (h4 : localDisp e dsp1 dsp2 4 = 0)
    (h5 : localDisp e dsp1 dsp2 5 = 0) :
    axialTrial mat (rotationalTrial mat (shearPass frn sqrt (slidingSpeed sqrt e vel1 vel2)
        (axialTrial mat e dsp1 dsp2 vel1 vel2)) (basicDisp e vel1 vel2)) dsp1 dsp2 vel1 vel2 =
        rotationalTrial mat (shearPass frn sqrt (slidingSpeed sqrt e vel1 vel2)
          (axialTrial mat e dsp1 dsp2 vel1 vel2)) (basicDisp e vel1 vel2) ∧
      shearPass frn sqrt (slidingSpeed sqrt (rotationalTrial mat
          (shearPass frn sqrt (slidingSpeed sqrt e vel1 vel2)
            (axialTrial mat e dsp1 dsp2 vel1 vel2)) (basicDisp e vel1 vel2)) vel1 vel2)
        (rotationalTrial mat (shearPass frn sqrt (slidingSpeed sqrt e vel1 vel2)
          (axialTrial mat e dsp1 dsp2 vel1 vel2)) (basicDisp e vel1 vel2)) =
        rotationalTrial mat (shearPass frn sqrt (slidingSpeed sqrt e vel1 vel2)
          (axialTrial mat e dsp1 dsp2 vel1 vel2)) (basicDisp e vel1 vel2) ∧
      rotationalTrial mat (rotationalTrial mat (shearPass frn sqrt (slidingSpeed sqrt e vel1 vel2)
          (axialTrial mat e dsp1 dsp2 vel1 vel2)) (basicDisp e vel1 vel2))
        (basicDisp (rotationalTrial mat (shearPass frn sqrt (slidingSpeed sqrt e vel1 vel2)
          (axialTrial mat e dsp1 dsp2 vel1 vel2)) (basicDisp e vel1 vel2)) vel1 vel2) =
        rotationalTrial mat (shearPass frn sqrt (slidingSpeed sqrt e vel1 vel2)
          (axialTrial mat e dsp1 dsp2 vel1 vel2)) (basicDisp e vel1 vel2) := by
  obtain ⟨f0, f1, f2, f3, f4⟩ := axialTrial_fields mat e dsp1 dsp2 vel1 vel2
  obtain ⟨r0, r1, r2, r3, rq0, rq3, rq4, rq5, rk0, rk11, rk12, rk21, rk22, rk3, rk4, rk5⟩ :=
    rotationalTrial_fields mat (shearPass frn sqrt (slidingSpeed sqrt e vel1 vel2)
      (axialTrial mat e dsp1 dsp2 vel1 vel2)) (basicDisp e vel1 vel2)
  have hro := shearPass_readOnlyPart frn sqrt (slidingSpeed sqrt e vel1 vel2)
    (axialTrial mat e dsp1 dsp2 vel1 vel2)
  have hTgl : (rotationalTrial mat (shearPass frn sqrt (slidingSpeed sqrt e vel1 vel2)
      (axialTrial mat e dsp1 dsp2 vel1 vel2)) (basicDisp e vel1 vel2)).Tgl = e.Tgl :=
    congrArg (fun p => p.2.2.2.1) hro
  have hTlb : (rotationalTrial mat (shearPass frn sqrt (slidingSpeed sqrt e vel1 vel2)
      (axialTrial mat e dsp1 dsp2 vel1 vel2)) (basicDisp e vel1 vel2)).Tlb = e.Tlb :=
    congrArg (fun p => p.2.2.2.2.1) hro
  have hul : (rotationalTrial mat (shearPass frn sqrt (slidingSpeed sqrt e vel1 vel2)
      (axialTrial mat e dsp1 dsp2 vel1 vel2)) (basicDisp e vel1 vel2)).ul =
      (axialTrial mat e dsp1 dsp2 vel1 vel2).ul := shearPass_ul frn sqrt _ _
  have hub : (rotationalTrial mat (shearPass frn sqrt (slidingSpeed sqrt e vel1 vel2)
      (axialTrial mat e dsp1 dsp2 vel1 vel2)) (basicDisp e vel1 vel2)).ub =
      (axialTrial mat e dsp1 dsp2 vel1 vel2).ub := shearPass_ub frn sqrt _ _
  refine ⟨?_, ?_, ?_⟩
  · apply axialTrial_fixed
    · rw [localDisp_congr _ e hTgl, hul, f3]
    · rw [basicDisp_congr _ e hTgl hTlb, hub, f4]
    · rw [basicDisp_congr _ e hTgl hTlb, basicDisp_congr _ e hTgl hTlb, r0,
        shearPass_theMaterials, f0, hM]
    · rw [r0, rq0, shearPass_theMaterials, shearPass_qb_zero, f0, f1]
    · rw [r0, rk0, shearPass_theMaterials, shearPass_kb_axial, f0, f2]
  · rw [slidingSpeed_congr sqrt _ e hTgl hTlb]
    exact shearPass_fixed frn sqrt _ (axialTrial mat e dsp1 dsp2 vel1 vel2) _
      (by rw [f3]; exact h4) (by rw [f3]; exact h5) hF hul hub
      (shearPass_uy frn sqrt _ _) (shearPass_ubPlasticC frn sqrt _ _)
      (rq0.trans (shearPass_qb_zero frn sqrt _ _)) rfl
      (rotationalTrial_qb_one _ mat _) (rotationalTrial_qb_two _ mat _) rfl rk11 rk12 rk21 rk22
  · rw [basicDisp_congr _ e hTgl hTlb]
    apply rotationalTrial_fixed
    · rw [r1]
      exact hM _ _ _ _ _
    · rw [r2]
      exact hM _ _ _ _ _
    · rw [r3]
      exact hM _ _ _ _ _
    · rw [r1, rq3]
    · rw [r2, rq4]
    · rw [r3, rq5]
    · rw [r1, rk3]
    · rw [r2, rk4]
    · rw [r3, rk5]

include hM hF in
/-- C9 (amended): two consecutive `update` calls with identical trial
displacements and velocities, nothing in between, leave identical basic
force, basic stiffness and trial plastic shear displacement when (a) the local
rotations `ul(4)` and `ul(5)` of those displacements are zero, (b) a
`setTrialStrain` of the materials and a `setTrial` of the friction model
overwrite the previous one, and (c) the two calls return the same status. -/
theorem repeated_update_without_rotation (h4 : localDisp e dsp1 dsp2 4 = 0)
    (h5 : localDisp e dsp1 dsp2 5 = 0)
    (hS : (update mat frn sqrt (update mat frn sqrt e dsp1 dsp2 vel1 vel2).1
        dsp1 dsp2 vel1 vel2).2 = (update mat frn sqrt e dsp1 dsp2 vel1 vel2).2) :
    (update mat frn sqrt (update mat frn sqrt e dsp1 dsp2 vel1 vel2).1
        dsp1 dsp2 vel1 vel2).1.qb = (update mat frn sqrt e dsp1 dsp2 vel1 vel2).1.qb ∧
      (update mat frn sqrt (update mat frn sqrt e dsp1 dsp2 vel1 vel2).1
        dsp1 dsp2 vel1 vel2).1.kb = (update mat frn sqrt e dsp1 dsp2 vel1 vel2).1.kb ∧
      (update mat frn sqrt (update mat frn sqrt e dsp1 dsp2 vel1 vel2).1
        dsp1 dsp2 vel1 vel2).1.ubPlastic =
        (update mat frn sqrt e dsp1 dsp2 vel1 vel2).1.ubPlastic := by
  have hforce := update_axialForce_repeat mat frn sqrt hM e dsp1 dsp2 vel1 vel2
  by_cases hc : 0 ≤ axialForce mat e dsp1 dsp2 vel1 vel2
  · have hc2 : 0 ≤ axialForce mat (update mat frn sqrt e dsp1 dsp2 vel1 vel2).1
        dsp1 dsp2 vel1 vel2 := by
      rw [hforce]
      exact hc
    refine ⟨?_, ?_, ?_⟩
    · rw [update_qb_of_uplift mat frn sqrt _ _ _ _ _ hc2,
        update_qb_of_uplift mat frn sqrt e _ _ _ _ hc]
    · rw [update_kb_of_uplift mat frn sqrt _ _ _ _ _ hc2,
        update_kb_of_uplift mat frn sqrt e _ _ _ _ hc, hforce, update_kbInit]
    · exact update_ubPlastic_of_uplift mat frn sqrt _ _ _ _ _ hc2
  · have hlt : axialForce mat e dsp1 dsp2 vel1 vel2 < 0 := not_le.mp hc
    have hlt2 : axialForce mat (update mat frn sqrt e dsp1 dsp2 vel1 vel2).1
        dsp1 dsp2 vel1 vel2 < 0 := by
      rw [hforce]
      exact hlt
    have hfix : (update mat frn sqrt (update mat frn sqrt e dsp1 dsp2 vel1 vel2).1
        dsp1 dsp2 vel1 vel2).1 = (update mat frn sqrt e dsp1 dsp2 vel1 vel2).1 := by
      obtain ⟨p1, p2⟩ := pass_state_settled mat frn sqrt hM hF e dsp1 dsp2 vel1 vel2 h4 h5
      obtain ⟨r1, r2, r3⟩ := rotated_state_settled mat frn sqrt hM hF e dsp1 dsp2 vel1 vel2 h4 h5
      have hs : (shearSolve mat frn sqrt e dsp1 dsp2 vel1 vel2).e =
          shearPass frn sqrt (slidingSpeed sqrt e vel1 vel2)
            (axialTrial mat e dsp1 dsp2 vel1 vel2) := by
        unfold shearSolve
        apply shearLoop_first_pass
        have hro := shearPass_readOnlyPart frn sqrt (slidingSpeed sqrt e vel1 vel2)
          (axialTrial mat e dsp1 dsp2 vel1 vel2)
        have hTgl : (shearPass frn sqrt (slidingSpeed sqrt e vel1 vel2)
            (axialTrial mat e dsp1 dsp2 vel1 vel2)).Tgl = e.Tgl :=
          congrArg (fun p => p.2.2.2.1) hro
        have hTlb : (shearPass frn sqrt (slidingSpeed sqrt e vel1 vel2)
            (axialTrial mat e dsp1 dsp2 vel1 vel2)).Tlb = e.Tlb :=
          congrArg (fun p => p.2.2.2.2.1) hro
        rw [slidingSpeed_congr sqrt _ e hTgl hTlb] at p2
        exact p2
      have hU := update_of_contact mat frn sqrt e dsp1 dsp2 vel1 vel2 hlt
      rw [hs] at hU
      by_cases hst : (shearSolve mat frn sqrt e dsp1 dsp2 vel1 vel2).iter ≥ e.maxIter
      · rw [if_pos hst] at hU
        rw [hU] at hS hlt2 ⊢
        apply update_settled mat frn sqrt _ _ _ _ _ p1 p2 _ hlt2
        intro h0
        rw [h0] at hS
        exact absurd hS (by decide : ¬ (0 : Int) = -1)
      · rw [if_neg hst] at hU
        rw [hU] at hS hlt2 ⊢
        exact update_settled mat frn sqrt _ _ _ _ _ r1 r2 (fun _ => r3) hlt2
    rw [hfix]
    exact ⟨rfl, rfl, rfl⟩

end Repeated

/-- C9 (witness): Coulomb friction `0.1`, no rotation, axial shortening 1,
shear deformation `0.005`, tolerance `0.01`: both updates succeed, and the
second leaves the force, stiffness and plastic displacement of the first. -/
theorem repeated_update_without_rotation_witness :
    (update (elasticMaterial 1000) (coulombFriction (1 / 10)) Rat.sqrt
        (bearing (0 : ℚ) 20 (1 / 100)) (nodal 0 0 0) (nodal (-1) (1 / 200) 0) 0 0).2 = 0 ∧
      (update (elasticMaterial 1000) (coulombFriction (1 / 10)) Rat.sqrt
        (update (elasticMaterial 1000) (coulombFriction (1 / 10)) Rat.sqrt
          (bearing (0 : ℚ) 20 (1 / 100)) (nodal 0 0 0) (nodal (-1) (1 / 200) 0) 0 0).1
        (nodal 0 0 0) (nodal (-1) (1 / 200) 0) 0 0).2 = 0 ∧
      (update (elasticMaterial 1000) (coulombFriction (1 / 10)) Rat.sqrt
        (bearing (0 : ℚ) 20 (1 / 100)) (nodal 0 0 0) (nodal (-1) (1 / 200) 0) 0 0).1.qb 1
        = 50 ∧
      ((update (elasticMaterial 1000) (coulombFriction (1 / 10)) Rat.sqrt
        (update (elasticMaterial 1000) (coulombFriction (1 / 10)) Rat.sqrt
          (bearing (0 : ℚ) 20 (1 / 100)) (nodal 0 0 0) (nodal (-1) (1 / 200) 0) 0 0).1
        (nodal 0 0 0) (nodal (-1) (1 / 200) 0) 0 0).1.qb =
        (update (elasticMaterial 1000) (coulombFriction (1 / 10)) Rat.sqrt
          (bearing (0 : ℚ) 20 (1 / 100)) (nodal 0 0 0) (nodal (-1) (1 / 200) 0) 0 0).1.qb ∧
      (update (elasticMaterial 1000) (coulombFriction (1 / 10)) Rat.sqrt
        (update (elasticMaterial 1000) (coulombFriction (1 / 10)) Rat.sqrt
          (bearing (0 : ℚ) 20 (1 / 100)) (nodal 0 0 0) (nodal (-1) (1 / 200) 0) 0 0).1
        (nodal 0 0 0) (nodal (-1) (1 / 200) 0) 0 0).1.kb =
        (update (elasticMaterial 1000) (coulombFriction (1 / 10)) Rat.sqrt
          (bearing (0 : ℚ) 20 (1 / 100)) (nodal 0 0 0) (nodal (-1) (1 / 200) 0) 0 0).1.kb ∧
      (update (elasticMaterial 1000) (coulombFriction (1 / 10)) Rat.sqrt
        (update (elasticMaterial 1000) (coulombFriction (1 / 10)) Rat.sqrt
          (bearing (0 : ℚ) 20 (1 / 100)) (nodal 0 0 0) (nodal (-1) (1 / 200) 0) 0 0).1
        (nodal 0 0 0) (nodal (-1) (1 / 200) 0) 0 0).1.ubPlastic =
        (update (elasticMaterial 1000) (coulombFriction (1 / 10)) Rat.sqrt
          (bearing (0 : ℚ) 20 (1 / 100)) (nodal 0 0 0) (nodal (-1) (1 / 200) 0)
          0 0).1.ubPlastic) := by
  obtain ⟨a0, a1, a2⟩ := tilt_update_two (1 / 10) (bearing (0 : ℚ) 20 (1 / 100)) (1 / 10)
    rfl rfl (-1) (1 / 200) 0 rfl rfl rfl 1000 50
    (by rw [bearing_qb]; show -(1000 * (-1 : ℚ)) - 0 * 0 = 1000; norm_num)
    (by norm_num) (by rw [bearing_uy]; norm_num) (by norm_num [abs_of_pos])
    1000 50 (by norm_num) (by norm_num)
    (by rw [bearing_uy]; norm_num) (by norm_num [abs_of_pos]) (by norm_num)
    (by rw [bearing_tol, bearing_qb]; show (1 / 100 : ℚ) ≤ |50 - 1000 * 0 - 0|
        norm_num [abs_of_pos])
    (by rw [bearing_tol]; norm_num)
    (by rw [bearing_maxIter]; decide)
  have hT := (update_Tgl (elasticMaterial 1000) (coulombFriction (1 / 10)) Rat.sqrt
    (bearing (0 : ℚ) 20 (1 / 100)) (nodal 0 0 0) (nodal (-1) (1 / 200) 0)
    0 0).trans (rfl : (bearing (0 : ℚ) 20 (1 / 100)).Tgl = 1)
  have hL := (update_Tlb (elasticMaterial 1000) (coulombFriction (1 / 10)) Rat.sqrt
    (bearing (0 : ℚ) 20 (1 / 100)) (nodal 0 0 0) (nodal (-1) (1 / 200) 0)
    0 0).trans (rfl : (bearing (0 : ℚ) 20 (1 / 100)).Tlb = localToBasic (1 / 10))
  have hC := update_ubPlasticC_eq (elasticMaterial 1000) (coulombFriction (1 / 10)) Rat.sqrt
    (bearing (0 : ℚ) 20 (1 / 100)) (nodal 0 0 0) (nodal (-1) (1 / 200) 0) 0 0
  have hy := update_uy (elasticMaterial 1000) (coulombFriction (1 / 10)) Rat.sqrt
    (bearing (0 : ℚ) 20 (1 / 100)) (nodal 0 0 0) (nodal (-1) (1 / 200) 0) 0 0
  have ho := update_tol (elasticMaterial 1000) (coulombFriction (1 / 10)) Rat.sqrt
    (bearing (0 : ℚ) 20 (1 / 100)) (nodal 0 0 0) (nodal (-1) (1 / 200) 0) 0 0
  have hm := update_maxIter (elasticMaterial 1000) (coulombFriction (1 / 10)) Rat.sqrt
    (bearing (0 : ℚ) 20 (1 / 100)) (nodal 0 0 0) (nodal (-1) (1 / 200) 0) 0 0
  rw [bearing_ubPlasticC] at hC
  rw [bearing_uy] at hy
  rw [bearing_tol] at ho
  rw [bearing_maxIter] at hm
  obtain ⟨b0, _, _⟩ := tilt_update_one (1 / 10) _ (1 / 10) hT hL (-1) (1 / 200) 0
    (by rw [hC]; rfl) (by rw [hC]; rfl) a2 1000 50 (by rw [a1]; norm_num) (by norm_num)
    (by rw [hy]; norm_num) (by norm_num [abs_of_pos]) (by norm_num)
    (by rw [ho, a1]; norm_num) (by rw [hm]; decide)
  exact ⟨a0, b0, by rw [a1]; norm_num,
    repeated_update_without_rotation (elasticMaterial 1000) (coulombFriction (1 / 10))
      Rat.sqrt (fun _ _ _ _ _ => rfl) (fun _ _ _ _ _ => rfl) (bearing (0 : ℚ) 20 (1 / 100))
      (nodal 0 0 0) (nodal (-1) (1 / 200) 0) 0 0
      (by rw [localDisp_of_unit _ rfl]; rfl) (by rw [localDisp_of_unit _ rfl]; rfl)
      (b0.trans a0.symm)⟩

end Settled

/-! ## Commit, reset and uplift -/

section Frame

variable (mat : UniaxialMaterial α M) (frn : FrictionModel α F) (sqrt : α → α)

omit [LinearOrderedField α] in
/-- C15: `commitState` makes the committed plastic shear displacement equal to
the trial one and leaves the trial plastic displacement, the basic force, the
basic stiffness and the basic deformation as they were, for every state. -/
theorem commitState_copies_plastic_displacement (e : FlatSliderSimple3d α M F) :
    (commitState mat frn e).1.ubPlasticC = e.ubPlastic ∧
      (commitState mat frn e).1.ubPlastic = e.ubPlastic ∧
      (commitState mat frn e).1.qb = e.qb ∧
      (commitState mat frn e).1.kb = e.kb ∧
      (commitState mat frn e).1.ub = e.ub :=
  ⟨rfl, rfl, rfl, rfl, rfl⟩

/-- C16: from every state `revertToStart` leaves the basic deformation, the
basic force and both plastic shear displacements zero, the basic stiffness
equal to the initial basic stiffness `kbInit`, and the friction model and
each of the four materials in the state their own `revertToStart` gives. -/
theorem revertToStart_resets_history (e : FlatSliderSimple3d α M F) :
    (revertToStart mat frn e).1.ub = 0 ∧
      (revertToStart mat frn e).1.qb = 0 ∧
      (revertToStart mat frn e).1.ubPlastic = 0 ∧
      (revertToStart mat frn e).1.ubPlasticC = 0 ∧
      (revertToStart mat frn e).1.kb = e.kbInit ∧
      (revertToStart mat frn e).1.kbInit = e.kbInit ∧
      (revertToStart mat frn e).1.theFrnMdl = (frn.revertToStart e.theFrnMdl).1 ∧
      ∀ i : Fin 4,
        (revertToStart mat frn e).1.theMaterials i = (mat.revertToStart (e.theMaterials i)).1 :=
  ⟨rfl, rfl, rfl, rfl, rfl, rfl, rfl, fun _ => rfl⟩

end Frame

/-! ## The uplift branch and the axial material -/

section Uplift

variable (mat : UniaxialMaterial α M) (frn : FrictionModel α F) (sqrt : α → α)
  (e : FlatSliderSimple3d α M F) (dsp1 dsp2 vel1 vel2 : Fin 6 → α)

theorem upliftBranch_frame (s : FlatSliderSimple3d α M F) (ub0Old : α) :
    (upliftBranch mat s ub0Old).theFrnMdl = s.theFrnMdl ∧
      (upliftBranch mat s ub0Old).ubPlastic = s.ubPlastic ∧
      ∀ i : Fin 4, i ≠ 0 → (upliftBranch mat s ub0Old).theMaterials i = s.theMaterials i := by
  unfold upliftBranch
  dsimp only
  split
  · exact ⟨rfl, rfl, fun i hi => Function.update_noteq hi _ _⟩
  · exact ⟨rfl, rfl, fun i _ => rfl⟩

/-- The axial material after an update in contact, whatever the status: the
one trial strain set by step 1. -/
theorem update_axial_material_of_contact (h : axialForce mat e dsp1 dsp2 vel1 vel2 < 0) :
    (update mat frn sqrt e dsp1 dsp2 vel1 vel2).1.theMaterials 0 =
      mat.setTrialStrain (e.theMaterials 0) (basicDisp e dsp1 dsp2 0)
        (basicDisp e vel1 vel2 0) := by
  rw [update_of_contact mat frn sqrt e dsp1 dsp2 vel1 vel2 h]
  have hs : (shearSolve mat frn sqrt e dsp1 dsp2 vel1 vel2).e.theMaterials 0 =
      mat.setTrialStrain (e.theMaterials 0) (basicDisp e dsp1 dsp2 0)
        (basicDisp e vel1 vel2 0) := by
    unfold shearSolve
    rw [shearLoop_theMaterials]
    exact (axialTrial_fields mat e dsp1 dsp2 vel1 vel2).1
  split
  · exact hs
  · show (rotationalTrial mat _ _).theMaterials 0 = _
    rw [(rotationalTrial_fields mat _ _).1]
    exact hs

/-- C18: during an update that detects uplift (axial force `>= 0`) the
friction model is left as it was (no `setTrial`), the torsion and the two
bending materials are left as they were (no `setTrialStrain`), and the trial
plastic shear displacement is unchanged. -/
theorem update_uplift_skips_shear_and_rotation
    (h : 0 ≤ axialForce mat e dsp1 dsp2 vel1 vel2) :
    (update mat frn sqrt e dsp1 dsp2 vel1 vel2).1.theFrnMdl = e.theFrnMdl ∧
      (∀ i : Fin 4, i ≠ 0 →
        (update mat frn sqrt e dsp1 dsp2 vel1 vel2).1.theMaterials i = e.theMaterials i) ∧
      (update mat frn sqrt e dsp1 dsp2 vel1 vel2).1.ubPlastic = e.ubPlastic := by
  rw [update_of_uplift mat frn sqrt e dsp1 dsp2 vel1 vel2 h]
  obtain ⟨h1, h2, h3⟩ := upliftBranch_frame mat (axialTrial mat e dsp1 dsp2 vel1 vel2)
    (mat.getStrain (e.theMaterials 0))
  refine ⟨h1, fun i hi => ?_, h2⟩
  exact (h3 i hi).trans (Function.update_noteq hi _ _)

/-- C17 (amended): when `update` finds a strictly positive axial force it sets
the axial material, after the trial strain of this call, to the strain that
material reported when `update` was entered (`ub0Old`), with zero rate; for a
material whose `getStrain` returns the trial strain last set, the trial strain
of the axial material after the call is the one it had before the call. -/
theorem update_tension_restores_entry_strain
    (hget : ∀ m s r, mat.getStrain (mat.setTrialStrain m s r) = s)
    (h : 0 < axialForce mat e dsp1 dsp2 vel1 vel2) :
    (update mat frn sqrt e dsp1 dsp2 vel1 vel2).1.theMaterials 0 =
        mat.setTrialStrain (mat.setTrialStrain (e.theMaterials 0) (basicDisp e dsp1 dsp2 0)
          (basicDisp e vel1 vel2 0)) (mat.getStrain (e.theMaterials 0)) 0 ∧
      mat.getStrain ((update mat frn sqrt e dsp1 dsp2 vel1 vel2).1.theMaterials 0) =
        mat.getStrain (e.theMaterials 0) := by
  have hm : (update mat frn sqrt e dsp1 dsp2 vel1 vel2).1.theMaterials 0 =
      mat.setTrialStrain (mat.setTrialStrain (e.theMaterials 0) (basicDisp e dsp1 dsp2 0)
        (basicDisp e vel1 vel2 0)) (mat.getStrain (e.theMaterials 0)) 0 := by
    rw [update_of_uplift mat frn sqrt e dsp1 dsp2 vel1 vel2 (le_of_lt h)]
    show (upliftBranch mat _ _).theMaterials 0 = _
    rw [upliftBranch_material, if_pos (show (axialTrial mat e dsp1 dsp2 vel1 vel2).qb 0 > 0 from h),
      (axialTrial_fields mat e dsp1 dsp2 vel1 vel2).1]
  exact ⟨hm, by rw [hm, hget]⟩

end Uplift

/-! ### Concrete runs for the uplift claims -/

section UpliftRuns

/-- C18 (witness): the bearing stretched by `0.001` along its axis; the
friction model, which counts its `setTrial` calls, stays at zero. -/
theorem update_uplift_skips_shear_and_rotation_witness :
    0 ≤ axialForce (elasticMaterial 1000) (bearing (0 : ℕ) 20 (1 / 100000000))
        (nodal 0 0 0) (nodal (1 / 1000) 0 0) 0 0 ∧
      (update (elasticMaterial 1000) (constantFriction 50) Rat.sqrt
        (bearing (0 : ℕ) 20 (1 / 100000000)) (nodal 0 0 0) (nodal (1 / 1000) 0 0)
        0 0).1.theFrnMdl = 0 ∧
      (∀ i : Fin 4, i ≠ 0 →
        (update (elasticMaterial 1000) (constantFriction 50) Rat.sqrt
          (bearing (0 : ℕ) 20 (1 / 100000000)) (nodal 0 0 0) (nodal (1 / 1000) 0 0)
          0 0).1.theMaterials i = (0, 0)) ∧
      (update (elasticMaterial 1000) (constantFriction 50) Rat.sqrt
        (bearing (0 : ℕ) 20 (1 / 100000000)) (nodal 0 0 0) (nodal (1 / 1000) 0 0)
        0 0).1.ubPlastic = 0 :=
  have h : 0 ≤ axialForce (elasticMaterial 1000) (bearing (0 : ℕ) 20 (1 / 100000000))
      (nodal 0 0 0) (nodal (1 / 1000) 0 0) 0 0 := by
    rw [push_axialForce _ (1 / 10) rfl rfl]
    norm_num
  ⟨h, update_uplift_skips_shear_and_rotation (elasticMaterial 1000) (constantFriction 50)
    Rat.sqrt (bearing (0 : ℕ) 20 (1 / 100000000)) (nodal 0 0 0) (nodal (1 / 1000) 0 0) 0 0 h⟩

/-- C17 (witness): the fresh bearing, whose axial material holds the strain 0,
stretched by `0.001` along its axis: the axial material is back at strain 0
after the call. -/
theorem update_tension_restores_entry_strain_witness :
    0 < axialForce (elasticMaterial 1000) (bearing (0 : ℕ) 20 (1 / 100000000))
        (nodal 0 0 0) (nodal (1 / 1000) 0 0) 0 0 ∧
      (elasticMaterial (1000 : ℚ)).getStrain
        ((update (elasticMaterial 1000) (constantFriction 50) Rat.sqrt
          (bearing (0 : ℕ) 20 (1 / 100000000)) (nodal 0 0 0) (nodal (1 / 1000) 0 0)
          0 0).1.theMaterials 0) = 0 :=
  have h : 0 < axialForce (elasticMaterial 1000) (bearing (0 : ℕ) 20 (1 / 100000000))
      (nodal 0 0 0) (nodal (1 / 1000) 0 0) 0 0 := by
    rw [push_axialForce _ (1 / 10) rfl rfl]
    norm_num
  ⟨h, (update_tension_restores_entry_strain (elasticMaterial 1000) (constantFriction 50)
    Rat.sqrt (bearing (0 : ℕ) 20 (1 / 100000000)) (nodal 0 0 0) (nodal (1 / 1000) 0 0) 0 0
    (fun _ _ _ => rfl) h).2⟩

/-- C17 (counterexample): the fresh bearing (committed axial strain 0) gets a
trial update that shortens it by `0.001`, which succeeds, and then, with no
commit in between, a trial update that stretches it by `0.001`. The second
update finds the axial force `1 > 0`; afterwards the axial material holds the
trial strain `-0.001` of the first trial update, while its last committed
strain, the one `revertToLastCommit` brings back, is 0. -/
theorem tension_after_trial_restores_trial_strain :
    (update (elasticMaterial 1000) (coulombFriction (1 / 10)) Rat.sqrt
        (bearing (0 : ℚ) 20 (1 / 100)) (nodal 0 0 0) (nodal (-1 / 1000) 0 0) 0 0).2 = 0 ∧
      axialForce (elasticMaterial 1000)
        (update (elasticMaterial 1000) (coulombFriction (1 / 10)) Rat.sqrt
          (bearing (0 : ℚ) 20 (1 / 100)) (nodal 0 0 0) (nodal (-1 / 1000) 0 0) 0 0).1
        (nodal 0 0 0) (nodal (1 / 1000) 0 0) 0 0 = 1 ∧
      (elasticMaterial (1000 : ℚ)).getStrain
        ((update (elasticMaterial 1000) (coulombFriction (1 / 10)) Rat.sqrt
          (update (elasticMaterial 1000) (coulombFriction (1 / 10)) Rat.sqrt
            (bearing (0 : ℚ) 20 (1 / 100)) (nodal 0 0 0) (nodal (-1 / 1000) 0 0) 0 0).1
          (nodal 0 0 0) (nodal (1 / 1000) 0 0) 0 0).1.theMaterials 0) = -1 / 1000 ∧
      (elasticMaterial (1000 : ℚ)).getStrain
        ((elasticMaterial (1000 : ℚ)).revertToLastCommit
          ((update (elasticMaterial 1000) (coulombFriction (1 / 10)) Rat.sqrt
            (update (elasticMaterial 1000) (coulombFriction (1 / 10)) Rat.sqrt
              (bearing (0 : ℚ) 20 (1 / 100)) (nodal 0 0 0) (nodal (-1 / 1000) 0 0) 0 0).1
            (nodal 0 0 0) (nodal (1 / 1000) 0 0) 0 0).1.theMaterials 0)).1 = 0 := by
  obtain ⟨a0, -, -⟩ := tilt_update_one (1 / 10) (bearing (0 : ℚ) 20 (1 / 100)) (1 / 10)
    rfl rfl (-1 / 1000) 0 0 rfl rfl rfl 1 0
    (by rw [bearing_qb]; show -(1000 * (-1 / 1000 : ℚ)) - 0 * 0 = 1; norm_num)
    (by norm_num) (by rw [bearing_uy]; norm_num) (by norm_num) (by norm_num)
    (by rw [bearing_tol, bearing_qb]; show |(0 : ℚ) - 1 * 0 - 0| < 1 / 100; norm_num)
    (by rw [bearing_maxIter]; decide)
  have hT := (update_Tgl (elasticMaterial 1000) (coulombFriction (1 / 10)) Rat.sqrt
    (bearing (0 : ℚ) 20 (1 / 100)) (nodal 0 0 0) (nodal (-1 / 1000) 0 0)
    0 0).trans (rfl : (bearing (0 : ℚ) 20 (1 / 100)).Tgl = 1)
  have hL := (update_Tlb (elasticMaterial 1000) (coulombFriction (1 / 10)) Rat.sqrt
    (bearing (0 : ℚ) 20 (1 / 100)) (nodal 0 0 0) (nodal (-1 / 1000) 0 0)
    0 0).trans (rfl : (bearing (0 : ℚ) 20 (1 / 100)).Tlb = localToBasic (1 / 10))
  have hc : axialForce (elasticMaterial 1000) (bearing (0 : ℚ) 20 (1 / 100))
      (nodal 0 0 0) (nodal (-1 / 1000) 0 0) 0 0 < 0 := by
    rw [push_axialForce _ (1 / 10) rfl rfl]
    norm_num
  have hm : (update (elasticMaterial 1000) (coulombFriction (1 / 10)) Rat.sqrt
      (bearing (0 : ℚ) 20 (1 / 100)) (nodal 0 0 0) (nodal (-1 / 1000) 0 0)
      0 0).1.theMaterials 0 =
      (elasticMaterial 1000).setTrialStrain ((bearing (0 : ℚ) 20 (1 / 100)).theMaterials 0)
        (-1 / 1000) (basicDisp (bearing (0 : ℚ) 20 (1 / 100)) 0 0 0) := by
    rw [update_axial_material_of_contact (elasticMaterial 1000) (coulombFriction (1 / 10))
      Rat.sqrt (bearing (0 : ℚ) 20 (1 / 100)) (nodal 0 0 0) (nodal (-1 / 1000) 0 0) 0 0 hc,
      basicDisp_of_unit _ (1 / 10) rfl rfl]
    simp [nodal_apply]
  have hf : axialForce (elasticMaterial 1000)
      (update (elasticMaterial 1000) (coulombFriction (1 / 10)) Rat.sqrt
        (bearing (0 : ℚ) 20 (1 / 100)) (nodal 0 0 0) (nodal (-1 / 1000) 0 0) 0 0).1
      (nodal 0 0 0) (nodal (1 / 1000) 0 0) 0 0 = 1 := by
    rw [push_axialForce _ (1 / 10) hT hL]
    norm_num
  obtain ⟨t1, -⟩ := update_tension_restores_entry_strain (elasticMaterial 1000)
    (coulombFriction (1 / 10)) Rat.sqrt _ (nodal 0 0 0) (nodal (1 / 1000) 0 0) 0 0
    (fun _ _ _ => rfl) (by rw [hf]; norm_num)
  rw [t1, hm]
  exact ⟨a0, hf, rfl, rfl⟩

end UpliftRuns

/-! ## The pass the shear solve ends in -/

section LastPass

variable (frn : FrictionModel α F) (sqrt : α → α) (v : α) (maxIter : Int) (tol : α)

/-- The loop leaves the element that one pass makes of `lastPassEntry`. -/
theorem shearLoop_e_eq_pass (e : FlatSliderSimple3d α M F) (iter : Int) :
    (shearLoop frn sqrt v maxIter tol e iter).e =
      shearPass frn sqrt v (lastPassEntry frn sqrt v maxIter tol e iter) := by
  induction e, iter using shearLoop.induct frn sqrt v maxIter tol with
  | case1 e iter r h ih =>
    rw [shearLoop, dif_pos h, lastPassEntry, dif_pos h]
    exact ih
  | case2 e iter r h =>
    rw [shearLoop, dif_neg h, lastPassEntry, dif_neg h]

/-- What no pass assigns is the same at the top of the last pass as at the
top of the first. -/
theorem lastPassEntry_frame (e : FlatSliderSimple3d α M F) (iter : Int) :
    (lastPassEntry frn sqrt v maxIter tol e iter).ul = e.ul ∧
      (lastPassEntry frn sqrt v maxIter tol e iter).ub = e.ub ∧
      (lastPassEntry frn sqrt v maxIter tol e iter).uy = e.uy ∧
      (lastPassEntry frn sqrt v maxIter tol e iter).ubPlasticC = e.ubPlasticC ∧
      (lastPassEntry frn sqrt v maxIter tol e iter).qb 0 = e.qb 0 := by
  induction e, iter using shearLoop.induct frn sqrt v maxIter tol with
  | case1 e iter r h ih =>
    rw [lastPassEntry, dif_pos h]
    obtain ⟨i1, i2, i3, i4, i5⟩ := ih
    exact ⟨i1.trans (shearPass_ul frn sqrt v e), i2.trans (shearPass_ub frn sqrt v e),
      i3.trans (shearPass_uy frn sqrt v e), i4.trans (shearPass_ubPlasticC frn sqrt v e),
      i5.trans (shearPass_qb_zero frn sqrt v e)⟩
  | case2 e iter r h =>
    rw [lastPassEntry, dif_neg h]
    exact ⟨rfl, rfl, rfl, rfl, rfl⟩

theorem lastPassEntry_stop (e : FlatSliderSimple3d α M F) (iter : Int)
    (h : ¬ (tol ≤ sqrt (((shearPass frn sqrt v e).qb 1 - e.qb 1) ^ 2 +
        ((shearPass frn sqrt v e).qb 2 - e.qb 2) ^ 2) ∧ iter + 1 ≤ maxIter)) :
    lastPassEntry frn sqrt v maxIter tol e iter = e := by
  rw [lastPassEntry]
  exact dif_neg h

theorem lastPassEntry_step (e : FlatSliderSimple3d α M F) (iter : Int)
    (h : tol ≤ sqrt (((shearPass frn sqrt v e).qb 1 - e.qb 1) ^ 2 +
        ((shearPass frn sqrt v e).qb 2 - e.qb 2) ^ 2) ∧ iter + 1 ≤ maxIter) :
    lastPassEntry frn sqrt v maxIter tol e iter =
      lastPassEntry frn sqrt v maxIter tol (shearPass frn sqrt v e) (iter + 1) := by
  rw [lastPassEntry]
  exact dif_pos h

end LastPass

section LastPassOfUpdate

variable (mat : UniaxialMaterial α M) (frn : FrictionModel α F) (sqrt : α → α)
  (e : FlatSliderSimple3d α M F) (dsp1 dsp2 vel1 vel2 : Fin 6 → α)

/-- The shear solve of `update` leaves the element that one pass makes of
`solveEntry`. -/
theorem shearSolve_e_eq_pass :
    (shearSolve mat frn sqrt e dsp1 dsp2 vel1 vel2).e =
      shearPass frn sqrt (slidingSpeed sqrt e vel1 vel2)
        (solveEntry mat frn sqrt e dsp1 dsp2 vel1 vel2) :=
  shearLoop_e_eq_pass frn sqrt _ _ _ _ _

/-- The data the last pass works on, in terms of the input of `update`. -/
theorem solveEntry_frame :
    (solveEntry mat frn sqrt e dsp1 dsp2 vel1 vel2).ul = localDisp e dsp1 dsp2 ∧
      (solveEntry mat frn sqrt e dsp1 dsp2 vel1 vel2).ub = basicDisp e dsp1 dsp2 ∧
      (solveEntry mat frn sqrt e dsp1 dsp2 vel1 vel2).uy = e.uy ∧
      (solveEntry mat frn sqrt e dsp1 dsp2 vel1 vel2).ubPlasticC = e.ubPlasticC ∧
      (solveEntry mat frn sqrt e dsp1 dsp2 vel1 vel2).qb 0 =
        axialForce mat e dsp1 dsp2 vel1 vel2 :=
  lastPassEntry_frame frn sqrt _ _ _ _ _

/-- The shear forces after an update in contact are those of the last pass,
whatever the status. -/
theorem update_shear_of_contact (h : axialForce mat e dsp1 dsp2 vel1 vel2 < 0) :
    (update mat frn sqrt e dsp1 dsp2 vel1 vel2).1.qb 1 =
        (shearPass frn sqrt (slidingSpeed sqrt e vel1 vel2)
          (solveEntry mat frn sqrt e dsp1 dsp2 vel1 vel2)).qb 1 ∧
      (update mat frn sqrt e dsp1 dsp2 vel1 vel2).1.qb 2 =
        (shearPass frn sqrt (slidingSpeed sqrt e vel1 vel2)
          (solveEntry mat frn sqrt e dsp1 dsp2 vel1 vel2)).qb 2 := by
  rw [update_of_contact mat frn sqrt e dsp1 dsp2 vel1 vel2 h,
    ← shearSolve_e_eq_pass mat frn sqrt e dsp1 dsp2 vel1 vel2]
  split
  · exact ⟨rfl, rfl⟩
  · exact ⟨rotationalTrial_qb_one _ _ _, rotationalTrial_qb_two _ _ _⟩

/-- C12 (amended): for an update in contact whose last pass takes the elastic
branch (`Y <= 0`), the output shear forces are the trial shear force
`k0*(ub - ubPlasticC)`, `k0 = qYield/uy`, corrected by the normal force `N`
of that pass times the local rotations: `- N*ul(5)` on component 1 and
`+ N*ul(4)` on component 2; they equal the trial shear force when both
rotations are zero. -/
theorem update_elastic_shear_force (h : axialForce mat e dsp1 dsp2 vel1 vel2 < 0)
    (hel : passY frn sqrt (slidingSpeed sqrt e vel1 vel2)
      (solveEntry mat frn sqrt e dsp1 dsp2 vel1 vel2) ≤ 0) :
    (update mat frn sqrt e dsp1 dsp2 vel1 vel2).1.qb 1 =
        passYield frn (slidingSpeed sqrt e vel1 vel2)
            (solveEntry mat frn sqrt e dsp1 dsp2 vel1 vel2) / e.uy *
          (basicDisp e dsp1 dsp2 1 - e.ubPlasticC 0) -
        normalForce (solveEntry mat frn sqrt e dsp1 dsp2 vel1 vel2) * localDisp e dsp1 dsp2 5 ∧
      (update mat frn sqrt e dsp1 dsp2 vel1 vel2).1.qb 2 =
        passYield frn (slidingSpeed sqrt e vel1 vel2)
            (solveEntry mat frn sqrt e dsp1 dsp2 vel1 vel2) / e.uy *
          (basicDisp e dsp1 dsp2 2 - e.ubPlasticC 1) +
        normalForce (solveEntry mat frn sqrt e dsp1 dsp2 vel1 vel2) * localDisp e dsp1 dsp2 4 ∧
      (localDisp e dsp1 dsp2 4 = 0 → localDisp e dsp1 dsp2 5 = 0 →
        (update mat frn sqrt e dsp1 dsp2 vel1 vel2).1.qb 1 =
            passYield frn (slidingSpeed sqrt e vel1 vel2)
                (solveEntry mat frn sqrt e dsp1 dsp2 vel1 vel2) / e.uy *
              (basicDisp e dsp1 dsp2 1 - e.ubPlasticC 0) ∧
          (update mat frn sqrt e dsp1 dsp2 vel1 vel2).1.qb 2 =
            passYield frn (slidingSpeed sqrt e vel1 vel2)
                (solveEntry mat frn sqrt e dsp1 dsp2 vel1 vel2) / e.uy *
              (basicDisp e dsp1 dsp2 2 - e.ubPlasticC 1)) := by
  obtain ⟨q1, q2⟩ := update_shear_of_contact mat frn sqrt e dsp1 dsp2 vel1 vel2 h
  obtain ⟨f1, f2, f3, f4, -⟩ := solveEntry_frame mat frn sqrt e dsp1 dsp2 vel1 vel2
  rw [shearPass_of_elastic frn sqrt _ _ hel] at q1 q2
  rw [elasticStep_qb_one] at q1
  rw [elasticStep_qb_two] at q2
  simp only [passTrial, passK0, Matrix.cons_val_zero, Matrix.cons_val_one, Matrix.head_cons,
    f1, f2, f3, f4] at q1 q2
  refine ⟨q1, q2, fun h4 h5 => ?_⟩
  rw [q1, q2, h4, h5, mul_zero, sub_zero, add_zero]
  exact ⟨rfl, rfl⟩

end LastPassOfUpdate

/-! ### Concrete runs: the last pass of a tilted Coulomb slider -/

section EntryRuns

theorem entry_one (frn : FrictionModel ℚ F) (v : ℚ) (maxIter : Int) (tol : ℚ)
    (s : FlatSliderSimple3d ℚ M F) (q0 q1 : ℚ) (hs1 : s.qb 1 = q0) (hs2 : s.qb 2 = 0)
    (hp1 : (shearPass frn Rat.sqrt v s).qb 1 = q1) (hp2 : (shearPass frn Rat.sqrt v s).qb 2 = 0)
    (hconv : |q1 - q0| < tol) :
    lastPassEntry frn Rat.sqrt v maxIter tol s 0 = s := by
  rw [lastPassEntry_stop]
  rw [hp1, hp2, hs1, hs2, sqrt_axis]
  intro h
  exact absurd h.1 (not_le.mpr hconv)

theorem entry_two (frn : FrictionModel ℚ F) (v : ℚ) (maxIter : Int) (tol : ℚ)
    (s : FlatSliderSimple3d ℚ M F) (q0 q1 q2 : ℚ) (hs1 : s.qb 1 = q0) (hs2 : s.qb 2 = 0)
    (hp1 : (shearPass frn Rat.sqrt v s).qb 1 = q1) (hp2 : (shearPass frn Rat.sqrt v s).qb 2 = 0)
    (hmove : tol ≤ |q1 - q0|) (hm : 1 ≤ maxIter)
    (hpp1 : (shearPass frn Rat.sqrt v (shearPass frn Rat.sqrt v s)).qb 1 = q2)
    (hpp2 : (shearPass frn Rat.sqrt v (shearPass frn Rat.sqrt v s)).qb 2 = 0)
    (hconv : |q2 - q1| < tol) :
    lastPassEntry frn Rat.sqrt v maxIter tol s 0 = shearPass frn Rat.sqrt v s := by
  rw [lastPassEntry_step, lastPassEntry_stop]
  · rw [hpp1, hpp2, hp1, hp2, sqrt_axis]
    intro h
    exact absurd h.1 (not_le.mpr hconv)
  · rw [hp1, hp2, hs1, hs2, sqrt_axis]
    exact ⟨hmove, by omega⟩

theorem coulomb_yield (mu v : ℚ) (s : FlatSliderSimple3d ℚ M ℚ) :
    passYield (coulombFriction mu) v s =
      if normalForce s > 0 then mu * normalForce s else 0 :=
  rfl

variable (mu : ℚ) (E : FlatSliderSimple3d ℚ (ℚ × ℚ) ℚ) (L : ℚ) (hT : E.Tgl = 1)
  (hL : E.Tlb = localToBasic L) (a d r : ℚ) (hC0 : E.ubPlasticC 0 = 0)
  (hC1 : E.ubPlasticC 1 = 0) (hq2 : E.qb 2 = 0) (N1 t1 : ℚ)
  (hN1 : -(1000 * a) - E.qb 1 * r = N1) (hpos1 : 0 < N1) (ht1 : mu * N1 / E.uy * d = t1)
  (hel1 : |t1| ≤ mu * N1)
  (N2 t2 : ℚ) (hN2 : -(1000 * a) - (t1 - N1 * r) * r = N2) (hpos2 : 0 < N2)
  (ht2 : mu * N2 / E.uy * d = t2) (hel2 : |t2| ≤ mu * N2)

include hT hL hC0 hC1 hq2 hN1 hpos1 ht1 hel1 hN2 hpos2 ht2 hel2

/-- The state entering the last pass when the second pass converges. -/
theorem tilt_entry_two (hmove : E.tol ≤ |t1 - N1 * r - E.qb 1|)
    (hconv : |t2 - N2 * r - (t1 - N1 * r)| < E.tol) (hcap : 1 ≤ E.maxIter) :
    solveEntry (elasticMaterial 1000) (coulombFriction mu) Rat.sqrt E (nodal 0 0 r)
        (nodal a d 0) 0 0 =
      shearPass (coulombFriction mu) Rat.sqrt 0
        (axialTrial (elasticMaterial 1000) E (nodal 0 0 r) (nodal a d 0) 0 0) := by
  obtain ⟨p1, p2⟩ := tilt_first_pass mu E L hT hL a d r hC0 hC1 hq2 N1 t1 hN1 hpos1 ht1 hel1
  obtain ⟨pp1, pp2⟩ := tilt_second_pass mu E L hT hL a d r hC0 hC1 hq2 N1 t1 hN1 hpos1 ht1 hel1
    N2 t2 hN2 hpos2 ht2 hel2
  rw [solveEntry, push_slidingSpeed E L hT hL]
  exact entry_two (coulombFriction mu) 0 E.maxIter E.tol _ (E.qb 1) (t1 - N1 * r) (t2 - N2 * r)
    (axialTrial_qb_one _ _ _ _ _ _) ((axialTrial_qb_two _ _ _ _ _ _).trans hq2) p1 p2 hmove
    hcap pp1 pp2 hconv

omit hel2 in
/-- Normal force, yield force and yield criterion of the second pass. -/
theorem tilt_second_quantities :
    normalForce (shearPass (coulombFriction mu) Rat.sqrt 0
        (axialTrial (elasticMaterial 1000) E (nodal 0 0 r) (nodal a d 0) 0 0)) = N2 ∧
      passYield (coulombFriction mu) 0 (shearPass (coulombFriction mu) Rat.sqrt 0
        (axialTrial (elasticMaterial 1000) E (nodal 0 0 r) (nodal a d 0) 0 0)) = mu * N2 ∧
      passY (coulombFriction mu) Rat.sqrt 0 (shearPass (coulombFriction mu) Rat.sqrt 0
        (axialTrial (elasticMaterial 1000) E (nodal 0 0 r) (nodal a d 0) 0 0)) =
        |t2| - mu * N2 := by
  have hub := push_ub E L hT hL a d r
  have hul := push_ul E hT a d r
  have hax := push_axialForce E L hT hL a d r
  unfold axialForce at hax
  obtain ⟨p1, p2⟩ := tilt_first_pass mu E L hT hL a d r hC0 hC1 hq2 N1 t1 hN1 hpos1 ht1 hel1
  have hN : normalForce (shearPass (coulombFriction mu) Rat.sqrt 0
      (axialTrial (elasticMaterial 1000) E (nodal 0 0 r) (nodal a d 0) 0 0)) = N2 := by
    rw [normalForce, shearPass_qb_zero, p1, p2, shearPass_ul, hax, hul.1, hul.2, ← hN2]
    ring
  have hFy : passYield (coulombFriction mu) 0 (shearPass (coulombFriction mu) Rat.sqrt 0
      (axialTrial (elasticMaterial 1000) E (nodal 0 0 r) (nodal a d 0) 0 0)) = mu * N2 := by
    rw [coulomb_yield, hN, if_pos hpos2]
  refine ⟨hN, hFy, ?_⟩
  refine (axis_quantities (coulombFriction mu) 0 (mu * N2) t2 _ ?_ ?_ hFy ?_).2.2.2.1
  · rw [shearPass_ul]
    exact hul.1
  · rw [shearPass_ub, shearPass_ubPlasticC, hub]
    exact hC1.symm
  · rw [shearPass_uy, shearPass_ub, shearPass_ubPlasticC, hub]
    show mu * N2 / E.uy * (d - E.ubPlasticC 0) = t2
    rw [hC0, sub_zero]
    exact ht2


end EntryRuns

section ElasticRuns

/-- The last pass of the flat Coulomb slider pushed by `0.005`: entry state,
yield force and yield criterion. -/
theorem flat_last_pass :
    solveEntry (elasticMaterial 1000) (coulombFriction (1 / 10)) Rat.sqrt
        (bearing (0 : ℚ) 20 (1 / 100)) (nodal 0 0 0) (nodal (-1) (1 / 200) 0) 0 0 =
        shearPass (coulombFriction (1 / 10)) Rat.sqrt 0
          (axialTrial (elasticMaterial 1000) (bearing (0 : ℚ) 20 (1 / 100)) (nodal 0 0 0)
            (nodal (-1) (1 / 200) 0) 0 0) ∧
      passYield (coulombFriction (1 / 10)) 0 (shearPass (coulombFriction (1 / 10)) Rat.sqrt 0
        (axialTrial (elasticMaterial 1000) (bearing (0 : ℚ) 20 (1 / 100)) (nodal 0 0 0)
          (nodal (-1) (1 / 200) 0) 0 0)) = 1 / 10 * 1000 ∧
      passY (coulombFriction (1 / 10)) Rat.sqrt 0 (shearPass (coulombFriction (1 / 10))
        Rat.sqrt 0 (axialTrial (elasticMaterial 1000) (bearing (0 : ℚ) 20 (1 / 100)) (nodal 0 0 0)
          (nodal (-1) (1 / 200) 0) 0 0)) = |(50 : ℚ)| - 1 / 10 * 1000 :=
  ⟨tilt_entry_two (1 / 10) (bearing (0 : ℚ) 20 (1 / 100)) (1 / 10) rfl rfl (-1) (1 / 200) 0 rfl rfl rfl 1000 50
      (by rw [bearing_qb]; show -(1000 * (-1 : ℚ)) - 0 * 0 = 1000; norm_num)
      (by norm_num) (by rw [bearing_uy]; norm_num) (by norm_num [abs_of_pos])
      1000 50 (by norm_num) (by norm_num)
      (by rw [bearing_uy]; norm_num) (by norm_num [abs_of_pos])
      (by rw [bearing_tol, bearing_qb]; show (1 / 100 : ℚ) ≤ |50 - 1000 * 0 - 0|
          norm_num [abs_of_pos])
      (by rw [bearing_tol]; norm_num)
      (by rw [bearing_maxIter]; decide),
    (tilt_second_quantities (1 / 10) (bearing (0 : ℚ) 20 (1 / 100)) (1 / 10) rfl rfl (-1) (1 / 200) 0 rfl rfl rfl
      1000 50
      (by rw [bearing_qb]; show -(1000 * (-1 : ℚ)) - 0 * 0 = 1000; norm_num)
      (by norm_num) (by rw [bearing_uy]; norm_num) (by norm_num [abs_of_pos])
      1000 50 (by norm_num) (by norm_num) (by rw [bearing_uy]; norm_num)).2⟩

/-- The last pass of the Coulomb slider tilted by `0.001` and pushed by
`0.005`: entry state, yield force and yield criterion. -/
theorem tilted_last_pass :
    solveEntry (elasticMaterial 1000) (coulombFriction (1 / 10)) Rat.sqrt
        (bearing (0 : ℚ) 20 (1 / 100)) (nodal 0 0 (1 / 1000)) (nodal (-1) (1 / 200) 0) 0 0 =
        shearPass (coulombFriction (1 / 10)) Rat.sqrt 0
          (axialTrial (elasticMaterial 1000) (bearing (0 : ℚ) 20 (1 / 100)) (nodal 0 0 (1 / 1000))
            (nodal (-1) (1 / 200) 0) 0 0) ∧
      passYield (coulombFriction (1 / 10)) 0 (shearPass (coulombFriction (1 / 10)) Rat.sqrt 0
        (axialTrial (elasticMaterial 1000) (bearing (0 : ℚ) 20 (1 / 100)) (nodal 0 0 (1 / 1000))
          (nodal (-1) (1 / 200) 0) 0 0)) = 1 / 10 * (999951 / 1000) ∧
      passY (coulombFriction (1 / 10)) Rat.sqrt 0 (shearPass (coulombFriction (1 / 10))
        Rat.sqrt 0 (axialTrial (elasticMaterial 1000) (bearing (0 : ℚ) 20 (1 / 100)) (nodal 0 0 (1 / 1000))
          (nodal (-1) (1 / 200) 0) 0 0)) = |(999951 / 20000 : ℚ)| - 1 / 10 * (999951 / 1000) :=
  ⟨tilt_entry_two (1 / 10) (bearing (0 : ℚ) 20 (1 / 100)) (1 / 10) rfl rfl (-1) (1 / 200) (1 / 1000) rfl rfl rfl
      1000 50
      (by rw [bearing_qb]; show -(1000 * (-1 : ℚ)) - 0 * (1 / 1000) = 1000; norm_num)
      (by norm_num) (by rw [bearing_uy]; norm_num) (by norm_num [abs_of_pos])
      (999951 / 1000) (999951 / 20000) (by norm_num) (by norm_num)
      (by rw [bearing_uy]; norm_num) (by norm_num [abs_of_pos])
      (by rw [bearing_tol, bearing_qb]; show (1 / 100 : ℚ) ≤ |50 - 1000 * (1 / 1000) - 0|
          norm_num [abs_of_pos])
      (by rw [bearing_tol]; norm_num [abs_of_neg])
      (by rw [bearing_maxIter]; decide),
    (tilt_second_quantities (1 / 10) (bearing (0 : ℚ) 20 (1 / 100)) (1 / 10) rfl rfl (-1) (1 / 200) (1 / 1000)
      rfl rfl rfl 1000 50
      (by rw [bearing_qb]; show -(1000 * (-1 : ℚ)) - 0 * (1 / 1000) = 1000; norm_num)
      (by norm_num) (by rw [bearing_uy]; norm_num) (by norm_num [abs_of_pos])
      (999951 / 1000) (999951 / 20000) (by norm_num) (by norm_num)
      (by rw [bearing_uy]; norm_num)).2⟩

/-- C12 (witness): Coulomb friction `0.1`, no rotation, axial shortening 1,
shear deformation `0.005`: the update is in contact, its last pass is
elastic, and the output shear forces are the trial shear force. -/
theorem update_elastic_shear_force_witness :
    axialForce (elasticMaterial 1000) (bearing (0 : ℚ) 20 (1 / 100)) (nodal 0 0 0) (nodal (-1) (1 / 200) 0) 0 0 < 0 ∧
      passY (coulombFriction (1 / 10)) Rat.sqrt (slidingSpeed Rat.sqrt (bearing (0 : ℚ) 20 (1 / 100)) 0 0)
        (solveEntry (elasticMaterial 1000) (coulombFriction (1 / 10)) Rat.sqrt
          (bearing (0 : ℚ) 20 (1 / 100)) (nodal 0 0 0) (nodal (-1) (1 / 200) 0) 0 0) ≤ 0 ∧
      (update (elasticMaterial 1000) (coulombFriction (1 / 10)) Rat.sqrt
        (bearing (0 : ℚ) 20 (1 / 100)) (nodal 0 0 0) (nodal (-1) (1 / 200) 0) 0 0).1.qb 1 =
        passYield (coulombFriction (1 / 10)) (slidingSpeed Rat.sqrt (bearing (0 : ℚ) 20 (1 / 100)) 0 0)
        (solveEntry (elasticMaterial 1000) (coulombFriction (1 / 10)) Rat.sqrt
          (bearing (0 : ℚ) 20 (1 / 100)) (nodal 0 0 0) (nodal (-1) (1 / 200) 0) 0 0) / (bearing (0 : ℚ) 20 (1 / 100)).uy *
        (basicDisp (bearing (0 : ℚ) 20 (1 / 100)) (nodal 0 0 0) (nodal (-1) (1 / 200) 0) 1 -
          (bearing (0 : ℚ) 20 (1 / 100)).ubPlasticC 0) ∧
      (update (elasticMaterial 1000) (coulombFriction (1 / 10)) Rat.sqrt
        (bearing (0 : ℚ) 20 (1 / 100)) (nodal 0 0 0) (nodal (-1) (1 / 200) 0) 0 0).1.qb 2 =
        passYield (coulombFriction (1 / 10)) (slidingSpeed Rat.sqrt (bearing (0 : ℚ) 20 (1 / 100)) 0 0)
        (solveEntry (elasticMaterial 1000) (coulombFriction (1 / 10)) Rat.sqrt
          (bearing (0 : ℚ) 20 (1 / 100)) (nodal 0 0 0) (nodal (-1) (1 / 200) 0) 0 0) / (bearing (0 : ℚ) 20 (1 / 100)).uy *
        (basicDisp (bearing (0 : ℚ) 20 (1 / 100)) (nodal 0 0 0) (nodal (-1) (1 / 200) 0) 2 -
          (bearing (0 : ℚ) 20 (1 / 100)).ubPlasticC 1) :=
  have h : axialForce (elasticMaterial 1000) (bearing (0 : ℚ) 20 (1 / 100)) (nodal 0 0 0)
      (nodal (-1) (1 / 200) 0) 0 0 < 0 := by
    rw [push_axialForce _ (1 / 10) rfl rfl]
    norm_num
  have hel : passY (coulombFriction (1 / 10)) Rat.sqrt (slidingSpeed Rat.sqrt (bearing (0 : ℚ) 20 (1 / 100)) 0 0)
      (solveEntry (elasticMaterial 1000) (coulombFriction (1 / 10)) Rat.sqrt
          (bearing (0 : ℚ) 20 (1 / 100)) (nodal 0 0 0) (nodal (-1) (1 / 200) 0) 0 0) ≤ 0 := by
    rw [push_slidingSpeed _ (1 / 10) rfl rfl, flat_last_pass.1, flat_last_pass.2.2]
    norm_num [abs_of_pos]
  ⟨h, hel, (update_elastic_shear_force (elasticMaterial 1000) (coulombFriction (1 / 10))
    Rat.sqrt (bearing (0 : ℚ) 20 (1 / 100)) (nodal 0 0 0) (nodal (-1) (1 / 200) 0) 0 0 h hel).2.2
    (by rw [localDisp_of_unit _ rfl]; rfl) (by rw [localDisp_of_unit _ rfl]; rfl)⟩

/-- C12 (counterexample): Coulomb friction `0.1`, node 1 rotated by `0.001`
about z, axial shortening 1, shear deformation `0.005`, tolerance `0.01`. The
update is in contact and succeeds, its last pass is elastic (`Y <= 0`), the
trial shear force `k0*(ub(1) - ubPlasticC(0))` of that pass is `49.99755`, and
the output shear force `qb(1)` is `48.997599`. -/
theorem elastic_update_force_differs_from_trial_force :
    axialForce (elasticMaterial 1000) (bearing (0 : ℚ) 20 (1 / 100)) (nodal 0 0 (1 / 1000))
        (nodal (-1) (1 / 200) 0) 0 0 < 0 ∧
      (update (elasticMaterial 1000) (coulombFriction (1 / 10)) Rat.sqrt
        (bearing (0 : ℚ) 20 (1 / 100)) (nodal 0 0 (1 / 1000)) (nodal (-1) (1 / 200) 0) 0 0).2 = 0 ∧
      passY (coulombFriction (1 / 10)) Rat.sqrt (slidingSpeed Rat.sqrt (bearing (0 : ℚ) 20 (1 / 100)) 0 0)
        (solveEntry (elasticMaterial 1000) (coulombFriction (1 / 10)) Rat.sqrt
          (bearing (0 : ℚ) 20 (1 / 100)) (nodal 0 0 (1 / 1000)) (nodal (-1) (1 / 200) 0) 0 0) ≤ 0 ∧
      passYield (coulombFriction (1 / 10)) (slidingSpeed Rat.sqrt (bearing (0 : ℚ) 20 (1 / 100)) 0 0)
        (solveEntry (elasticMaterial 1000) (coulombFriction (1 / 10)) Rat.sqrt
          (bearing (0 : ℚ) 20 (1 / 100)) (nodal 0 0 (1 / 1000)) (nodal (-1) (1 / 200) 0) 0 0) / (bearing (0 : ℚ) 20 (1 / 100)).uy *
        (basicDisp (bearing (0 : ℚ) 20 (1 / 100)) (nodal 0 0 (1 / 1000)) (nodal (-1) (1 / 200) 0) 1 -
          (bearing (0 : ℚ) 20 (1 / 100)).ubPlasticC 0) = 999951 / 20000 ∧
      (update (elasticMaterial 1000) (coulombFriction (1 / 10)) Rat.sqrt
        (bearing (0 : ℚ) 20 (1 / 100)) (nodal 0 0 (1 / 1000)) (nodal (-1) (1 / 200) 0) 0 0).1.qb 1 = 48997599 / 1000000 := by
  obtain ⟨a0, a1, -⟩ := tilted_first_update
  refine ⟨?_, a0, ?_, ?_, ?_⟩
  · rw [push_axialForce _ (1 / 10) rfl rfl]
    norm_num
  · rw [push_slidingSpeed _ (1 / 10) rfl rfl, tilted_last_pass.1, tilted_last_pass.2.2]
    norm_num [abs_of_pos]
  · rw [push_slidingSpeed _ (1 / 10) rfl rfl, tilted_last_pass.1, tilted_last_pass.2.1,
      basicDisp_of_unit _ (1 / 10) rfl rfl, bearing_uy, bearing_ubPlasticC]
    simp [nodal_apply]
    norm_num
  · rw [a1]
    norm_num

end ElasticRuns

/-! ## The plastic branch: norm of the output shear force -/

section PlasticNorm

variable (mat : UniaxialMaterial α M) (frn : FrictionModel α F) (sqrt : α → α)
  (e : FlatSliderSimple3d α M F) (dsp1 dsp2 vel1 vel2 : Fin 6 → α)

/-- C11 (amended): for an update in contact with zero local rotations `ul(4)`
and `ul(5)` whose last pass takes the plastic branch (trial shear-force norm
`a` greater than the yield force `Fy >= 0`), the Euclidean norm of the output
shear-force pair equals `Fy`; `sqrt` is taken exact on squares and on the
squared norm of the trial shear force. -/
theorem update_plastic_force_norm (h : axialForce mat e dsp1 dsp2 vel1 vel2 < 0)
    (h4 : localDisp e dsp1 dsp2 4 = 0) (h5 : localDisp e dsp1 dsp2 5 = 0)
    (hsq : ∀ x, sqrt (x * x) = |x|) (Fy a : α)
    (hFy : Fy = passYield frn (slidingSpeed sqrt e vel1 vel2)
      (solveEntry mat frn sqrt e dsp1 dsp2 vel1 vel2))
    (ha : a = passTrialNorm frn sqrt (slidingSpeed sqrt e vel1 vel2)
      (solveEntry mat frn sqrt e dsp1 dsp2 vel1 vel2))
    (hex : a * a = ∑ i, passTrial frn (slidingSpeed sqrt e vel1 vel2)
        (solveEntry mat frn sqrt e dsp1 dsp2 vel1 vel2) i *
      passTrial frn (slidingSpeed sqrt e vel1 vel2)
        (solveEntry mat frn sqrt e dsp1 dsp2 vel1 vel2) i)
    (h0 : 0 ≤ Fy) (hpl : Fy < a) :
    Norm sqrt ![(update mat frn sqrt e dsp1 dsp2 vel1 vel2).1.qb 1,
      (update mat frn sqrt e dsp1 dsp2 vel1 vel2).1.qb 2] = Fy := by
  obtain ⟨q1, q2⟩ := update_shear_of_contact mat frn sqrt e dsp1 dsp2 vel1 vel2 h
  obtain ⟨f1, -, -, -, -⟩ := solveEntry_frame mat frn sqrt e dsp1 dsp2 vel1 vel2
  have hY : 0 < passY frn sqrt (slidingSpeed sqrt e vel1 vel2)
      (solveEntry mat frn sqrt e dsp1 dsp2 vel1 vel2) := by
    rw [passY, ← ha, ← hFy]
    exact sub_pos.mpr hpl
  rw [shearPass_of_plastic frn sqrt _ _ hY] at q1 q2
  rw [plasticStep_qb_one, f1, h5, mul_zero, sub_zero, ← hFy, ← ha] at q1
  rw [plasticStep_qb_two, f1, h4, mul_zero, add_zero, ← hFy, ← ha] at q2
  have hane : a ≠ 0 := ne_of_gt (lt_of_le_of_lt h0 hpl)
  rw [Fin.sum_univ_two] at hex
  rw [Norm, Fin.sum_univ_two]
  simp only [Matrix.cons_val_zero, Matrix.cons_val_one, Matrix.head_cons]
  rw [q1, q2]
  have hsum : Fy * passTrial frn (slidingSpeed sqrt e vel1 vel2)
        (solveEntry mat frn sqrt e dsp1 dsp2 vel1 vel2) 0 / a *
      (Fy * passTrial frn (slidingSpeed sqrt e vel1 vel2)
        (solveEntry mat frn sqrt e dsp1 dsp2 vel1 vel2) 0 / a) +
      Fy * passTrial frn (slidingSpeed sqrt e vel1 vel2)
        (solveEntry mat frn sqrt e dsp1 dsp2 vel1 vel2) 1 / a *
      (Fy * passTrial frn (slidingSpeed sqrt e vel1 vel2)
        (solveEntry mat frn sqrt e dsp1 dsp2 vel1 vel2) 1 / a) = Fy * Fy := by
    field_simp
    rw [hex]
    ring
  rw [hsum, hsq, abs_of_nonneg h0]

end PlasticNorm

/-! ### Concrete runs: a sliding bearing with a rotated first node -/

section SlideRuns

variable (frn : FrictionModel ℚ F) (Fy : ℚ) (hFy : ∀ f, frn.getFrictionForce f = Fy)
  (E : FlatSliderSimple3d ℚ (ℚ × ℚ) F) (L : ℚ) (hT : E.Tgl = 1)
  (hL : E.Tlb = localToBasic L) (a d r : ℚ) (hC0 : E.ubPlasticC 0 = 0)
  (hC1 : E.ubPlasticC 1 = 0) (hq2 : E.qb 2 = 0) (t : ℚ) (ht : Fy / E.uy * d = t)
  (hpl : Fy < |t|) (N1 : ℚ) (hN1 : -(1000 * a) - E.qb 1 * r = N1)

include hFy hT hL hC0 hC1 hq2 ht hpl hN1

/-- First pass of a sliding update with node 1 rotated by `r` about z. -/
theorem slide_first_pass :
    (shearPass frn Rat.sqrt 0
        (axialTrial (elasticMaterial 1000) E (nodal 0 0 r) (nodal a d 0) 0 0)).qb 1 =
        Fy * t / |t| - N1 * r ∧
      (shearPass frn Rat.sqrt 0
        (axialTrial (elasticMaterial 1000) E (nodal 0 0 r) (nodal a d 0) 0 0)).qb 2 = 0 := by
  have hub := push_ub E L hT hL a d r
  have hul := push_ul E hT a d r
  have hax := push_axialForce E L hT hL a d r
  unfold axialForce at hax
  have hN : normalForce (axialTrial (elasticMaterial 1000) E (nodal 0 0 r) (nodal a d 0) 0 0)
      = N1 := by
    rw [normalForce, hax, axialTrial_qb_one, axialTrial_qb_two, hul.1, hul.2, hq2, ← hN1]
    ring
  obtain ⟨h1, h2, -⟩ := axis_pass_plastic frn 0 Fy t _ hul.1 (by rw [hub]; exact hC1.symm)
    (hFy _) (by
      rw [hub]
      show Fy / E.uy * (d - E.ubPlasticC 0) = t
      rw [hC0, sub_zero]
      exact ht) hpl
  rw [hN, hul.2] at h1
  exact ⟨h1, h2⟩

variable (N2 : ℚ) (hN2 : -(1000 * a) - (Fy * t / |t| - N1 * r) * r = N2)

include hN2

/-- Second pass of that update: shear forces, and the yield force, trial
shear force and its norm the pass works with. -/
theorem slide_second_pass :
    (shearPass frn Rat.sqrt 0 (shearPass frn Rat.sqrt 0
        (axialTrial (elasticMaterial 1000) E (nodal 0 0 r) (nodal a d 0) 0 0))).qb 1 =
        Fy * t / |t| - N2 * r ∧
      (shearPass frn Rat.sqrt 0 (shearPass frn Rat.sqrt 0
        (axialTrial (elasticMaterial 1000) E (nodal 0 0 r) (nodal a d 0) 0 0))).qb 2 = 0 ∧
      passTrial frn 0 (shearPass frn Rat.sqrt 0
        (axialTrial (elasticMaterial 1000) E (nodal 0 0 r) (nodal a d 0) 0 0)) 0 = t ∧
      passTrial frn 0 (shearPass frn Rat.sqrt 0
        (axialTrial (elasticMaterial 1000) E (nodal 0 0 r) (nodal a d 0) 0 0)) 1 = 0 ∧
      passTrialNorm frn Rat.sqrt 0 (shearPass frn Rat.sqrt 0
        (axialTrial (elasticMaterial 1000) E (nodal 0 0 r) (nodal a d 0) 0 0)) = |t| := by
  have hub := push_ub E L hT hL a d r
  have hul := push_ul E hT a d r
  have hax := push_axialForce E L hT hL a d r
  unfold axialForce at hax
  obtain ⟨p1, p2⟩ := slide_first_pass frn Fy hFy E L hT hL a d r hC0 hC1 hq2 t ht hpl N1 hN1
  have hN : normalForce (shearPass frn Rat.sqrt 0
      (axialTrial (elasticMaterial 1000) E (nodal 0 0 r) (nodal a d 0) 0 0)) = N2 := by
    rw [normalForce, shearPass_qb_zero, p1, p2, shearPass_ul, hax, hul.1, hul.2, ← hN2]
    ring
  have h4 : (shearPass frn Rat.sqrt 0
      (axialTrial (elasticMaterial 1000) E (nodal 0 0 r) (nodal a d 0) 0 0)).ul 4 = 0 := by
    rw [shearPass_ul]
    exact hul.1
  have hz : (shearPass frn Rat.sqrt 0
      (axialTrial (elasticMaterial 1000) E (nodal 0 0 r) (nodal a d 0) 0 0)).ub 2 =
      (shearPass frn Rat.sqrt 0
      (axialTrial (elasticMaterial 1000) E (nodal 0 0 r) (nodal a d 0) 0 0)).ubPlasticC 1 := by
    rw [shearPass_ub, shearPass_ubPlasticC, hub]
    exact hC1.symm
  have ht2 : Fy / (shearPass frn Rat.sqrt 0
      (axialTrial (elasticMaterial 1000) E (nodal 0 0 r) (nodal a d 0) 0 0)).uy *
      ((shearPass frn Rat.sqrt 0
      (axialTrial (elasticMaterial 1000) E (nodal 0 0 r) (nodal a d 0) 0 0)).ub 1 -
      (shearPass frn Rat.sqrt 0
      (axialTrial (elasticMaterial 1000) E (nodal 0 0 r) (nodal a d 0) 0 0)).ubPlasticC 0)
      = t := by
    rw [shearPass_uy, shearPass_ub, shearPass_ubPlasticC, hub]
    show Fy / E.uy * (d - E.ubPlasticC 0) = t
    rw [hC0, sub_zero]
    exact ht
  obtain ⟨h1, h2, -⟩ := axis_pass_plastic frn 0 Fy t _ h4 hz (hFy _) ht2 hpl
  obtain ⟨g0, g1, gn, -, -⟩ := axis_quantities frn 0 Fy t _ h4 hz (hFy _) ht2
  rw [hN, shearPass_ul, hul.2] at h1
  exact ⟨h1, h2, g0, g1, gn⟩

/-- The update when the second pass converges and the cap exceeds two, and
the state its last pass starts from. -/
theorem slide_update_two (ha : a < 0) (hmove : E.tol ≤ |Fy * t / |t| - N1 * r - E.qb 1|)
    (hconv : |Fy * t / |t| - N2 * r - (Fy * t / |t| - N1 * r)| < E.tol)
    (hcap : 2 < E.maxIter) :
    (update (elasticMaterial 1000) frn Rat.sqrt E (nodal 0 0 r) (nodal a d 0) 0 0).2 = 0 ∧
      (update (elasticMaterial 1000) frn Rat.sqrt E (nodal 0 0 r) (nodal a d 0) 0 0).1.qb 1 =
        Fy * t / |t| - N2 * r ∧
      (update (elasticMaterial 1000) frn Rat.sqrt E (nodal 0 0 r) (nodal a d 0) 0 0).1.qb 2 = 0 ∧
      solveEntry (elasticMaterial 1000) frn Rat.sqrt E (nodal 0 0 r) (nodal a d 0) 0 0 =
        shearPass frn Rat.sqrt 0
          (axialTrial (elasticMaterial 1000) E (nodal 0 0 r) (nodal a d 0) 0 0) := by
  obtain ⟨p1, p2⟩ := slide_first_pass frn Fy hFy E L hT hL a d r hC0 hC1 hq2 t ht hpl N1 hN1
  obtain ⟨pp1, pp2, -⟩ := slide_second_pass frn Fy hFy E L hT hL a d r hC0 hC1 hq2 t ht hpl
    N1 hN1 N2 hN2
  have hent : solveEntry (elasticMaterial 1000) frn Rat.sqrt E (nodal 0 0 r) (nodal a d 0)
      0 0 = shearPass frn Rat.sqrt 0
        (axialTrial (elasticMaterial 1000) E (nodal 0 0 r) (nodal a d 0) 0 0) := by
    rw [solveEntry, push_slidingSpeed E L hT hL]
    exact entry_two frn 0 E.maxIter E.tol _ (E.qb 1) (Fy * t / |t| - N1 * r)
      (Fy * t / |t| - N2 * r) (axialTrial_qb_one _ _ _ _ _ _)
      ((axialTrial_qb_two _ _ _ _ _ _).trans hq2) p1 p2 hmove (by omega) pp1 pp2 hconv
  rw [update_of_contact _ _ _ _ _ _ _ _ (by rw [push_axialForce E L hT hL]; linarith),
    shearSolve, push_slidingSpeed E L hT hL,
    loop_two frn 0 E.maxIter E.tol _ (E.qb 1) (Fy * t / |t| - N1 * r) (Fy * t / |t| - N2 * r)
      (axialTrial_qb_one _ _ _ _ _ _) ((axialTrial_qb_two _ _ _ _ _ _).trans hq2) p1 p2 hmove
      (by omega) pp1 pp2 hconv]
  dsimp only
  rw [if_neg (not_le.mpr hcap), rotationalTrial_qb_one, rotationalTrial_qb_two, pp1, pp2]
  exact ⟨rfl, rfl, rfl, hent⟩

end SlideRuns

section PlasticRuns

theorem Norm_pair {β : Type} [LinearOrderedField β] (sqrt : β → β) (p q : β) :
    Norm sqrt ![p, q] = sqrt (p * p + q * q) := by
  rw [Norm, Fin.sum_univ_two]
  rfl

theorem constant_yield (Fy v : ℚ) (s : FlatSliderSimple3d ℚ M ℕ) :
    passYield (constantFriction Fy) v s = Fy :=
  rfl

/-- The bearing pushed by `0.02` along y in compression, tolerance `0.01`: two
passes, success, and the quantities of the last pass. -/
theorem slid_flat_run :
    (update (elasticMaterial 1000) (constantFriction 50) Rat.sqrt
        (bearing (0 : ℕ) 20 (1 / 100)) (nodal 0 0 0) (nodal (-1 / 1000) (1 / 50) 0) 0 0).2 = 0 ∧
      (update (elasticMaterial 1000) (constantFriction 50) Rat.sqrt
        (bearing (0 : ℕ) 20 (1 / 100)) (nodal 0 0 0) (nodal (-1 / 1000) (1 / 50) 0) 0 0).1.qb 1 =
        50 * 100 / |(100 : ℚ)| - 1 * 0 ∧
      (update (elasticMaterial 1000) (constantFriction 50) Rat.sqrt
        (bearing (0 : ℕ) 20 (1 / 100)) (nodal 0 0 0) (nodal (-1 / 1000) (1 / 50) 0) 0 0).1.qb 2 = 0 ∧
      (solveEntry (elasticMaterial 1000) (constantFriction 50) Rat.sqrt
          (bearing (0 : ℕ) 20 (1 / 100)) (nodal 0 0 0) (nodal (-1 / 1000) (1 / 50) 0) 0 0) =
        (shearPass (constantFriction 50) Rat.sqrt 0
          (axialTrial (elasticMaterial 1000) (bearing (0 : ℕ) 20 (1 / 100)) (nodal 0 0 0)
            (nodal (-1 / 1000) (1 / 50) 0) 0 0)) ∧
      passTrial (constantFriction 50) 0
        (shearPass (constantFriction 50) Rat.sqrt 0
          (axialTrial (elasticMaterial 1000) (bearing (0 : ℕ) 20 (1 / 100)) (nodal 0 0 0)
            (nodal (-1 / 1000) (1 / 50) 0) 0 0)) 0 = 100 ∧
      passTrial (constantFriction 50) 0
        (shearPass (constantFriction 50) Rat.sqrt 0
          (axialTrial (elasticMaterial 1000) (bearing (0 : ℕ) 20 (1 / 100)) (nodal 0 0 0)
            (nodal (-1 / 1000) (1 / 50) 0) 0 0)) 1 = 0 ∧
      passTrialNorm (constantFriction 50) Rat.sqrt 0
        (shearPass (constantFriction 50) Rat.sqrt 0
          (axialTrial (elasticMaterial 1000) (bearing (0 : ℕ) 20 (1 / 100)) (nodal 0 0 0)
            (nodal (-1 / 1000) (1 / 50) 0) 0 0)) = |(100 : ℚ)| := by
  obtain ⟨u0, u1, u2, u3⟩ := slide_update_two (constantFriction 50) 50 yield_fifty (bearing (0 : ℕ) 20 (1 / 100)) (1 / 10) rfl rfl
    (-1 / 1000) (1 / 50) 0 rfl rfl rfl 100 (by rw [bearing_uy]; norm_num)
    (by norm_num [abs_of_pos]) 1
    (by rw [bearing_qb]; show -(1000 * (-1 / 1000 : ℚ)) - 0 * 0 = 1; norm_num)
    1 (by norm_num [abs_of_pos])
    (by norm_num)
    (by rw [bearing_tol, bearing_qb]; show (1 / 100 : ℚ) ≤ |50 * 100 / |100| - 1 * 0 - 0|
        norm_num [abs_of_pos])
    (by rw [bearing_tol]; norm_num [abs_of_pos, abs_of_neg])
    (by rw [bearing_maxIter]; decide)
  obtain ⟨-, -, g0, g1, gn⟩ := slide_second_pass (constantFriction 50) 50 yield_fifty (bearing (0 : ℕ) 20 (1 / 100)) (1 / 10) rfl rfl
    (-1 / 1000) (1 / 50) 0 rfl rfl rfl 100 (by rw [bearing_uy]; norm_num)
    (by norm_num [abs_of_pos]) 1
    (by rw [bearing_qb]; show -(1000 * (-1 / 1000 : ℚ)) - 0 * 0 = 1; norm_num)
    1 (by norm_num [abs_of_pos])
  exact ⟨u0, u1, u2, u3, g0, g1, gn⟩

/-- The same push with node 1 rotated by `0.001` about z. -/
theorem slid_tilted_run :
    (update (elasticMaterial 1000) (constantFriction 50) Rat.sqrt
        (bearing (0 : ℕ) 20 (1 / 100)) (nodal 0 0 (1 / 1000)) (nodal (-1 / 1000) (1 / 50) 0) 0 0).2 = 0 ∧
      (update (elasticMaterial 1000) (constantFriction 50) Rat.sqrt
        (bearing (0 : ℕ) 20 (1 / 100)) (nodal 0 0 (1 / 1000)) (nodal (-1 / 1000) (1 / 50) 0) 0 0).1.qb 1 =
        50 * 100 / |(100 : ℚ)| - (950001 / 1000000) * (1 / 1000) ∧
      (update (elasticMaterial 1000) (constantFriction 50) Rat.sqrt
        (bearing (0 : ℕ) 20 (1 / 100)) (nodal 0 0 (1 / 1000)) (nodal (-1 / 1000) (1 / 50) 0) 0 0).1.qb 2 = 0 ∧
      (solveEntry (elasticMaterial 1000) (constantFriction 50) Rat.sqrt
          (bearing (0 : ℕ) 20 (1 / 100)) (nodal 0 0 (1 / 1000)) (nodal (-1 / 1000) (1 / 50) 0) 0 0) =
        (shearPass (constantFriction 50) Rat.sqrt 0
          (axialTrial (elasticMaterial 1000) (bearing (0 : ℕ) 20 (1 / 100)) (nodal 0 0 (1 / 1000))
            (nodal (-1 / 1000) (1 / 50) 0) 0 0)) ∧
      passTrial (constantFriction 50) 0
        (shearPass (constantFriction 50) Rat.sqrt 0
          (axialTrial (elasticMaterial 1000) (bearing (0 : ℕ) 20 (1 / 100)) (nodal 0 0 (1 / 1000))
            (nodal (-1 / 1000) (1 / 50) 0) 0 0)) 0 = 100 ∧
      passTrial (constantFriction 50) 0
        (shearPass (constantFriction 50) Rat.sqrt 0
          (axialTrial (elasticMaterial 1000) (bearing (0 : ℕ) 20 (1 / 100)) (nodal 0 0 (1 / 1000))
            (nodal (-1 / 1000) (1 / 50) 0) 0 0)) 1 = 0 ∧
      passTrialNorm (constantFriction 50) Rat.sqrt 0
        (shearPass (constantFriction 50) Rat.sqrt 0
          (axialTrial (elasticMaterial 1000) (bearing (0 : ℕ) 20 (1 / 100)) (nodal 0 0 (1 / 1000))
            (nodal (-1 / 1000) (1 / 50) 0) 0 0)) = |(100 : ℚ)| := by
  obtain ⟨u0, u1, u2, u3⟩ := slide_update_two (constantFriction 50) 50 yield_fifty (bearing (0 : ℕ) 20 (1 / 100)) (1 / 10) rfl rfl
    (-1 / 1000) (1 / 50) (1 / 1000) rfl rfl rfl 100 (by rw [bearing_uy]; norm_num)
    (by norm_num [abs_of_pos]) 1
    (by rw [bearing_qb]; show -(1000 * (-1 / 1000 : ℚ)) - 0 * (1 / 1000) = 1; norm_num)
    (950001 / 1000000) (by norm_num [abs_of_pos])
    (by norm_num)
    (by rw [bearing_tol, bearing_qb]; show (1 / 100 : ℚ) ≤ |50 * 100 / |100| - 1 * (1 / 1000) - 0|
        norm_num [abs_of_pos])
    (by rw [bearing_tol]; norm_num [abs_of_pos, abs_of_neg])
    (by rw [bearing_maxIter]; decide)
  obtain ⟨-, -, g0, g1, gn⟩ := slide_second_pass (constantFriction 50) 50 yield_fifty (bearing (0 : ℕ) 20 (1 / 100)) (1 / 10) rfl rfl
    (-1 / 1000) (1 / 50) (1 / 1000) rfl rfl rfl 100 (by rw [bearing_uy]; norm_num)
    (by norm_num [abs_of_pos]) 1
    (by rw [bearing_qb]; show -(1000 * (-1 / 1000 : ℚ)) - 0 * (1 / 1000) = 1; norm_num)
    (950001 / 1000000) (by norm_num [abs_of_pos])
  exact ⟨u0, u1, u2, u3, g0, g1, gn⟩

/-- C11 (witness): the bearing pushed by `0.02` along y in compression, no
rotation, constant friction force 50: the last pass has `a = 100 > Fy = 50`
and the output shear-force pair has norm 50. -/
theorem update_plastic_force_norm_witness :
    axialForce (elasticMaterial 1000) (bearing (0 : ℕ) 20 (1 / 100)) (nodal 0 0 0)
        (nodal (-1 / 1000) (1 / 50) 0) 0 0 < 0 ∧
      (50 : ℚ) < passTrialNorm (constantFriction 50) Rat.sqrt (slidingSpeed Rat.sqrt (bearing (0 : ℕ) 20 (1 / 100)) 0 0)
        (solveEntry (elasticMaterial 1000) (constantFriction 50) Rat.sqrt
          (bearing (0 : ℕ) 20 (1 / 100)) (nodal 0 0 0) (nodal (-1 / 1000) (1 / 50) 0) 0 0) ∧
      Norm Rat.sqrt ![(update (elasticMaterial 1000) (constantFriction 50) Rat.sqrt
        (bearing (0 : ℕ) 20 (1 / 100)) (nodal 0 0 0) (nodal (-1 / 1000) (1 / 50) 0) 0 0).1.qb 1,
        (update (elasticMaterial 1000) (constantFriction 50) Rat.sqrt
        (bearing (0 : ℕ) 20 (1 / 100)) (nodal 0 0 0) (nodal (-1 / 1000) (1 / 50) 0) 0 0).1.qb 2] = 50 := by
  obtain ⟨-, -, -, u3, g0, g1, gn⟩ := slid_flat_run
  have h : axialForce (elasticMaterial 1000) (bearing (0 : ℕ) 20 (1 / 100)) (nodal 0 0 0)
      (nodal (-1 / 1000) (1 / 50) 0) 0 0 < 0 := by
    rw [push_axialForce _ (1 / 10) rfl rfl]
    norm_num
  have ha : (100 : ℚ) = passTrialNorm (constantFriction 50) Rat.sqrt
      (slidingSpeed Rat.sqrt (bearing (0 : ℕ) 20 (1 / 100)) 0 0)
      (solveEntry (elasticMaterial 1000) (constantFriction 50) Rat.sqrt
          (bearing (0 : ℕ) 20 (1 / 100)) (nodal 0 0 0) (nodal (-1 / 1000) (1 / 50) 0) 0 0) := by
    rw [push_slidingSpeed _ (1 / 10) rfl rfl, u3, gn]
    norm_num [abs_of_pos]
  refine ⟨h, ?_, update_plastic_force_norm (elasticMaterial 1000) (constantFriction 50)
    Rat.sqrt (bearing (0 : ℕ) 20 (1 / 100)) (nodal 0 0 0) (nodal (-1 / 1000) (1 / 50) 0) 0 0 h
    (by rw [localDisp_of_unit _ rfl]; rfl) (by rw [localDisp_of_unit _ rfl]; rfl)
    Rat.sqrt_eq 50 100 (constant_yield 50 _ _).symm ha ?_ (by norm_num) (by norm_num)⟩
  · rw [← ha]
    norm_num
  · rw [Fin.sum_univ_two, push_slidingSpeed _ (1 / 10) rfl rfl, u3, g0, g1]
    norm_num

/-- C11 (counterexample): constant friction force 50, node 1 rotated by
`0.001` about z, axial shortening `0.001`, shear deformation `0.02`, tolerance
`0.01`. The update is in contact and succeeds, its last pass is plastic (trial
shear-force norm 100, yield force 50), and the output shear-force pair has
norm `49.999049999`, not 50. -/
theorem plastic_update_force_norm_differs_from_yield :
    axialForce (elasticMaterial 1000) (bearing (0 : ℕ) 20 (1 / 100)) (nodal 0 0 (1 / 1000))
        (nodal (-1 / 1000) (1 / 50) 0) 0 0 < 0 ∧
      (update (elasticMaterial 1000) (constantFriction 50) Rat.sqrt
        (bearing (0 : ℕ) 20 (1 / 100)) (nodal 0 0 (1 / 1000)) (nodal (-1 / 1000) (1 / 50) 0) 0 0).2 = 0 ∧
      passYield (constantFriction 50) (slidingSpeed Rat.sqrt (bearing (0 : ℕ) 20 (1 / 100)) 0 0)
        (solveEntry (elasticMaterial 1000) (constantFriction 50) Rat.sqrt
          (bearing (0 : ℕ) 20 (1 / 100)) (nodal 0 0 (1 / 1000)) (nodal (-1 / 1000) (1 / 50) 0) 0 0) = 50 ∧
      passTrialNorm (constantFriction 50) Rat.sqrt (slidingSpeed Rat.sqrt (bearing (0 : ℕ) 20 (1 / 100)) 0 0)
        (solveEntry (elasticMaterial 1000) (constantFriction 50) Rat.sqrt
          (bearing (0 : ℕ) 20 (1 / 100)) (nodal 0 0 (1 / 1000)) (nodal (-1 / 1000) (1 / 50) 0) 0 0) = 100 ∧
      Norm Rat.sqrt ![(update (elasticMaterial 1000) (constantFriction 50) Rat.sqrt
        (bearing (0 : ℕ) 20 (1 / 100)) (nodal 0 0 (1 / 1000)) (nodal (-1 / 1000) (1 / 50) 0) 0 0).1.qb 1,
        (update (elasticMaterial 1000) (constantFriction 50) Rat.sqrt
        (bearing (0 : ℕ) 20 (1 / 100)) (nodal 0 0 (1 / 1000)) (nodal (-1 / 1000) (1 / 50) 0) 0 0).1.qb 2] = 49999049999 / 1000000000 := by
  obtain ⟨u0, u1, u2, u3, -, -, gn⟩ := slid_tilted_run
  refine ⟨?_, u0, constant_yield 50 _ _, ?_, ?_⟩
  · rw [push_axialForce _ (1 / 10) rfl rfl]
    norm_num
  · rw [push_slidingSpeed _ (1 / 10) rfl rfl, u3, gn]
    norm_num [abs_of_pos]
  · rw [Norm_pair, u1, u2, mul_zero, add_zero, Rat.sqrt_eq]
    norm_num [abs_of_pos]

end PlasticRuns

/-! ## The branch a pass takes -/

section Branch

variable (frn : FrictionModel α F) (sqrt : α → α) (v : α) (e : FlatSliderSimple3d α M F)

/-- C13: for a yield displacement `uy > 0` and a yield force `Fy > 0`, a pass
takes the elastic branch (`Y <= 0`) if and only if the distance between the
trial shear deformation and the committed plastic shear displacement is at
most `uy`, whatever the normal force and the value of `Fy`; `sqrt` is
non-negative and exact on the two squared norms involved. -/
theorem pass_elastic_iff_within_yield_displacement (Fy : α)
    (hFy : passYield frn v e = Fy) (huy : 0 < e.uy) (hpos : 0 < Fy)
    (hnn : ∀ x, 0 ≤ sqrt x)
    (hd : Norm sqrt ![e.ub 1 - e.ubPlasticC 0, e.ub 2 - e.ubPlasticC 1] *
        Norm sqrt ![e.ub 1 - e.ubPlasticC 0, e.ub 2 - e.ubPlasticC 1] =
      (e.ub 1 - e.ubPlasticC 0) * (e.ub 1 - e.ubPlasticC 0) +
        (e.ub 2 - e.ubPlasticC 1) * (e.ub 2 - e.ubPlasticC 1))
    (ha : passTrialNorm frn sqrt v e * passTrialNorm frn sqrt v e =
      passTrial frn v e 0 * passTrial frn v e 0 + passTrial frn v e 1 * passTrial frn v e 1) :
    passY frn sqrt v e ≤ 0 ↔
      Norm sqrt ![e.ub 1 - e.ubPlasticC 0, e.ub 2 - e.ubPlasticC 1] ≤ e.uy := by
  have hk : 0 < Fy / e.uy := div_pos hpos huy
  have hdn : 0 ≤ Norm sqrt ![e.ub 1 - e.ubPlasticC 0, e.ub 2 - e.ubPlasticC 1] := hnn _
  have han : 0 ≤ passTrialNorm frn sqrt v e := hnn _
  have ht0 : passTrial frn v e 0 = Fy / e.uy * (e.ub 1 - e.ubPlasticC 0) := by
    simp only [passTrial, passK0, hFy, Matrix.cons_val_zero]
  have ht1 : passTrial frn v e 1 = Fy / e.uy * (e.ub 2 - e.ubPlasticC 1) := by
    simp only [passTrial, passK0, hFy, Matrix.cons_val_one, Matrix.head_cons]
  have hsq : passTrialNorm frn sqrt v e * passTrialNorm frn sqrt v e =
      Fy / e.uy * Norm sqrt ![e.ub 1 - e.ubPlasticC 0, e.ub 2 - e.ubPlasticC 1] *
        (Fy / e.uy * Norm sqrt ![e.ub 1 - e.ubPlasticC 0, e.ub 2 - e.ubPlasticC 1]) := by
    rw [ha, ht0, ht1, mul_mul_mul_comm (Fy / e.uy)
      (Norm sqrt ![e.ub 1 - e.ubPlasticC 0, e.ub 2 - e.ubPlasticC 1]) (Fy / e.uy)
      (Norm sqrt ![e.ub 1 - e.ubPlasticC 0, e.ub 2 - e.ubPlasticC 1]), hd]
    ring
  have hnorm : passTrialNorm frn sqrt v e =
      Fy / e.uy * Norm sqrt ![e.ub 1 - e.ubPlasticC 0, e.ub 2 - e.ubPlasticC 1] :=
    (mul_self_inj_of_nonneg han (mul_nonneg (le_of_lt hk) hdn)).mp hsq
  have hFy2 : Fy = Fy / e.uy * e.uy := by
    field_simp
  rw [passY, hFy, hnorm, sub_nonpos]
  constructor
  · intro hle
    exact le_of_mul_le_mul_left (hle.trans_eq hFy2) hk
  · intro hle
    calc Fy / e.uy * Norm sqrt ![e.ub 1 - e.ubPlasticC 0, e.ub 2 - e.ubPlasticC 1]
        ≤ Fy / e.uy * e.uy := mul_le_mul_of_nonneg_left hle (le_of_lt hk)
      _ = Fy := hFy2.symm

end Branch

section BranchRuns

theorem axialTrial_frame (mat : UniaxialMaterial α M) (e : FlatSliderSimple3d α M F)
    (dsp1 dsp2 vel1 vel2 : Fin 6 → α) :
    (axialTrial mat e dsp1 dsp2 vel1 vel2).uy = e.uy ∧
      (axialTrial mat e dsp1 dsp2 vel1 vel2).ubPlasticC = e.ubPlasticC ∧
      (axialTrial mat e dsp1 dsp2 vel1 vel2).ubPlastic = e.ubPlastic :=
  ⟨rfl, rfl, rfl⟩

theorem axis_norm_exact (p : ℚ) :
    Norm Rat.sqrt ![p - 0, 0 - 0] * Norm Rat.sqrt ![p - 0, 0 - 0] =
      (p - 0) * (p - 0) + (0 - 0) * (0 - 0) := by
  rw [Norm_pair, sub_zero, sub_zero, mul_zero, add_zero, Rat.sqrt_eq, abs_mul_abs_self]

/-- C13 (witness): the first pass of the fresh bearing pushed by `0.005` along
y in compression, `uy = 0.01`, constant friction force 50: the pass is
elastic and the distance `0.005` is within `uy`. -/
theorem pass_elastic_iff_within_yield_displacement_witness :
    (passY (constantFriction 50) Rat.sqrt 0
        (axialTrial (elasticMaterial 1000) (bearing (0 : ℕ) 20 (1 / 100000000))
          (nodal 0 0 0) (nodal (-1 / 1000) (1 / 200) 0) 0 0) ≤ 0 ↔
      Norm Rat.sqrt ![(axialTrial (elasticMaterial 1000) (bearing (0 : ℕ) 20 (1 / 100000000))
          (nodal 0 0 0) (nodal (-1 / 1000) (1 / 200) 0) 0 0).ub 1 -
          (axialTrial (elasticMaterial 1000) (bearing (0 : ℕ) 20 (1 / 100000000))
          (nodal 0 0 0) (nodal (-1 / 1000) (1 / 200) 0) 0 0).ubPlasticC 0,
        (axialTrial (elasticMaterial 1000) (bearing (0 : ℕ) 20 (1 / 100000000))
          (nodal 0 0 0) (nodal (-1 / 1000) (1 / 200) 0) 0 0).ub 2 -
          (axialTrial (elasticMaterial 1000) (bearing (0 : ℕ) 20 (1 / 100000000))
          (nodal 0 0 0) (nodal (-1 / 1000) (1 / 200) 0) 0 0).ubPlasticC 1] ≤
        (axialTrial (elasticMaterial 1000) (bearing (0 : ℕ) 20 (1 / 100000000))
          (nodal 0 0 0) (nodal (-1 / 1000) (1 / 200) 0) 0 0).uy) ∧
      passY (constantFriction 50) Rat.sqrt 0
        (axialTrial (elasticMaterial 1000) (bearing (0 : ℕ) 20 (1 / 100000000))
          (nodal 0 0 0) (nodal (-1 / 1000) (1 / 200) 0) 0 0) ≤ 0 := by
  have hub := push_ub (bearing (0 : ℕ) 20 (1 / 100000000)) (1 / 10) rfl rfl (-1 / 1000) (1 / 200) 0
  have hul := push_ul (bearing (0 : ℕ) 20 (1 / 100000000)) rfl (-1 / 1000) (1 / 200) 0
  obtain ⟨fy, fc, -⟩ := axialTrial_frame (elasticMaterial 1000) (bearing (0 : ℕ) 20 (1 / 100000000))
    (nodal 0 0 0) (nodal (-1 / 1000) (1 / 200) 0) 0 0
  obtain ⟨g0, g1, gn, gY, -⟩ := axis_quantities (constantFriction 50) 0 50 25
    (axialTrial (elasticMaterial 1000) (bearing (0 : ℕ) 20 (1 / 100000000))
          (nodal 0 0 0) (nodal (-1 / 1000) (1 / 200) 0) 0 0) hul.1
    (by rw [hub, fc]; rfl) (constant_yield 50 _ _)
    (by rw [hub, fy, fc, bearing_uy, bearing_ubPlasticC]
        show (50 : ℚ) / (1 / 100) * (1 / 200 - 0) = 25
        norm_num)
  refine ⟨pass_elastic_iff_within_yield_displacement (constantFriction 50) Rat.sqrt 0
    (axialTrial (elasticMaterial 1000) (bearing (0 : ℕ) 20 (1 / 100000000))
          (nodal 0 0 0) (nodal (-1 / 1000) (1 / 200) 0) 0 0) 50 (constant_yield 50 _ _) (by rw [fy, bearing_uy]; norm_num) (by norm_num)
    Rat.sqrt_nonneg ?_ ?_, ?_⟩
  · rw [hub, fc, bearing_ubPlasticC]
    exact axis_norm_exact (1 / 200)
  · rw [g0, g1, gn, abs_mul_abs_self, mul_zero, add_zero]
  · rw [gY]
    norm_num [abs_of_pos]

end BranchRuns

/-! ## Sliding along one shear axis under a constant yield force -/

section AxisSlide

theorem sgn_mul_abs (d : α) : sgn d * |d| = d := by
  unfold sgn
  rcases lt_trichotomy d 0 with h | h | h
  · rw [if_neg (not_lt.mpr (le_of_lt h)), if_pos h, abs_of_neg h]
    ring
  · rw [h]
    simp
  · rw [if_pos h, abs_of_pos h, one_mul]

theorem abs_sgn (d : α) (hd : d ≠ 0) : |sgn d| = 1 := by
  unfold sgn
  rcases lt_or_gt_of_ne hd with h | h
  · rw [if_neg (not_lt.mpr (le_of_lt h)), if_pos h, abs_neg, abs_one]
  · rw [if_pos h, abs_one]

theorem ratio_sgn (K d : α) (hK : 0 < K) (hd : d ≠ 0) : K * d / (K * |d|) = sgn d := by
  have habs : |d| ≠ 0 := abs_ne_zero.mpr hd
  rw [div_eq_iff (mul_ne_zero (ne_of_gt hK) habs), ← mul_assoc, mul_comm (sgn d) K, mul_assoc,
    sgn_mul_abs]

variable (frn : FrictionModel α F) (sqrt : α → α) (v : α) (s : FlatSliderSimple3d α M F)
  (Fy d : α) (hsq : ∀ x, sqrt (x * x) = |x|) (h4 : s.ul 4 = 0) (h5 : s.ul 5 = 0)
  (hC : s.ubPlasticC = 0) (hy : passYield frn v s = Fy) (huy : 0 < s.uy) (hFy : 0 < Fy)
  (hpl : s.uy < |d|)

include hsq h4 h5 hC hy huy hFy hpl

/-- A pass without rotation and without committed plastic displacement, the
shear deformation `d` along basic y beyond the yield displacement. -/
theorem slide_pass_y (hu1 : s.ub 1 = d) (hu2 : s.ub 2 = 0) :
    (shearPass frn sqrt v s).qb 1 = Fy * sgn d ∧ (shearPass frn sqrt v s).qb 2 = 0 ∧
      (shearPass frn sqrt v s).ubPlastic = ![d - s.uy * sgn d, 0] := by
  have hK : 0 < Fy / s.uy := div_pos hFy huy
  have hd : d ≠ 0 := abs_pos.mp (lt_trans huy hpl)
  have t0 : passTrial frn v s 0 = Fy / s.uy * d := by
    simp only [passTrial, passK0, hy, hC, hu1, Matrix.cons_val_zero, Pi.zero_apply, sub_zero]
  have t1 : passTrial frn v s 1 = 0 := by
    simp only [passTrial, hC, hu2, Matrix.cons_val_one, Matrix.head_cons, Pi.zero_apply,
      sub_zero, mul_zero]
  have hn : passTrialNorm frn sqrt v s = Fy / s.uy * |d| := by
    rw [passTrialNorm, Norm, Fin.sum_univ_two, t0, t1, mul_zero, add_zero, hsq, abs_mul,
      abs_of_pos hK]
  have hFy2 : Fy = Fy / s.uy * s.uy := by
    field_simp
  have hY : passY frn sqrt v s = Fy / s.uy * (|d| - s.uy) := by
    rw [passY, hn, hy, mul_sub, ← hFy2]
  have hYpos : 0 < passY frn sqrt v s := by
    rw [hY]
    exact mul_pos hK (sub_pos.mpr hpl)
  rw [shearPass_of_plastic frn sqrt v s hYpos]
  refine ⟨?_, ?_, ?_⟩
  · rw [plasticStep_qb_one, hy, t0, hn, h5, mul_zero, sub_zero, mul_div_assoc,
      ratio_sgn _ _ hK hd]
  · rw [plasticStep_qb_two, t1, h4, mul_zero, zero_div, mul_zero, add_zero]
  · have e0 : (plasticStep frn sqrt v s).ubPlastic 0 = d - s.uy * sgn d := by
      show s.ubPlasticC 0 + passY frn sqrt v s / passK0 frn v s * passTrial frn v s 0 /
        passTrialNorm frn sqrt v s = _
      rw [hC, hY, t0, hn, passK0, hy, Pi.zero_apply, zero_add, mul_div_cancel_left₀ _ (ne_of_gt hK),
        mul_div_assoc, ratio_sgn _ _ hK hd, sub_mul, mul_comm |d| (sgn d), sgn_mul_abs]
    have e1 : (plasticStep frn sqrt v s).ubPlastic 1 = 0 := by
      show s.ubPlasticC 1 + passY frn sqrt v s / passK0 frn v s * passTrial frn v s 1 /
        passTrialNorm frn sqrt v s = _
      rw [hC, t1, mul_zero, zero_div, Pi.zero_apply, add_zero]
    funext j
    fin_cases j
    · exact e0
    · exact e1

/-- The same pass with the shear deformation along basic z. -/
theorem slide_pass_z (hu1 : s.ub 1 = 0) (hu2 : s.ub 2 = d) :
    (shearPass frn sqrt v s).qb 1 = 0 ∧ (shearPass frn sqrt v s).qb 2 = Fy * sgn d ∧
      (shearPass frn sqrt v s).ubPlastic = ![0, d - s.uy * sgn d] := by
  have hK : 0 < Fy / s.uy := div_pos hFy huy
  have hd : d ≠ 0 := abs_pos.mp (lt_trans huy hpl)
  have t0 : passTrial frn v s 0 = 0 := by
    simp only [passTrial, hC, hu1, Matrix.cons_val_zero, Pi.zero_apply, sub_zero, mul_zero]
  have t1 : passTrial frn v s 1 = Fy / s.uy * d := by
    simp only [passTrial, passK0, hy, hC, hu2, Matrix.cons_val_one, Matrix.head_cons,
      Pi.zero_apply, sub_zero]
  have hn : passTrialNorm frn sqrt v s = Fy / s.uy * |d| := by
    rw [passTrialNorm, Norm, Fin.sum_univ_two, t0, t1, mul_zero, zero_add, hsq, abs_mul,
      abs_of_pos hK]
  have hFy2 : Fy = Fy / s.uy * s.uy := by
    field_simp
  have hY : passY frn sqrt v s = Fy / s.uy * (|d| - s.uy) := by
    rw [passY, hn, hy, mul_sub, ← hFy2]
  have hYpos : 0 < passY frn sqrt v s := by
    rw [hY]
    exact mul_pos hK (sub_pos.mpr hpl)
  rw [shearPass_of_plastic frn sqrt v s hYpos]
  refine ⟨?_, ?_, ?_⟩
  · rw [plasticStep_qb_one, t0, h5, mul_zero, zero_div, mul_zero, sub_zero]
  · rw [plasticStep_qb_two, hy, t1, hn, h4, mul_zero, add_zero, mul_div_assoc,
      ratio_sgn _ _ hK hd]
  · have e0 : (plasticStep frn sqrt v s).ubPlastic 0 = 0 := by
      show s.ubPlasticC 0 + passY frn sqrt v s / passK0 frn v s * passTrial frn v s 0 /
        passTrialNorm frn sqrt v s = _
      rw [hC, t0, mul_zero, zero_div, Pi.zero_apply, add_zero]
    have e1 : (plasticStep frn sqrt v s).ubPlastic 1 = d - s.uy * sgn d := by
      show s.ubPlasticC 1 + passY frn sqrt v s / passK0 frn v s * passTrial frn v s 1 /
        passTrialNorm frn sqrt v s = _
      rw [hC, hY, t1, hn, passK0, hy, Pi.zero_apply, zero_add, mul_div_cancel_left₀ _ (ne_of_gt hK),
        mul_div_assoc, ratio_sgn _ _ hK hd, sub_mul, mul_comm |d| (sgn d), sgn_mul_abs]
    funext j
    fin_cases j
    · exact e0
    · exact e1

end AxisSlide

section AxisSlideUpdate

variable (mat : UniaxialMaterial α M) (frn : FrictionModel α F) (sqrt : α → α)

theorem single_zero (x : α) : (Pi.single 0 x : Fin 2 → α) = ![x, 0] := by
  funext j
  fin_cases j <;> simp

theorem single_one (x : α) : (Pi.single 1 x : Fin 2 → α) = ![0, x] := by
  funext j
  fin_cases j <;> simp

/-- A pass without rotation and without committed plastic displacement, the
shear deformation `d` along shear axis `i` beyond the yield displacement. -/
theorem slide_pass (v : α) (s : FlatSliderSimple3d α M F) (Fy d : α)
    (hsq : ∀ x, sqrt (x * x) = |x|) (h4 : s.ul 4 = 0) (h5 : s.ul 5 = 0)
    (hC : s.ubPlasticC = 0) (hy : passYield frn v s = Fy) (huy : 0 < s.uy) (hFy : 0 < Fy)
    (hpl : s.uy < |d|) (i : Fin 2) (hd : ![s.ub 1, s.ub 2] = Pi.single i d) :
    ![(shearPass frn sqrt v s).qb 1, (shearPass frn sqrt v s).qb 2] =
        Pi.single i (Fy * sgn d) ∧
      (shearPass frn sqrt v s).ubPlastic = Pi.single i (d - s.uy * sgn d) := by
  fin_cases i
  · rw [show ((⟨0, by decide⟩ : Fin 2)) = 0 from rfl, single_zero] at hd
    rw [show ((⟨0, by decide⟩ : Fin 2)) = 0 from rfl, single_zero, single_zero]
    obtain ⟨p1, p2, p3⟩ := slide_pass_y frn sqrt v s Fy d hsq h4 h5 hC hy huy hFy hpl
      (congrFun hd 0) (congrFun hd 1)
    rw [p1, p2, p3]
    exact ⟨rfl, rfl⟩
  · rw [show ((⟨1, by decide⟩ : Fin 2)) = 1 from rfl, single_one] at hd
    rw [show ((⟨1, by decide⟩ : Fin 2)) = 1 from rfl, single_one, single_one]
    obtain ⟨p1, p2, p3⟩ := slide_pass_z frn sqrt v s Fy d hsq h4 h5 hC hy huy hFy hpl
      (congrFun hd 0) (congrFun hd 1)
    rw [p1, p2, p3]
    exact ⟨rfl, rfl⟩

/-- The pass count of a loop whose first two passes leave the same shear
forces `q1`, `q2`. -/
theorem shearLoop_iter_steady (v : α) (maxIter : Int) (tol : α)
    (s : FlatSliderSimple3d α M F) (iter : Int) (q1 q2 : α)
    (hp1 : (shearPass frn sqrt v s).qb 1 = q1) (hp2 : (shearPass frn sqrt v s).qb 2 = q2)
    (hpp1 : (shearPass frn sqrt v (shearPass frn sqrt v s)).qb 1 = q1)
    (hpp2 : (shearPass frn sqrt v (shearPass frn sqrt v s)).qb 2 = q2)
    (hz : sqrt ((q1 - q1) ^ 2 + (q2 - q2) ^ 2) < tol) :
    (shearLoop frn sqrt v maxIter tol s iter).iter =
      if tol ≤ sqrt ((q1 - s.qb 1) ^ 2 + (q2 - s.qb 2) ^ 2) ∧ iter + 1 ≤ maxIter then iter + 2
      else iter + 1 := by
  by_cases hcond : tol ≤ sqrt ((q1 - s.qb 1) ^ 2 + (q2 - s.qb 2) ^ 2) ∧ iter + 1 ≤ maxIter
  · rw [if_pos hcond, shearLoop_step frn sqrt v maxIter tol s iter (by rw [hp1, hp2]; exact hcond),
      shearLoop_stop]
    · show iter + 1 + 1 = iter + 2
      ring
    · rw [hpp1, hpp2, hp1, hp2]
      intro hcon
      exact absurd hcon.1 (not_le.mpr hz)
  · rw [if_neg hcond, shearLoop_stop frn sqrt v maxIter tol s iter
      (by rw [hp1, hp2]; exact hcond)]

variable (e : FlatSliderSimple3d α M F) (dsp1 dsp2 vel1 vel2 : Fin 6 → α)

/-- The trial plastic displacement after an update in contact is that of the
last pass, whatever the status. -/
theorem update_ubPlastic_of_contact (h : axialForce mat e dsp1 dsp2 vel1 vel2 < 0) :
    (update mat frn sqrt e dsp1 dsp2 vel1 vel2).1.ubPlastic =
      (shearPass frn sqrt (slidingSpeed sqrt e vel1 vel2)
        (solveEntry mat frn sqrt e dsp1 dsp2 vel1 vel2)).ubPlastic := by
  rw [update_of_contact mat frn sqrt e dsp1 dsp2 vel1 vel2 h,
    ← shearSolve_e_eq_pass mat frn sqrt e dsp1 dsp2 vel1 vel2]
  split <;> rfl

end AxisSlideUpdate

section AxisSlideClaim

variable (mat : UniaxialMaterial α M) (frn : FrictionModel α F) (sqrt : α → α)

theorem single_change (hsq : ∀ x, sqrt (x * x) = |x|) (i : Fin 2) (x : α) :
    sqrt (((Pi.single i x : Fin 2 → α) 0 - 0) ^ 2 + ((Pi.single i x : Fin 2 → α) 1 - 0) ^ 2) =
      |x| := by
  fin_cases i
  · rw [show ((⟨0, by decide⟩ : Fin 2)) = 0 from rfl, single_zero]
    rw [show ((![x, 0] : Fin 2 → α) 0 - 0) ^ 2 + ((![x, 0] : Fin 2 → α) 1 - 0) ^ 2 = x * x by
      simp only [Matrix.cons_val_zero, Matrix.cons_val_one, Matrix.head_cons]; ring, hsq]
  · rw [show ((⟨1, by decide⟩ : Fin 2)) = 1 from rfl, single_one]
    rw [show ((![0, x] : Fin 2 → α) 0 - 0) ^ 2 + ((![0, x] : Fin 2 → α) 1 - 0) ^ 2 = x * x by
      simp only [Matrix.cons_val_zero, Matrix.cons_val_one, Matrix.head_cons]; ring, hsq]

/-- C14 (amended): a freshly reset element held in compression, with zero
local rotations, a friction law returning the constant yield force `Fy > 0`,
a tolerance `tol > 0`, an iteration cap `maxIter > 2` and a shear trial
deformation `d` along one shear axis with `|d| > uy`. The first pass of
`update` produces the final shear force; when `Fy >= tol` the loop runs a
second pass, which reproduces it, so the loop ends with `iter = 2` (with
`iter = 1` when `Fy < tol`). `update` returns success with output shear force
`Fy*sgn(d)` on that axis, zero on the other, and trial plastic displacement
`d - uy*sgn(d)` on that axis; `sqrt` is taken exact on squares. -/
theorem update_slides_along_axis (e e0 : FlatSliderSimple3d α M F)
    (he : e = (revertToStart mat frn e0).1) (dsp1 dsp2 vel1 vel2 : Fin 6 → α)
    (hsq : ∀ x, sqrt (x * x) = |x|) (Fy : α) (hF : ∀ f, frn.getFrictionForce f = Fy)
    (hFy : 0 < Fy) (huy : 0 < e.uy) (hc : axialForce mat e dsp1 dsp2 vel1 vel2 < 0)
    (h4 : localDisp e dsp1 dsp2 4 = 0) (h5 : localDisp e dsp1 dsp2 5 = 0) (i : Fin 2) (d : α)
    (hd : ![basicDisp e dsp1 dsp2 1, basicDisp e dsp1 dsp2 2] = Pi.single i d)
    (hpl : e.uy < |d|) (htol : 0 < e.tol) (hcap : 2 < e.maxIter) :
    (update mat frn sqrt e dsp1 dsp2 vel1 vel2).2 = 0 ∧
      (shearSolve mat frn sqrt e dsp1 dsp2 vel1 vel2).iter = (if e.tol ≤ Fy then 2 else 1) ∧
      ![(update mat frn sqrt e dsp1 dsp2 vel1 vel2).1.qb 1,
        (update mat frn sqrt e dsp1 dsp2 vel1 vel2).1.qb 2] = Pi.single i (Fy * sgn d) ∧
      (update mat frn sqrt e dsp1 dsp2 vel1 vel2).1.ubPlastic =
        Pi.single i (d - e.uy * sgn d) := by
  have hqb : e.qb = 0 := by rw [he]; rfl
  have hC : e.ubPlasticC = 0 := by rw [he]; rfl
  have hne : d ≠ 0 := abs_pos.mp (lt_trans huy hpl)
  obtain ⟨-, -, -, a3, a4⟩ := axialTrial_fields mat e dsp1 dsp2 vel1 vel2
  obtain ⟨fy, fc, -⟩ := axialTrial_frame mat e dsp1 dsp2 vel1 vel2
  -- the first pass
  have P1 := slide_pass frn sqrt (slidingSpeed sqrt e vel1 vel2)
    (axialTrial mat e dsp1 dsp2 vel1 vel2) Fy d hsq (by rw [a3]; exact h4)
    (by rw [a3]; exact h5) (by rw [fc]; exact hC) (hF _) (by rw [fy]; exact huy) hFy
    (by rw [fy]; exact hpl) i (by rw [a4]; exact hd)
  -- the second pass
  have P2 := slide_pass frn sqrt (slidingSpeed sqrt e vel1 vel2)
    (shearPass frn sqrt (slidingSpeed sqrt e vel1 vel2) (axialTrial mat e dsp1 dsp2 vel1 vel2))
    Fy d hsq (by rw [shearPass_ul, a3]; exact h4) (by rw [shearPass_ul, a3]; exact h5)
    (by rw [shearPass_ubPlasticC, fc]; exact hC) (hF _) (by rw [shearPass_uy, fy]; exact huy)
    hFy (by rw [shearPass_uy, fy]; exact hpl) i (by rw [shearPass_ub, a4]; exact hd)
  -- the last pass
  obtain ⟨s1, s2, s3, s4, -⟩ := solveEntry_frame mat frn sqrt e dsp1 dsp2 vel1 vel2
  have Pe := slide_pass frn sqrt (slidingSpeed sqrt e vel1 vel2)
    (solveEntry mat frn sqrt e dsp1 dsp2 vel1 vel2) Fy d hsq (by rw [s1]; exact h4)
    (by rw [s1]; exact h5) (by rw [s4]; exact hC) (hF _) (by rw [s3]; exact huy) hFy
    (by rw [s3]; exact hpl) i (by rw [s2]; exact hd)
  rw [s3] at Pe
  -- the pass count
  have hiter : (shearSolve mat frn sqrt e dsp1 dsp2 vel1 vel2).iter =
      (if e.tol ≤ Fy then 2 else 1) := by
    unfold shearSolve
    rw [shearLoop_iter_steady frn sqrt _ _ _ _ 0 ((Pi.single i (Fy * sgn d) : Fin 2 → α) 0)
      ((Pi.single i (Fy * sgn d) : Fin 2 → α) 1) (congrFun P1.1 0) (congrFun P1.1 1)
      (congrFun P2.1 0) (congrFun P2.1 1) (by
        rw [sub_self, sub_self, show ((0 : α) ^ 2 + 0 ^ 2) = 0 * 0 by ring, hsq, abs_zero]
        exact htol),
      axialTrial_qb_one, axialTrial_qb_two, hqb, Pi.zero_apply, Pi.zero_apply,
      single_change sqrt hsq, abs_mul, abs_of_pos hFy, abs_sgn d hne, mul_one]
    by_cases ht : e.tol ≤ Fy
    · rw [if_pos ⟨ht, by omega⟩, if_pos ht]
      rfl
    · rw [if_neg (fun hcon => ht hcon.1), if_neg ht]
      rfl
  have hlt : ¬ (shearSolve mat frn sqrt e dsp1 dsp2 vel1 vel2).iter ≥ e.maxIter := by
    rw [hiter]
    split <;> omega
  obtain ⟨q1, q2⟩ := update_shear_of_contact mat frn sqrt e dsp1 dsp2 vel1 vel2 hc
  have hU := update_of_contact mat frn sqrt e dsp1 dsp2 vel1 vel2 hc
  rw [if_neg hlt] at hU
  refine ⟨by rw [hU], hiter, ?_, ?_⟩
  · rw [q1, q2]
    exact Pe.1
  · rw [update_ubPlastic_of_contact mat frn sqrt e dsp1 dsp2 vel1 vel2 hc]
    exact Pe.2

end AxisSlideClaim

section AxisSlideRuns

theorem bearing_is_reset (maxIter : Int) (tol : ℚ) :
    bearing (0 : ℕ) maxIter tol =
      (revertToStart (elasticMaterial 1000) (constantFriction 50)
        (bearing (0 : ℕ) maxIter tol)).1 :=
  rfl

theorem sgn_fiftieth : sgn (1 / 50 : ℚ) = 1 := by
  unfold sgn
  norm_num

/-- C14 (witness): `uy = 0.01`, `Fy = 50`, `d = 0.02` along basic y, axial
shortening `0.001`, tolerance `1e-8`, cap 20: `update` succeeds after two
passes with shear force 50 along y and trial plastic displacement `0.01`. -/
theorem update_slides_along_axis_witness :
    axialForce (elasticMaterial 1000) (bearing (0 : ℕ) 20 (1 / 100000000)) (nodal 0 0 0)
        (nodal (-1 / 1000) (1 / 50) 0) 0 0 < 0 ∧
      (update (elasticMaterial 1000) (constantFriction 50) Rat.sqrt
        (bearing (0 : ℕ) 20 (1 / 100000000)) (nodal 0 0 0) (nodal (-1 / 1000) (1 / 50) 0) 0 0).2 = 0 ∧
      (shearSolve (elasticMaterial 1000) (constantFriction 50) Rat.sqrt
        (bearing (0 : ℕ) 20 (1 / 100000000)) (nodal 0 0 0) (nodal (-1 / 1000) (1 / 50) 0) 0 0).iter = 2 ∧
      ![(update (elasticMaterial 1000) (constantFriction 50) Rat.sqrt
        (bearing (0 : ℕ) 20 (1 / 100000000)) (nodal 0 0 0) (nodal (-1 / 1000) (1 / 50) 0) 0 0).1.qb 1,
        (update (elasticMaterial 1000) (constantFriction 50) Rat.sqrt
        (bearing (0 : ℕ) 20 (1 / 100000000)) (nodal 0 0 0) (nodal (-1 / 1000) (1 / 50) 0) 0 0).1.qb 2] = ![50, 0] ∧
      (update (elasticMaterial 1000) (constantFriction 50) Rat.sqrt
        (bearing (0 : ℕ) 20 (1 / 100000000)) (nodal 0 0 0) (nodal (-1 / 1000) (1 / 50) 0) 0 0).1.ubPlastic = ![1 / 100, 0] := by
  have hc : axialForce (elasticMaterial 1000) (bearing (0 : ℕ) 20 (1 / 100000000)) (nodal 0 0 0)
      (nodal (-1 / 1000) (1 / 50) 0) 0 0 < 0 := by
    rw [push_axialForce _ (1 / 10) rfl rfl]
    norm_num
  obtain ⟨w1, w2, w3, w4⟩ := update_slides_along_axis (elasticMaterial 1000)
    (constantFriction 50) Rat.sqrt (bearing (0 : ℕ) 20 (1 / 100000000)) (bearing (0 : ℕ) 20 (1 / 100000000)) (bearing_is_reset 20 _)
    (nodal 0 0 0) (nodal (-1 / 1000) (1 / 50) 0) 0 0 Rat.sqrt_eq 50 yield_fifty (by norm_num)
    (by rw [bearing_uy]; norm_num) hc
    (by rw [localDisp_of_unit _ rfl]; rfl) (by rw [localDisp_of_unit _ rfl]; rfl) 0 (1 / 50)
    (by rw [basicDisp_of_unit _ (1 / 10) rfl rfl, single_zero]; simp [nodal_apply])
    (by rw [bearing_uy]; norm_num [abs_of_pos]) (by rw [bearing_tol]; norm_num)
    (by rw [bearing_maxIter]; decide)
  rw [bearing_tol, if_pos (by norm_num)] at w2
  rw [single_zero, sgn_fiftieth, mul_one] at w3
  rw [single_zero, sgn_fiftieth, bearing_uy, mul_one] at w4
  refine ⟨hc, w1, w2, w3, ?_⟩
  rw [w4]
  norm_num

/-- C14 (counterexample): the fresh bearing (`uy = 0.01`) in compression,
no rotation, zero velocities, constant friction force 50, shear deformation
`0.02` along basic y, tolerance `1e-8`. With the cap `maxIter = 20` the loop
executes two passes, not one; with the cap `maxIter = 1` the same update
returns -1, not success. -/
theorem slide_takes_two_passes_and_fails_under_cap_one :
    axialForce (elasticMaterial 1000) (bearing (0 : ℕ) 20 (1 / 100000000)) (nodal 0 0 0)
        (nodal (-1 / 1000) (1 / 50) 0) 0 0 < 0 ∧
      (shearSolve (elasticMaterial 1000) (constantFriction 50) Rat.sqrt
        (bearing (0 : ℕ) 20 (1 / 100000000)) (nodal 0 0 0) (nodal (-1 / 1000) (1 / 50) 0) 0 0).iter = 2 ∧
      axialForce (elasticMaterial 1000) (bearing (0 : ℕ) 1 (1 / 100000000)) (nodal 0 0 0)
        (nodal (-1 / 1000) (1 / 50) 0) 0 0 < 0 ∧
      (update (elasticMaterial 1000) (constantFriction 50) Rat.sqrt
        (bearing (0 : ℕ) 1 (1 / 100000000)) (nodal 0 0 0) (nodal (-1 / 1000) (1 / 50) 0) 0 0).2 = -1 := by
  have hs := push_solve (constantFriction 50) 50 100 yield_fifty
    (bearing (0 : ℕ) 20 (1 / 100000000)) (1 / 10) rfl rfl (-1 / 1000) (1 / 50) rfl
    (by show (50 : ℚ) / (1 / 100) * (1 / 50 - 0) = 100; norm_num) rfl
    (by show (0 : ℚ) < 1 / 100000000; norm_num)
    (by rw [force_fifty, bearing_qb, bearing_tol]; norm_num [abs_of_pos])
    (by show (1 : Int) ≤ 20; decide)
  have hu := push_update (constantFriction 50) 50 100 yield_fifty
    (bearing (0 : ℕ) 1 (1 / 100000000)) (1 / 10) rfl rfl (-1 / 1000) (1 / 50) rfl
    (by show (50 : ℚ) / (1 / 100) * (1 / 50 - 0) = 100; norm_num) (by norm_num) rfl
    (by show (0 : ℚ) < 1 / 100000000; norm_num)
    (by rw [force_fifty, bearing_qb, bearing_tol]; norm_num [abs_of_pos])
    (by show (1 : Int) ≤ 1; decide)
  refine ⟨?_, ?_, ?_, ?_⟩
  · rw [push_axialForce _ (1 / 10) rfl rfl]
    norm_num
  · rw [hs]
  · rw [push_axialForce _ (1 / 10) rfl rfl]
    norm_num
  · rw [hu.1, bearing_maxIter]
    rfl

end AxisSlideRuns

/-! ## The orientation triad built by `setUp` -/

section Triad

theorem setUp_of_some (sqrt : α → α) (e : FlatSliderSimple3d α M F) (c1 c2 x y : Fin 3 → α)
    (hx : e.x = some x) (hy : e.y = some y) :
    setUp sqrt e c1 c2 =
      if Norm sqrt x = 0 ∨ Norm sqrt (cross (cross x y) x) = 0 ∨ Norm sqrt (cross x y) = 0 then
        none
      else some { e with
        L := Norm sqrt (fun i => c2 i - c1 i), x := some x, y := some (cross (cross x y) x),
        Tgl := globalToLocal x (cross (cross x y) x) (cross x y) (Norm sqrt x)
          (Norm sqrt (cross (cross x y) x)) (Norm sqrt (cross x y)),
        Tlb := localToBasic (Norm sqrt (fun i => c2 i - c1 i)) } := by
  unfold setUp
  simp only [hx, hy, ite_self]
  rfl

/-- The global-to-local operator is four copies of its 3x3 block on the
diagonal. -/
theorem globalToLocal_eq_blockDiagonal (x y z : Fin 3 → α) (xn yn zn : α) :
    globalToLocal x y z xn yn zn =
      (Matrix.blockDiagonal (fun _ : Fin 4 =>
        (Matrix.of ![fun c => x c / xn, fun c => y c / yn, fun c => z c / zn] :
          Matrix (Fin 3) (Fin 3) α))).submatrix
        ((Equiv.prodComm (Fin 3) (Fin 4)).trans finProdFinEquiv).symm
        ((Equiv.prodComm (Fin 3) (Fin 4)).trans finProdFinEquiv).symm := by
  ext i j
  fin_cases i <;> fin_cases j <;> rfl

theorem triad_orthonormal (x y z : Fin 3 → α) (xn yn zn : α)
    (hxx : x 0 * x 0 + x 1 * x 1 + x 2 * x 2 = xn * xn)
    (hyy : y 0 * y 0 + y 1 * y 1 + y 2 * y 2 = yn * yn)
    (hzz : z 0 * z 0 + z 1 * z 1 + z 2 * z 2 = zn * zn)
    (hxy : x 0 * y 0 + x 1 * y 1 + x 2 * y 2 = 0)
    (hxz : x 0 * z 0 + x 1 * z 1 + x 2 * z 2 = 0)
    (hyz : y 0 * z 0 + y 1 * z 1 + y 2 * z 2 = 0)
    (hxn : xn ≠ 0) (hyn : yn ≠ 0) (hzn : zn ≠ 0) :
    (Matrix.of ![fun c => x c / xn, fun c => y c / yn, fun c => z c / zn] :
        Matrix (Fin 3) (Fin 3) α) *
      (Matrix.of ![fun c => x c / xn, fun c => y c / yn, fun c => z c / zn] :
        Matrix (Fin 3) (Fin 3) α).transpose = 1 := by
  have dot : ∀ (a b : Fin 3 → α) (p q : α),
      ∑ k : Fin 3, a k / p * (b k / q) = (a 0 * b 0 + a 1 * b 1 + a 2 * b 2) / (p * q) := by
    intro a b p q
    rw [Fin.sum_univ_three]
    simp only [div_mul_div_comm, ← add_div]
  have hyx : y 0 * x 0 + y 1 * x 1 + y 2 * x 2 = 0 := by linear_combination hxy
  have hzx : z 0 * x 0 + z 1 * x 1 + z 2 * x 2 = 0 := by linear_combination hxz
  have hzy : z 0 * y 0 + z 1 * y 1 + z 2 * y 2 = 0 := by linear_combination hyz
  have key : ∀ i j : Fin 3,
      ∑ k, (Matrix.of ![fun c => x c / xn, fun c => y c / yn, fun c => z c / zn] :
          Matrix (Fin 3) (Fin 3) α) i k *
        (Matrix.of ![fun c => x c / xn, fun c => y c / yn, fun c => z c / zn] :
          Matrix (Fin 3) (Fin 3) α) j k = (1 : Matrix (Fin 3) (Fin 3) α) i j := by
    intro i j
    fin_cases i <;> fin_cases j
    · exact (dot x x xn xn).trans (by rw [hxx]; exact div_self (mul_ne_zero hxn hxn))
    · exact (dot x y xn yn).trans (by rw [hxy, zero_div]; rfl)
    · exact (dot x z xn zn).trans (by rw [hxz, zero_div]; rfl)
    · exact (dot y x yn xn).trans (by rw [hyx, zero_div]; rfl)
    · exact (dot y y yn yn).trans (by rw [hyy]; exact div_self (mul_ne_zero hyn hyn))
    · exact (dot y z yn zn).trans (by rw [hyz, zero_div]; rfl)
    · exact (dot z x zn xn).trans (by rw [hzx, zero_div]; rfl)
    · exact (dot z y zn yn).trans (by rw [hzy, zero_div]; rfl)
    · exact (dot z z zn zn).trans (by rw [hzz]; exact div_self (mul_ne_zero hzn hzn))
  ext i j
  rw [Matrix.mul_apply]
  exact key i j

theorem globalToLocal_orthonormal (x y z : Fin 3 → α) (xn yn zn : α)
    (hxx : x 0 * x 0 + x 1 * x 1 + x 2 * x 2 = xn * xn)
    (hyy : y 0 * y 0 + y 1 * y 1 + y 2 * y 2 = yn * yn)
    (hzz : z 0 * z 0 + z 1 * z 1 + z 2 * z 2 = zn * zn)
    (hxy : x 0 * y 0 + x 1 * y 1 + x 2 * y 2 = 0)
    (hxz : x 0 * z 0 + x 1 * z 1 + x 2 * z 2 = 0)
    (hyz : y 0 * z 0 + y 1 * z 1 + y 2 * z 2 = 0)
    (hxn : xn ≠ 0) (hyn : yn ≠ 0) (hzn : zn ≠ 0) :
    globalToLocal x y z xn yn zn * (globalToLocal x y z xn yn zn).transpose = 1 := by
  rw [globalToLocal_eq_blockDiagonal, Matrix.transpose_submatrix, Matrix.submatrix_mul_equiv,
    Matrix.blockDiagonal_transpose, ← Matrix.blockDiagonal_mul]
  simp only [triad_orthonormal x y z xn yn zn hxx hyy hzz hxy hxz hyz hxn hyn hzn]
  rw [show (fun _ : Fin 4 => (1 : Matrix (Fin 3) (Fin 3) α)) = 1 from rfl,
    Matrix.blockDiagonal_one, Matrix.submatrix_one_equiv]

theorem sumsq_eq_zero (v : Fin 3 → α) :
    v 0 * v 0 + v 1 * v 1 + v 2 * v 2 = 0 ↔ v = 0 := by
  constructor
  · intro h
    have p0 := mul_self_nonneg (v 0)
    have p1 := mul_self_nonneg (v 1)
    have p2 := mul_self_nonneg (v 2)
    have h0 : v 0 = 0 := mul_self_eq_zero.mp (by linarith)
    have h1 : v 1 = 0 := mul_self_eq_zero.mp (by linarith)
    have h2 : v 2 = 0 := mul_self_eq_zero.mp (by linarith)
    funext i
    fin_cases i
    · exact h0
    · exact h1
    · exact h2
  · intro h
    rw [h]
    simp

/-- A norm that is exact vanishes only for the zero vector. -/
theorem Norm_eq_zero_iff (sqrt : α → α) (v : Fin 3 → α)
    (hex : Norm sqrt v * Norm sqrt v = ∑ i, v i * v i) : Norm sqrt v = 0 ↔ v = 0 := by
  rw [Fin.sum_univ_three] at hex
  rw [← sumsq_eq_zero, ← hex, mul_self_eq_zero]

/-- Lagrange's identity for `y = z cross x` with `z = x cross y`, to which `x`
is orthogonal. -/
theorem sumsq_cross_cross (x y : Fin 3 → α) :
    cross (cross x y) x 0 * cross (cross x y) x 0 + cross (cross x y) x 1 * cross (cross x y) x 1
        + cross (cross x y) x 2 * cross (cross x y) x 2 =
      (cross x y 0 * cross x y 0 + cross x y 1 * cross x y 1 + cross x y 2 * cross x y 2) *
        (x 0 * x 0 + x 1 * x 1 + x 2 * x 2) := by
  simp only [cross, Matrix.cons_val_zero, Matrix.cons_val_one, Matrix.head_cons,
    Matrix.cons_val_two, Matrix.tail_cons]
  ring

theorem cross_cross_eq_zero_iff (x y : Fin 3 → α) :
    cross (cross x y) x = 0 ↔ cross x y = 0 ∨ x = 0 := by
  rw [← sumsq_eq_zero, sumsq_cross_cross, mul_eq_zero, sumsq_eq_zero, sumsq_eq_zero]

theorem cross_zero_right (x : Fin 3 → α) : cross x 0 = 0 := by
  funext i
  fin_cases i <;> simp [cross]

/-- The validity check of `setUp` fails exactly for `x cross y = 0`, when the
three norms are exact. -/
theorem degenerate_iff (sqrt : α → α) (x y : Fin 3 → α)
    (ex : Norm sqrt x * Norm sqrt x = ∑ i, x i * x i)
    (ey : Norm sqrt (cross (cross x y) x) * Norm sqrt (cross (cross x y) x) =
      ∑ i, cross (cross x y) x i * cross (cross x y) x i)
    (ez : Norm sqrt (cross x y) * Norm sqrt (cross x y) = ∑ i, cross x y i * cross x y i) :
    (Norm sqrt x = 0 ∨ Norm sqrt (cross (cross x y) x) = 0 ∨ Norm sqrt (cross x y) = 0) ↔
      (x = 0 ∨ y = 0 ∨ cross x y = 0) := by
  rw [Norm_eq_zero_iff sqrt x ex, Norm_eq_zero_iff sqrt _ ey, Norm_eq_zero_iff sqrt _ ez,
    cross_cross_eq_zero_iff]
  constructor
  · rintro (h | (h | h) | h)
    · exact Or.inl h
    · exact Or.inr (Or.inr h)
    · exact Or.inl h
    · exact Or.inr (Or.inr h)
  · rintro (h | h | h)
    · exact Or.inl h
    · exact Or.inr (Or.inr (by rw [h]; exact cross_zero_right x))
    · exact Or.inr (Or.inr h)

end Triad

/-! ## Claims about `setUp` -/

section SetUpClaims

variable (sqrt : α → α) (e : FlatSliderSimple3d α M F) (c1 c2 x y : Fin 3 → α)

/-- C20: given 3-component orientation vectors `x` and `y`, `setUp` aborts if
and only if `x` is zero, `y` is zero or `x cross y` is zero; for every other
pair it returns the element with both operators built. `sqrt` is exact on the
squared norms of the three axis vectors. -/
theorem setUp_aborts_iff_degenerate (hx : e.x = some x) (hy : e.y = some y)
    (ex : Norm sqrt x * Norm sqrt x = ∑ i, x i * x i)
    (ey : Norm sqrt (cross (cross x y) x) * Norm sqrt (cross (cross x y) x) =
      ∑ i, cross (cross x y) x i * cross (cross x y) x i)
    (ez : Norm sqrt (cross x y) * Norm sqrt (cross x y) = ∑ i, cross x y i * cross x y i) :
    (setUp sqrt e c1 c2 = none ↔ (x = 0 ∨ y = 0 ∨ cross x y = 0)) ∧
      (¬ (x = 0 ∨ y = 0 ∨ cross x y = 0) →
        ∃ e1, setUp sqrt e c1 c2 = some e1 ∧
          e1.Tgl = globalToLocal x (cross (cross x y) x) (cross x y) (Norm sqrt x)
            (Norm sqrt (cross (cross x y) x)) (Norm sqrt (cross x y)) ∧
          e1.Tlb = localToBasic (Norm sqrt (fun i => c2 i - c1 i))) := by
  have hdeg := degenerate_iff sqrt x y ex ey ez
  rw [setUp_of_some sqrt e c1 c2 x y hx hy]
  by_cases hn : Norm sqrt x = 0 ∨ Norm sqrt (cross (cross x y) x) = 0 ∨
      Norm sqrt (cross x y) = 0
  · rw [if_pos hn]
    exact ⟨⟨fun _ => hdeg.mp hn, fun _ => rfl⟩, fun hnot => absurd (hdeg.mp hn) hnot⟩
  · rw [if_neg hn]
    refine ⟨⟨fun h => ?_, fun h => absurd (hdeg.mpr h) hn⟩, fun _ => ⟨_, rfl, rfl, rfl⟩⟩
    exact absurd h (by simp)

/-- C19: for 3-component orientation vectors `x`, `y` that pass the validity
check of `setUp`, the operator `Tgl` it builds is orthonormal: `Tgl*Tgl^T = I`
and `Tgl^T*Tgl = I`, every entry outside the four diagonal 3x3 blocks is zero,
each diagonal block `R` satisfies `R*R^T = I`, and `Tgl^T*(Tgl*u) = u` for
every 12-vector `u`. `sqrt` is exact on the squared norms of the three axis
vectors. -/
theorem setUp_Tgl_orthonormal (e1 : FlatSliderSimple3d α M F) (hx : e.x = some x)
    (hy : e.y = some y) (ex : Norm sqrt x * Norm sqrt x = ∑ i, x i * x i)
    (ey : Norm sqrt (cross (cross x y) x) * Norm sqrt (cross (cross x y) x) =
      ∑ i, cross (cross x y) x i * cross (cross x y) x i)
    (ez : Norm sqrt (cross x y) * Norm sqrt (cross x y) = ∑ i, cross x y i * cross x y i)
    (h : setUp sqrt e c1 c2 = some e1) :
    e1.Tgl * e1.Tgl.transpose = 1 ∧ e1.Tgl.transpose * e1.Tgl = 1 ∧
      (∀ i j : Fin 12, i.val / 3 ≠ j.val / 3 → e1.Tgl i j = 0) ∧
      (∀ b : Fin 4,
        e1.Tgl.submatrix (fun i : Fin 3 => (⟨3 * b.val + i.val, by omega⟩ : Fin 12))
            (fun i : Fin 3 => (⟨3 * b.val + i.val, by omega⟩ : Fin 12)) *
          (e1.Tgl.submatrix (fun i : Fin 3 => (⟨3 * b.val + i.val, by omega⟩ : Fin 12))
            (fun i : Fin 3 => (⟨3 * b.val + i.val, by omega⟩ : Fin 12))).transpose = 1) ∧
      ∀ u : Fin 12 → α, e1.Tgl.transpose.mulVec (e1.Tgl.mulVec u) = u := by
  rw [setUp_of_some sqrt e c1 c2 x y hx hy] at h
  by_cases hn : Norm sqrt x = 0 ∨ Norm sqrt (cross (cross x y) x) = 0 ∨
      Norm sqrt (cross x y) = 0
  · rw [if_pos hn] at h
    exact absurd h (by simp)
  rw [if_neg hn] at h
  have hT : e1.Tgl = globalToLocal x (cross (cross x y) x) (cross x y) (Norm sqrt x)
      (Norm sqrt (cross (cross x y) x)) (Norm sqrt (cross x y)) := by
    rw [← Option.some.inj h]
  have hxn : Norm sqrt x ≠ 0 := fun h0 => hn (Or.inl h0)
  have hyn : Norm sqrt (cross (cross x y) x) ≠ 0 := fun h0 => hn (Or.inr (Or.inl h0))
  have hzn : Norm sqrt (cross x y) ≠ 0 := fun h0 => hn (Or.inr (Or.inr h0))
  rw [Fin.sum_univ_three] at ex ey ez
  have hxy : x 0 * cross (cross x y) x 0 + x 1 * cross (cross x y) x 1 +
      x 2 * cross (cross x y) x 2 = 0 := by
    simp only [cross, Matrix.cons_val_zero, Matrix.cons_val_one, Matrix.head_cons,
      Matrix.cons_val_two, Matrix.tail_cons]
    ring
  have hxz : x 0 * cross x y 0 + x 1 * cross x y 1 + x 2 * cross x y 2 = 0 := by
    simp only [cross, Matrix.cons_val_zero, Matrix.cons_val_one, Matrix.head_cons,
      Matrix.cons_val_two, Matrix.tail_cons]
    ring
  have hyz : cross (cross x y) x 0 * cross x y 0 + cross (cross x y) x 1 * cross x y 1 +
      cross (cross x y) x 2 * cross x y 2 = 0 := by
    simp only [cross, Matrix.cons_val_zero, Matrix.cons_val_one, Matrix.head_cons,
      Matrix.cons_val_two, Matrix.tail_cons]
    ring
  have hTT : e1.Tgl * e1.Tgl.transpose = 1 := by
    rw [hT]
    exact globalToLocal_orthonormal x _ _ _ _ _ ex.symm ey.symm ez.symm hxy hxz hyz hxn hyn hzn
  have hTT2 : e1.Tgl.transpose * e1.Tgl = 1 := Matrix.mul_eq_one_comm.mp hTT
  refine ⟨hTT, hTT2, fun i j hij => ?_, fun b => ?_, fun u => ?_⟩
  · rw [hT]
    unfold globalToLocal
    exact if_neg hij
  · have hb : e1.Tgl.submatrix (fun i : Fin 3 => (⟨3 * b.val + i.val, by omega⟩ : Fin 12))
        (fun i : Fin 3 => (⟨3 * b.val + i.val, by omega⟩ : Fin 12)) =
        (Matrix.of ![fun c => x c / Norm sqrt x,
          fun c => cross (cross x y) x c / Norm sqrt (cross (cross x y) x),
          fun c => cross x y c / Norm sqrt (cross x y)] : Matrix (Fin 3) (Fin 3) α) := by
      rw [hT]
      ext i j
      fin_cases b <;> fin_cases i <;> fin_cases j <;> rfl
    rw [hb]
    exact triad_orthonormal x _ _ _ _ _ ex.symm ey.symm ez.symm hxy hxz hyz hxn hyn hzn
  · rw [Matrix.mulVec_mulVec, hTT2, Matrix.one_mulVec]

end SetUpClaims

section SetUpRuns

theorem rat_sqrt_one : Rat.sqrt 1 = 1 := by
  have h := Rat.sqrt_eq 1
  rw [mul_one, abs_one] at h
  exact h

/-- The norm of a rational vector whose squares sum to one is exact. -/
theorem unit_norm (v : Fin 3 → ℚ) (h : ∑ i, v i * v i = 1) :
    Norm Rat.sqrt v = 1 ∧ Norm Rat.sqrt v * Norm Rat.sqrt v = ∑ i, v i * v i := by
  have hn : Norm Rat.sqrt v = 1 := by rw [Norm, h, rat_sqrt_one]
  rw [hn, h, mul_one]
  exact ⟨rfl, rfl⟩

theorem unit_x : ∑ i, (![1, 0, 0] : Fin 3 → ℚ) i * (![1, 0, 0] : Fin 3 → ℚ) i = 1 := by
  simp [Fin.sum_univ_three]

theorem unit_z :
    ∑ i, cross (![1, 0, 0] : Fin 3 → ℚ) ![0, 1, 0] i * cross (![1, 0, 0] : Fin 3 → ℚ) ![0, 1, 0] i
      = 1 := by
  simp [Fin.sum_univ_three, cross]

theorem unit_y :
    ∑ i, cross (cross (![1, 0, 0] : Fin 3 → ℚ) ![0, 1, 0]) ![1, 0, 0] i *
      cross (cross (![1, 0, 0] : Fin 3 → ℚ) ![0, 1, 0]) ![1, 0, 0] i = 1 := by
  simp [Fin.sum_univ_three, cross]

/-- The validity check of `setUp` passes for `x = (1,0,0)`, `y = (0,1,0)`. -/
theorem unit_triad_valid :
    ¬ (Norm Rat.sqrt (![1, 0, 0] : Fin 3 → ℚ) = 0 ∨
      Norm Rat.sqrt (cross (cross (![1, 0, 0] : Fin 3 → ℚ) ![0, 1, 0]) ![1, 0, 0]) = 0 ∨
      Norm Rat.sqrt (cross (![1, 0, 0] : Fin 3 → ℚ) ![0, 1, 0]) = 0) := by
  rw [(unit_norm _ unit_x).1, (unit_norm _ unit_y).1, (unit_norm _ unit_z).1]
  norm_num

/-- C20 (witness): `x = (1,0,0)`, `y = (0,1,0)` for the bearing with nodes
`0.1` apart along global x: `setUp` does not abort. -/
theorem setUp_aborts_iff_degenerate_witness :
    (setUp Rat.sqrt (bearing (0 : ℕ) 20 (1 / 100000000)) ![0, 0, 0] ![1 / 10, 0, 0] = none ↔
      ((![1, 0, 0] : Fin 3 → ℚ) = 0 ∨ (![0, 1, 0] : Fin 3 → ℚ) = 0 ∨
        cross (![1, 0, 0] : Fin 3 → ℚ) ![0, 1, 0] = 0)) ∧
      setUp Rat.sqrt (bearing (0 : ℕ) 20 (1 / 100000000)) ![0, 0, 0] ![1 / 10, 0, 0] ≠ none := by
  refine ⟨(setUp_aborts_iff_degenerate Rat.sqrt (bearing (0 : ℕ) 20 (1 / 100000000))
    ![0, 0, 0] ![1 / 10, 0, 0] ![1, 0, 0] ![0, 1, 0] rfl rfl (unit_norm _ unit_x).2
    (unit_norm _ unit_y).2 (unit_norm _ unit_z).2).1, ?_⟩
  rw [setUp_of_some Rat.sqrt _ _ _ ![1, 0, 0] ![0, 1, 0] rfl rfl, if_neg unit_triad_valid]
  simp

/-- C19 (witness): `x = (1,0,0)`, `y = (0,1,0)` for the bearing with nodes
`0.1` apart along global x: `setUp` returns an element whose `Tgl` is
orthonormal. -/
theorem setUp_Tgl_orthonormal_witness :
    ∃ e1 : FlatSliderSimple3d ℚ (ℚ × ℚ) ℕ,
      setUp Rat.sqrt (bearing (0 : ℕ) 20 (1 / 100000000)) ![0, 0, 0] ![1 / 10, 0, 0] = some e1 ∧
        e1.Tgl * e1.Tgl.transpose = 1 ∧
        ∀ u : Fin 12 → ℚ, e1.Tgl.transpose.mulVec (e1.Tgl.mulVec u) = u := by
  obtain ⟨e1, h1⟩ : ∃ e1, setUp Rat.sqrt (bearing (0 : ℕ) 20 (1 / 100000000)) ![0, 0, 0]
      ![1 / 10, 0, 0] = some e1 :=
    ⟨_, by rw [setUp_of_some Rat.sqrt _ _ _ ![1, 0, 0] ![0, 1, 0] rfl rfl,
      if_neg unit_triad_valid]⟩
  have hw := setUp_Tgl_orthonormal Rat.sqrt (bearing (0 : ℕ) 20 (1 / 100000000))
    ![0, 0, 0] ![1 / 10, 0, 0] ![1, 0, 0] ![0, 1, 0] e1 rfl rfl (unit_norm _ unit_x).2
    (unit_norm _ unit_y).2 (unit_norm _ unit_z).2 h1
  exact ⟨e1, h1, hw.1, hw.2.2.2.2⟩

end SetUpRuns

/-! ## Tangent stiffness, mass and force recovery -/

section Recovery

variable (e : FlatSliderSimple3d α M F)

/-- The local stiffness of `getTangentStiff` is `Tlb^T*kb*Tlb` plus the
geometric correction of the spec. -/
theorem localTangentStiff_eq :
    localTangentStiff e =
      e.Tlb.transpose * e.kb * e.Tlb + specGeometricStiffness e.qb := by
  ext i j
  fin_cases i <;>
    simp [localTangentStiff, setEntry, specGeometricStiffness, addMatrixTripleProduct] <;>
    fin_cases j <;> simp <;> ring

end Recovery

section RecoveryClaims

variable (e : FlatSliderSimple3d α M F)

/-- C23: `getTangentStiff` returns `Tgl^T*(Tlb^T*kb*Tlb + G)*Tgl`, where the
geometric correction `G` has the entries `G(5,1) = -qb0`, `G(5,7) = +qb0`,
`G(4,2) = +qb0`, `G(4,8) = -qb0`, `G(3,1) = +qb2`, `G(3,2) = -qb1`,
`G(3,7) = -qb2`, `G(3,8) = +qb1` and zeros elsewhere; rows other than 3, 4, 5,
among them the rotational rows 9, 10, 11 of the second endpoint, receive no
geometric term. -/
theorem getTangentStiff_geometric_correction :
    getTangentStiff e =
        e.Tgl.transpose * (e.Tlb.transpose * e.kb * e.Tlb + specGeometricStiffness e.qb) *
          e.Tgl ∧
      (specGeometricStiffness e.qb 5 1 = -e.qb 0 ∧ specGeometricStiffness e.qb 5 7 = e.qb 0 ∧
        specGeometricStiffness e.qb 4 2 = e.qb 0 ∧ specGeometricStiffness e.qb 4 8 = -e.qb 0 ∧
        specGeometricStiffness e.qb 3 1 = e.qb 2 ∧ specGeometricStiffness e.qb 3 2 = -e.qb 1 ∧
        specGeometricStiffness e.qb 3 7 = -e.qb 2 ∧ specGeometricStiffness e.qb 3 8 = e.qb 1) ∧
      (∀ i j : Fin 12, i ≠ 3 → i ≠ 4 → i ≠ 5 →
        specGeometricStiffness e.qb i j = 0 ∧
          localTangentStiff e i j = (e.Tlb.transpose * e.kb * e.Tlb) i j) := by
  have hz : ∀ i j : Fin 12, i ≠ 3 → i ≠ 4 → i ≠ 5 → specGeometricStiffness e.qb i j = 0 := by
    intro i j h3 h4 h5
    simp [specGeometricStiffness, h3, h4, h5]
  refine ⟨?_, ⟨rfl, rfl, rfl, rfl, rfl, rfl, rfl, rfl⟩, fun i j h3 h4 h5 => ⟨hz i j h3 h4 h5, ?_⟩⟩
  · rw [getTangentStiff, addMatrixTripleProduct, localTangentStiff_eq]
  · rw [localTangentStiff_eq, Matrix.add_apply, hz i j h3 h4 h5, add_zero]

theorem resistingLocalForce_apply_three :
    resistingLocalForce e 3 = e.qb 1 * (e.ul 8 - e.ul 2) - e.qb 2 * (e.ul 7 - e.ul 1) := by
  simp [resistingLocalForce]

theorem resistingLocalForce_apply_of_ne (i : Fin 12) (h : i ≠ 3) :
    resistingLocalForce e i = specLocalForce e.Tlb e.qb e.ul i := by
  unfold resistingLocalForce specLocalForce transposeTimes
  rw [Function.update_noteq h]
  by_cases h4 : i = 4
  · subst h4
    simp
    ring
  · rw [Function.update_noteq h4]
    by_cases h5 : i = 5
    · subst h5
      simp
    · rw [Function.update_noteq h5, if_neg h5, if_neg h4, if_neg h, add_zero]

theorem responseLocalForce_apply_three :
    responseLocalForce e 3 = e.Tlb.transpose.mulVec e.qb 3 := by
  simp [responseLocalForce, transposeTimes]

/-- The transpose of the local-to-basic operator applied to a basic force. -/
theorem localToBasic_transpose_mulVec (L : α) (q : Fin 6 → α) :
    (localToBasic L).transpose.mulVec q =
      ![-q 0, -q 1, -q 2, -q 3, -q 4, -q 5, q 0, q 1, q 2, q 3, q 4 + L * q 2,
        q 5 - L * q 1] := by
  funext i
  fin_cases i <;>
    simp +decide [localToBasic, Matrix.mulVec, Matrix.dotProduct, Fin.sum_univ_six] <;>
    first
    | rfl
    | (show _ = q 4 + L * q 2; ring)
    | (show _ = q 5 - L * q 1; ring)

end RecoveryClaims

section RecoveryRuns

/-- The bearing holding the basic force `qb = (-1, 0, 0, 1, 0, 0)`: axial
compression 1 and torsion 1, zero local displacement. -/
theorem twisted_fields :
    ({ bearing (0 : ℕ) 20 (1 / 100000000) with qb := ![-1, 0, 0, 1, 0, 0] } : FlatSliderSimple3d ℚ (ℚ × ℚ) ℕ).Tlb = localToBasic (1 / 10) ∧
      ({ bearing (0 : ℕ) 20 (1 / 100000000) with qb := ![-1, 0, 0, 1, 0, 0] } : FlatSliderSimple3d ℚ (ℚ × ℚ) ℕ).Tgl = 1 ∧
      ({ bearing (0 : ℕ) 20 (1 / 100000000) with qb := ![-1, 0, 0, 1, 0, 0] } : FlatSliderSimple3d ℚ (ℚ × ℚ) ℕ).qb = ![-1, 0, 0, 1, 0, 0] ∧
      ({ bearing (0 : ℕ) 20 (1 / 100000000) with qb := ![-1, 0, 0, 1, 0, 0] } : FlatSliderSimple3d ℚ (ℚ × ℚ) ℕ).ul = 0 :=
  ⟨rfl, rfl, rfl, rfl⟩

/-- C21 (failing input): the bearing holding `qb = (-1, 0, 0, 1, 0, 0)` with
zero local displacement. Away from component 3 the local force of
`getResistingForce` is the one of the claim; on component 3 the claim gives
`-qb3 + 0 = -1`, and the code, which assigns the V-Delta term instead of adding
it, gives 0. -/
theorem resisting_force_overwrites_torsion :
    (∀ i : Fin 12, i ≠ 3 →
      resistingLocalForce ({ bearing (0 : ℕ) 20 (1 / 100000000) with qb := ![-1, 0, 0, 1, 0, 0] } : FlatSliderSimple3d ℚ (ℚ × ℚ) ℕ) i =
        specLocalForce (localToBasic (1 / 10)) ![-1, 0, 0, 1, 0, 0] 0 i) ∧
      specLocalForce (localToBasic (1 / 10)) ![-1, 0, 0, 1, 0, 0] (0 : Fin 12 → ℚ) 3 = -1 ∧
      resistingLocalForce ({ bearing (0 : ℕ) 20 (1 / 100000000) with qb := ![-1, 0, 0, 1, 0, 0] } : FlatSliderSimple3d ℚ (ℚ × ℚ) ℕ) 3 = 0 := by
  refine ⟨fun i hi => resistingLocalForce_apply_of_ne _ i hi, ?_, ?_⟩
  · unfold specLocalForce
    rw [localToBasic_transpose_mulVec]
    simp
  · rw [resistingLocalForce_apply_three]
    simp

/-- C28 (failing input): the same state with `Tgl = I` and no accumulated
load. Response 2 hands over a local force whose component 3 is `-qb3 = -1`,
so `Tgl^T` times it minus the load is `-1` there, while response 1, the
global force of `getResistingForce`, is 0 there. -/
theorem local_force_response_differs_from_resisting_force :
    getResponse ({ bearing (0 : ℕ) 20 (1 / 100000000) with qb := ![-1, 0, 0, 1, 0, 0] } : FlatSliderSimple3d ℚ (ℚ × ℚ) ℕ) 0 2 =
        some ⟨12, responseLocalForce { bearing (0 : ℕ) 20 (1 / 100000000) with qb := ![-1, 0, 0, 1, 0, 0] }⟩ ∧
      getResponse ({ bearing (0 : ℕ) 20 (1 / 100000000) with qb := ![-1, 0, 0, 1, 0, 0] } : FlatSliderSimple3d ℚ (ℚ × ℚ) ℕ) 0 1 =
        some ⟨12, getResistingForce { bearing (0 : ℕ) 20 (1 / 100000000) with qb := ![-1, 0, 0, 1, 0, 0] } 0⟩ ∧
      (({ bearing (0 : ℕ) 20 (1 / 100000000) with qb := ![-1, 0, 0, 1, 0, 0] } : FlatSliderSimple3d ℚ (ℚ × ℚ) ℕ).Tgl.transpose.mulVec
        (responseLocalForce { bearing (0 : ℕ) 20 (1 / 100000000) with qb := ![-1, 0, 0, 1, 0, 0] }) 3 - (0 : Fin 12 → ℚ) 3 = -1) ∧
      getResistingForce ({ bearing (0 : ℕ) 20 (1 / 100000000) with qb := ![-1, 0, 0, 1, 0, 0] } : FlatSliderSimple3d ℚ (ℚ × ℚ) ℕ) 0 3 = 0 := by
  refine ⟨rfl, rfl, ?_, ?_⟩
  · rw [twisted_fields.2.1, Matrix.transpose_one, Matrix.one_mulVec,
      responseLocalForce_apply_three, twisted_fields.1, twisted_fields.2.2.1,
      localToBasic_transpose_mulVec]
    simp
  · unfold getResistingForce transposeTimes
    rw [twisted_fields.2.1, Matrix.transpose_one, Matrix.one_mulVec,
      resistingLocalForce_apply_three]
    simp

/-- C22 (failing input): the bearing with lumped mass `m = 2`. `getMass` puts
`m/2 = 1` on the rotational degree of freedom 3 of the first endpoint and
nothing on the translational degree of freedom 6 of the second endpoint, where
the claim has 0 and 1. -/
theorem getMass_fills_first_node_rotations :
    getMass ({ bearing (0 : ℕ) 20 (1 / 100000000) with mass := 2 } :
        FlatSliderSimple3d ℚ (ℚ × ℚ) ℕ) 3 3 = 1 ∧
      specMass (2 : ℚ) 3 3 = 0 ∧
      getMass ({ bearing (0 : ℕ) 20 (1 / 100000000) with mass := 2 } :
        FlatSliderSimple3d ℚ (ℚ × ℚ) ℕ) 6 6 = 0 ∧
      specMass (2 : ℚ) 6 6 = 1 := by
  refine ⟨?_, ?_, ?_, ?_⟩
  · simp [getMass, setEntry]
  · simp +decide [specMass]
  · simp +decide [getMass, setEntry]
  · simp +decide [specMass]

end RecoveryRuns

/-! ## Rigid-body modes and the pass count -/

section RigidBody

/-- C25: for every length `L` the local-to-basic operator maps `ul` to
`(ul6-ul0, ul7-ul1-L*ul11, ul8-ul2+L*ul10, ul9-ul3, ul10-ul4, ul11-ul5)`, which
is the basic deformation `update` computes with the operator `setUp` built, and
it maps every rigid-body local displacement to zero: a common translation of
both ends, a common rotation about local x, a common rotation `t` about local
z with `ul7-ul1 = L*t`, a common rotation `t` about local y with
`ul8-ul2 = -L*t`, and any combination of them. -/
theorem localToBasic_removes_rigid_body_modes (L : α) :
    (∀ ul : Fin 12 → α, (localToBasic L).mulVec ul =
        ![ul 6 - ul 0, ul 7 - ul 1 - L * ul 11, ul 8 - ul 2 + L * ul 10, ul 9 - ul 3,
          ul 10 - ul 4, ul 11 - ul 5]) ∧
      (∀ (e : FlatSliderSimple3d α M F) (d1 d2 : Fin 6 → α), e.Tlb = localToBasic L →
        basicDisp e d1 d2 = (localToBasic L).mulVec (localDisp e d1 d2)) ∧
      (∀ a b c : α, (localToBasic L).mulVec ![a, b, c, 0, 0, 0, a, b, c, 0, 0, 0] = 0) ∧
      (∀ t : α, (localToBasic L).mulVec ![0, 0, 0, t, 0, 0, 0, 0, 0, t, 0, 0] = 0) ∧
      (∀ t b : α, (localToBasic L).mulVec ![0, b, 0, 0, 0, t, 0, b + L * t, 0, 0, 0, t] = 0) ∧
      (∀ t c : α, (localToBasic L).mulVec ![0, 0, c, 0, t, 0, 0, 0, c - L * t, 0, t, 0] = 0) ∧
      (∀ ul : Fin 12 → α, ul 6 = ul 0 → ul 7 - ul 1 = L * ul 11 → ul 8 - ul 2 = -(L * ul 10) →
        ul 9 = ul 3 → ul 10 = ul 4 → ul 11 = ul 5 → (localToBasic L).mulVec ul = 0) := by
  have hrigid : ∀ ul : Fin 12 → α, ul 6 = ul 0 → ul 7 - ul 1 = L * ul 11 →
      ul 8 - ul 2 = -(L * ul 10) → ul 9 = ul 3 → ul 10 = ul 4 → ul 11 = ul 5 →
      (localToBasic L).mulVec ul = 0 := by
    intro ul h0 h1 h2 h3 h4 h5
    rw [localToBasic_mulVec]
    have e0 : ul 6 - ul 0 = 0 := by rw [h0, sub_self]
    have e1 : ul 7 - ul 1 - L * ul 11 = 0 := by rw [h1, sub_self]
    have e2 : ul 8 - ul 2 + L * ul 10 = 0 := by rw [h2, neg_add_cancel]
    have e3 : ul 9 - ul 3 = 0 := by rw [h3, sub_self]
    have e4 : ul 10 - ul 4 = 0 := by rw [h4, sub_self]
    have e5 : ul 11 - ul 5 = 0 := by rw [h5, sub_self]
    rw [e0, e1, e2, e3, e4, e5]
    funext i
    fin_cases i <;> rfl
  refine ⟨localToBasic_mulVec L, ?_, ?_, ?_, ?_, ?_, hrigid⟩
  · intro e d1 d2 h
    rw [basicDisp, h]
  · intro a b c
    exact hrigid _ rfl (by show b - b = L * 0; ring) (by show c - c = -(L * 0); ring) rfl rfl rfl
  · intro t
    exact hrigid _ rfl (by show (0 : α) - 0 = L * 0; ring) (by show (0 : α) - 0 = -(L * 0); ring)
      rfl rfl rfl
  · intro t b
    exact hrigid _ rfl (by show b + L * t - b = L * t; ring)
      (by show (0 : α) - 0 = -(L * 0); ring) rfl rfl rfl
  · intro t c
    exact hrigid _ rfl (by show (0 : α) - 0 = L * 0; ring)
      (by show c - L * t - c = -(L * t); ring) rfl rfl rfl

end RigidBody

section PassCount

variable (frn : FrictionModel α F) (sqrt : α → α) (v : α) (maxIter : Int) (tol : α)

/-- The counter at the end of the loop is at most `maxIter + 1`, or one more
than at entry when that is larger. -/
theorem shearLoop_iter_le (e : FlatSliderSimple3d α M F) (iter : Int) :
    (shearLoop frn sqrt v maxIter tol e iter).iter ≤ max (iter + 1) (maxIter + 1) := by
  induction e, iter using shearLoop.induct frn sqrt v maxIter tol with
  | case1 e iter r h ih =>
    rw [shearLoop, dif_pos h]
    have h2 : iter + 1 ≤ maxIter := h.2
    exact le_trans ih (by rw [max_eq_right (by omega), max_eq_right (by omega)])
  | case2 e iter r h =>
    rw [shearLoop, dif_neg h]
    exact le_max_left _ _

/-- The loop leaves the element that as many passes as the counter grew by
make of the one it started from. -/
theorem shearLoop_e_eq_iterate (e : FlatSliderSimple3d α M F) (iter : Int) :
    (shearLoop frn sqrt v maxIter tol e iter).e =
      Nat.iterate (shearPass frn sqrt v)
        ((shearLoop frn sqrt v maxIter tol e iter).iter - iter).toNat e := by
  induction e, iter using shearLoop.induct frn sqrt v maxIter tol with
  | case1 e iter r h ih =>
    have hgt := shearLoop_iter_gt frn sqrt v maxIter tol (shearPass frn sqrt v e) (iter + 1)
    rw [shearLoop, dif_pos h]
    rw [show ((shearLoop frn sqrt v maxIter tol (shearPass frn sqrt v e) (iter + 1)).iter -
        iter).toNat = ((shearLoop frn sqrt v maxIter tol (shearPass frn sqrt v e)
          (iter + 1)).iter - (iter + 1)).toNat + 1 by omega, Function.iterate_succ_apply]
    exact ih
  | case2 e iter r h =>
    rw [shearLoop, dif_neg h]
    show shearPass frn sqrt v e = Nat.iterate (shearPass frn sqrt v) (iter + 1 - iter).toNat e
    rw [show (iter + 1 - iter).toNat = 1 by omega]
    rfl

end PassCount

section PassCountClaim

variable (mat : UniaxialMaterial α M) (frn : FrictionModel α F) (sqrt : α → α)
  (e : FlatSliderSimple3d α M F) (dsp1 dsp2 vel1 vel2 : Fin 6 → α)

/-- C26: for `maxIter >= 0`, whatever `tol`, the friction law and the
materials do, the shear loop of `update` ends after `iter` passes of its body
with `1 <= iter <= maxIter + 1` (the element it leaves is the one `iter`
passes make of the state after the axial step), and `update` returns, with
status 0 or -1. -/
theorem update_shear_loop_terminates (hm : 0 ≤ e.maxIter) :
    1 ≤ (shearSolve mat frn sqrt e dsp1 dsp2 vel1 vel2).iter ∧
      (shearSolve mat frn sqrt e dsp1 dsp2 vel1 vel2).iter ≤ e.maxIter + 1 ∧
      (shearSolve mat frn sqrt e dsp1 dsp2 vel1 vel2).e =
        Nat.iterate (shearPass frn sqrt (slidingSpeed sqrt e vel1 vel2))
          (shearSolve mat frn sqrt e dsp1 dsp2 vel1 vel2).iter.toNat
          (axialTrial mat e dsp1 dsp2 vel1 vel2) ∧
      ((update mat frn sqrt e dsp1 dsp2 vel1 vel2).2 = 0 ∨
        (update mat frn sqrt e dsp1 dsp2 vel1 vel2).2 = -1) := by
  have hgt := shearLoop_iter_gt frn sqrt (slidingSpeed sqrt e vel1 vel2) e.maxIter e.tol
    (axialTrial mat e dsp1 dsp2 vel1 vel2) 0
  have hle := shearLoop_iter_le frn sqrt (slidingSpeed sqrt e vel1 vel2) e.maxIter e.tol
    (axialTrial mat e dsp1 dsp2 vel1 vel2) 0
  have hit := shearLoop_e_eq_iterate frn sqrt (slidingSpeed sqrt e vel1 vel2) e.maxIter e.tol
    (axialTrial mat e dsp1 dsp2 vel1 vel2) 0
  rw [sub_zero] at hit
  rw [max_eq_right (by omega)] at hle
  refine ⟨by unfold shearSolve; omega, hle, hit, ?_⟩
  by_cases hc : 0 ≤ axialForce mat e dsp1 dsp2 vel1 vel2
  · rw [update_of_uplift mat frn sqrt e dsp1 dsp2 vel1 vel2 hc]
    exact Or.inl rfl
  · rw [update_of_contact mat frn sqrt e dsp1 dsp2 vel1 vel2 (not_le.mp hc)]
    split
    · exact Or.inr rfl
    · exact Or.inl rfl

end PassCountClaim

section PassCountRuns

/-- C26 (witness): the bearing with cap 20 pushed by `0.02` along y in
compression. -/
theorem update_shear_loop_terminates_witness :
    1 ≤ (shearSolve (elasticMaterial 1000) (constantFriction 50) Rat.sqrt
        (bearing (0 : ℕ) 20 (1 / 100000000)) (nodal 0 0 0) (nodal (-1 / 1000) (1 / 50) 0)
        0 0).iter ∧
      (shearSolve (elasticMaterial 1000) (constantFriction 50) Rat.sqrt
        (bearing (0 : ℕ) 20 (1 / 100000000)) (nodal 0 0 0) (nodal (-1 / 1000) (1 / 50) 0)
        0 0).iter ≤ 20 + 1 :=
  have h := update_shear_loop_terminates (elasticMaterial 1000) (constantFriction 50) Rat.sqrt
    (bearing (0 : ℕ) 20 (1 / 100000000)) (nodal 0 0 0) (nodal (-1 / 1000) (1 / 50) 0) 0 0
    (by rw [bearing_maxIter]; decide)
  ⟨h.1, h.2.1⟩

end PassCountRuns

/-! ## The return map -/

section ReturnMap

variable (frn : FrictionModel α F) (sqrt : α → α) (v : α) (e : FlatSliderSimple3d α M F)

/-- C27: after a plastic pass with `uy > 0` and yield force `Fy > 0`, the
elastic remainder (trial shear deformation minus the updated trial plastic
displacement) is the positive multiple `uy/a` of the trial shear force, `a`
being its norm, its Euclidean norm is `uy`, and the friction force
`Fy*t/a` equals `k0 = Fy/uy` times that remainder; `sqrt` is exact on squares
and on the squared norm of the trial shear force. -/
theorem plastic_pass_elastic_remainder (Fy a : α) (hFy : Fy = passYield frn v e)
    (ha : a = passTrialNorm frn sqrt v e) (huy : 0 < e.uy) (hpos : 0 < Fy) (hpl : Fy < a)
    (hsq : ∀ x, sqrt (x * x) = |x|)
    (hex : a * a = passTrial frn v e 0 * passTrial frn v e 0 +
      passTrial frn v e 1 * passTrial frn v e 1) :
    Norm sqrt ![e.ub 1 - (shearPass frn sqrt v e).ubPlastic 0,
        e.ub 2 - (shearPass frn sqrt v e).ubPlastic 1] = e.uy ∧
      0 < e.uy / a ∧
      e.ub 1 - (shearPass frn sqrt v e).ubPlastic 0 = e.uy / a * passTrial frn v e 0 ∧
      e.ub 2 - (shearPass frn sqrt v e).ubPlastic 1 = e.uy / a * passTrial frn v e 1 ∧
      Fy * passTrial frn v e 0 / a =
        Fy / e.uy * (e.ub 1 - (shearPass frn sqrt v e).ubPlastic 0) ∧
      Fy * passTrial frn v e 1 / a =
        Fy / e.uy * (e.ub 2 - (shearPass frn sqrt v e).ubPlastic 1) := by
  have hapos : 0 < a := lt_trans hpos hpl
  have hane : a ≠ 0 := ne_of_gt hapos
  have hFne : Fy ≠ 0 := ne_of_gt hpos
  have hune : e.uy ≠ 0 := ne_of_gt huy
  have hY : 0 < passY frn sqrt v e := by
    rw [passY, ← ha, ← hFy]
    exact sub_pos.mpr hpl
  have t0 : passTrial frn v e 0 = Fy / e.uy * (e.ub 1 - e.ubPlasticC 0) := by
    simp only [passTrial, passK0, ← hFy, Matrix.cons_val_zero]
  have t1 : passTrial frn v e 1 = Fy / e.uy * (e.ub 2 - e.ubPlasticC 1) := by
    simp only [passTrial, passK0, ← hFy, Matrix.cons_val_one, Matrix.head_cons]
  have p0 : (shearPass frn sqrt v e).ubPlastic 0 =
      e.ubPlasticC 0 + (a - Fy) / (Fy / e.uy) * passTrial frn v e 0 / a := by
    rw [shearPass_of_plastic frn sqrt v e hY]
    show e.ubPlasticC 0 + passY frn sqrt v e / passK0 frn v e * passTrial frn v e 0 /
      passTrialNorm frn sqrt v e = _
    rw [passY, passK0, ← ha, ← hFy]
  have p1 : (shearPass frn sqrt v e).ubPlastic 1 =
      e.ubPlasticC 1 + (a - Fy) / (Fy / e.uy) * passTrial frn v e 1 / a := by
    rw [shearPass_of_plastic frn sqrt v e hY]
    show e.ubPlasticC 1 + passY frn sqrt v e / passK0 frn v e * passTrial frn v e 1 /
      passTrialNorm frn sqrt v e = _
    rw [passY, passK0, ← ha, ← hFy]
  have r0 : e.ub 1 - (shearPass frn sqrt v e).ubPlastic 0 = e.uy / a * passTrial frn v e 0 := by
    rw [p0, t0]
    field_simp
    ring
  have r1 : e.ub 2 - (shearPass frn sqrt v e).ubPlastic 1 = e.uy / a * passTrial frn v e 1 := by
    rw [p1, t1]
    field_simp
    ring
  refine ⟨?_, div_pos huy hapos, r0, r1, ?_, ?_⟩
  · rw [Norm_pair, r0, r1]
    have hsum : e.uy / a * passTrial frn v e 0 * (e.uy / a * passTrial frn v e 0) +
        e.uy / a * passTrial frn v e 1 * (e.uy / a * passTrial frn v e 1) = e.uy * e.uy := by
      field_simp
      rw [hex]
      ring
    rw [hsum, hsq, abs_of_pos huy]
  · rw [r0]
    field_simp
    ring
  · rw [r1]
    field_simp
    ring

/-- C30: for a yield displacement `uy > 0`, when the friction law returns a
yield force `>= 0` and the plastic branch is taken (`Y > 0`), the stiffness
`k0` and the norm of the trial shear force are strictly positive, so that no
division of the pass (`qYield/uy`, `Y/k0`, the divisions by `qTrialNorm` and
by its cube) has a zero denominator; with a negative yield force and the trial
shear deformation equal to the committed plastic displacement the plastic
branch is entered with a zero trial norm. `sqrt 0 = 0` is assumed. -/
theorem plastic_branch_denominators_positive (huy : 0 < e.uy) (hs0 : sqrt 0 = 0) :
    (0 ≤ passYield frn v e → 0 < passY frn sqrt v e →
      e.uy ≠ 0 ∧ 0 < passK0 frn v e ∧ 0 < passTrialNorm frn sqrt v e ∧
        passTrialNorm frn sqrt v e ^ 3 ≠ 0) ∧
      (passYield frn v e < 0 → e.ub 1 = e.ubPlasticC 0 → e.ub 2 = e.ubPlasticC 1 →
        0 < passY frn sqrt v e ∧ passTrialNorm frn sqrt v e = 0) := by
  constructor
  · intro h0 hY
    have hlt : passYield frn v e < passTrialNorm frn sqrt v e := sub_pos.mp hY
    have hapos : 0 < passTrialNorm frn sqrt v e := lt_of_le_of_lt h0 hlt
    have hFpos : 0 < passYield frn v e := by
      rcases lt_or_eq_of_le h0 with h | h
      · exact h
      · exfalso
        have hz : passTrialNorm frn sqrt v e = 0 := by
          rw [passTrialNorm, Norm, Fin.sum_univ_two]
          simp only [passTrial, passK0, ← h, zero_div, zero_mul, Matrix.cons_val_zero,
            Matrix.cons_val_one, Matrix.head_cons, mul_zero, add_zero]
          exact hs0
        rw [hz] at hapos
        exact lt_irrefl 0 hapos
    exact ⟨ne_of_gt huy, div_pos hFpos huy, hapos, pow_ne_zero 3 (ne_of_gt hapos)⟩
  · intro hneg h1 h2
    have hz : passTrialNorm frn sqrt v e = 0 := by
      rw [passTrialNorm, Norm, Fin.sum_univ_two]
      simp only [passTrial, h1, h2, sub_self, mul_zero, Matrix.cons_val_zero,
        Matrix.cons_val_one, Matrix.head_cons, add_zero]
      exact hs0
    refine ⟨?_, hz⟩
    rw [passY, hz, zero_sub]
    exact neg_pos.mpr hneg

end ReturnMap

section ReturnMapRuns

/-- The first pass of the fresh bearing pushed by `0.02` along y in
compression: yield force 50, trial shear force `(100, 0)` of norm 100. -/
theorem first_pass_quantities :
    passTrial (constantFriction 50) 0
        (axialTrial (elasticMaterial 1000) (bearing (0 : ℕ) 20 (1 / 100000000))
          (nodal 0 0 0) (nodal (-1 / 1000) (1 / 50) 0) 0 0) 0 = 100 ∧
      passTrial (constantFriction 50) 0
        (axialTrial (elasticMaterial 1000) (bearing (0 : ℕ) 20 (1 / 100000000))
          (nodal 0 0 0) (nodal (-1 / 1000) (1 / 50) 0) 0 0) 1 = 0 ∧
      passTrialNorm (constantFriction 50) Rat.sqrt 0
        (axialTrial (elasticMaterial 1000) (bearing (0 : ℕ) 20 (1 / 100000000))
          (nodal 0 0 0) (nodal (-1 / 1000) (1 / 50) 0) 0 0) = 100 ∧
      passY (constantFriction 50) Rat.sqrt 0
        (axialTrial (elasticMaterial 1000) (bearing (0 : ℕ) 20 (1 / 100000000))
          (nodal 0 0 0) (nodal (-1 / 1000) (1 / 50) 0) 0 0) = 50 := by
  have hub := push_ub (bearing (0 : ℕ) 20 (1 / 100000000)) (1 / 10) rfl rfl (-1 / 1000) (1 / 50) 0
  have hul := push_ul (bearing (0 : ℕ) 20 (1 / 100000000)) rfl (-1 / 1000) (1 / 50) 0
  obtain ⟨fy, fc, -⟩ := axialTrial_frame (elasticMaterial 1000) (bearing (0 : ℕ) 20 (1 / 100000000))
    (nodal 0 0 0) (nodal (-1 / 1000) (1 / 50) 0) 0 0
  obtain ⟨g0, g1, gn, gY, -⟩ := axis_quantities (constantFriction 50) 0 50 100
    (axialTrial (elasticMaterial 1000) (bearing (0 : ℕ) 20 (1 / 100000000))
          (nodal 0 0 0) (nodal (-1 / 1000) (1 / 50) 0) 0 0) hul.1
    (by rw [hub, fc]; rfl) (constant_yield 50 _ _)
    (by rw [hub, fy, fc, bearing_uy, bearing_ubPlasticC]
        show (50 : ℚ) / (1 / 100) * (1 / 50 - 0) = 100
        norm_num)
  refine ⟨g0, g1, ?_, ?_⟩
  · rw [gn]
    norm_num [abs_of_pos]
  · rw [gY]
    norm_num [abs_of_pos]

/-- C27 (witness): the first pass of the fresh bearing pushed by `0.02` along
y in compression, `uy = 0.01`, `Fy = 50`, `a = 100`: the elastic remainder has
norm `0.01`. -/
theorem plastic_pass_elastic_remainder_witness :
    Norm Rat.sqrt ![(axialTrial (elasticMaterial 1000) (bearing (0 : ℕ) 20 (1 / 100000000))
          (nodal 0 0 0) (nodal (-1 / 1000) (1 / 50) 0) 0 0).ub 1 -
        (shearPass (constantFriction 50) Rat.sqrt 0
          (axialTrial (elasticMaterial 1000) (bearing (0 : ℕ) 20 (1 / 100000000))
          (nodal 0 0 0) (nodal (-1 / 1000) (1 / 50) 0) 0 0)).ubPlastic 0,
      (axialTrial (elasticMaterial 1000) (bearing (0 : ℕ) 20 (1 / 100000000))
          (nodal 0 0 0) (nodal (-1 / 1000) (1 / 50) 0) 0 0).ub 2 -
        (shearPass (constantFriction 50) Rat.sqrt 0
          (axialTrial (elasticMaterial 1000) (bearing (0 : ℕ) 20 (1 / 100000000))
          (nodal 0 0 0) (nodal (-1 / 1000) (1 / 50) 0) 0 0)).ubPlastic 1] = 1 / 100 := by
  obtain ⟨g0, g1, gn, -⟩ := first_pass_quantities
  obtain ⟨fy, -, -⟩ := axialTrial_frame (elasticMaterial 1000) (bearing (0 : ℕ) 20 (1 / 100000000))
    (nodal 0 0 0) (nodal (-1 / 1000) (1 / 50) 0) 0 0
  have h := (plastic_pass_elastic_remainder (constantFriction 50) Rat.sqrt 0
    (axialTrial (elasticMaterial 1000) (bearing (0 : ℕ) 20 (1 / 100000000))
          (nodal 0 0 0) (nodal (-1 / 1000) (1 / 50) 0) 0 0) 50 100 (constant_yield 50 _ _).symm gn.symm
    (by rw [fy, bearing_uy]; norm_num) (by norm_num) (by norm_num) Rat.sqrt_eq
    (by rw [g0, g1]; norm_num)).1
  rw [fy, bearing_uy] at h
  exact h

/-- C30 (witness): the same pass, `uy = 0.01`, yield force `50 >= 0`, plastic
branch taken: `k0` and the norm of the trial shear force are positive. -/
theorem plastic_branch_denominators_positive_witness :
    0 < passK0 (constantFriction 50) 0
        (axialTrial (elasticMaterial 1000) (bearing (0 : ℕ) 20 (1 / 100000000))
          (nodal 0 0 0) (nodal (-1 / 1000) (1 / 50) 0) 0 0) ∧
      0 < passTrialNorm (constantFriction 50) Rat.sqrt 0
        (axialTrial (elasticMaterial 1000) (bearing (0 : ℕ) 20 (1 / 100000000))
          (nodal 0 0 0) (nodal (-1 / 1000) (1 / 50) 0) 0 0) := by
  obtain ⟨-, -, -, gY⟩ := first_pass_quantities
  obtain ⟨fy, -, -⟩ := axialTrial_frame (elasticMaterial 1000) (bearing (0 : ℕ) 20 (1 / 100000000))
    (nodal 0 0 0) (nodal (-1 / 1000) (1 / 50) 0) 0 0
  have h := (plastic_branch_denominators_positive (constantFriction 50) Rat.sqrt 0
    (axialTrial (elasticMaterial 1000) (bearing (0 : ℕ) 20 (1 / 100000000))
          (nodal 0 0 0) (nodal (-1 / 1000) (1 / 50) 0) 0 0) (by rw [fy, bearing_uy]; norm_num)
    (by have h0 := Rat.sqrt_eq 0; rw [mul_zero, abs_zero] at h0; exact h0)).1
    (by rw [constant_yield]; norm_num) (by rw [gY]; norm_num)
  exact ⟨h.2.1, h.2.2.1⟩

end ReturnMapRuns

/-! ## Statuses of commit, revert and reset -/

section Statuses

variable (mat : UniaxialMaterial α M) (frn : FrictionModel α F) (e : FlatSliderSimple3d α M F)

theorem sum_nonpos_eq_zero_iff (f : Int) (m : Fin 4 → Int) (hf : f ≤ 0) (hm : ∀ i, m i ≤ 0) :
    0 + f + m 0 + m 1 + m 2 + m 3 = 0 ↔ f = 0 ∧ ∀ i, m i = 0 := by
  have h0 := hm 0
  have h1 := hm 1
  have h2 := hm 2
  have h3 := hm 3
  constructor
  · intro h
    refine ⟨by omega, fun i => ?_⟩
    fin_cases i
    · show m 0 = 0
      omega
    · show m 1 = 0
      omega
    · show m 2 = 0
      omega
    · show m 3 = 0
      omega
  · rintro ⟨hf0, hm0⟩
    rw [hf0, hm0 0, hm0 1, hm0 2, hm0 3]
    rfl

/-- C29 (amended): `commitState`, `revertToLastCommit` and `revertToStart`
return the sum of the statuses of the friction law and of the four materials.
When none of these statuses is positive (failures are reported as negative
values), the result is 0 if and only if the friction law and each of the four
materials returned 0, so that a failure of any of them gives a non-zero
result. -/
theorem status_is_sum_of_collaborator_statuses :
    ((commitState mat frn e).2 = 0 + (frn.commitState e.theFrnMdl).2 +
        (mat.commitState (e.theMaterials 0)).2 + (mat.commitState (e.theMaterials 1)).2 +
        (mat.commitState (e.theMaterials 2)).2 + (mat.commitState (e.theMaterials 3)).2 ∧
      ((frn.commitState e.theFrnMdl).2 ≤ 0 → (∀ i, (mat.commitState (e.theMaterials i)).2 ≤ 0) →
        ((commitState mat frn e).2 = 0 ↔
          (frn.commitState e.theFrnMdl).2 = 0 ∧
            ∀ i, (mat.commitState (e.theMaterials i)).2 = 0))) ∧
      ((frn.revertToLastCommit e.theFrnMdl).2 ≤ 0 →
        (∀ i, (mat.revertToLastCommit (e.theMaterials i)).2 ≤ 0) →
        ((revertToLastCommit mat frn e).2 = 0 ↔
          (frn.revertToLastCommit e.theFrnMdl).2 = 0 ∧
            ∀ i, (mat.revertToLastCommit (e.theMaterials i)).2 = 0)) ∧
      ((frn.revertToStart e.theFrnMdl).2 ≤ 0 →
        (∀ i, (mat.revertToStart (e.theMaterials i)).2 ≤ 0) →
        ((revertToStart mat frn e).2 = 0 ↔
          (frn.revertToStart e.theFrnMdl).2 = 0 ∧
            ∀ i, (mat.revertToStart (e.theMaterials i)).2 = 0)) :=
  ⟨⟨rfl, fun hf hm => sum_nonpos_eq_zero_iff _ (fun i => (mat.commitState (e.theMaterials i)).2)
      hf hm⟩,
    fun hf hm => sum_nonpos_eq_zero_iff _
      (fun i => (mat.revertToLastCommit (e.theMaterials i)).2) hf hm,
    fun hf hm => sum_nonpos_eq_zero_iff _ (fun i => (mat.revertToStart (e.theMaterials i)).2)
      hf hm⟩

end Statuses

section StatusRuns

/-- C29 (counterexample): an element whose axial material answers
`commitState` with the failure status -1 and whose torsion material answers
with the status +1, the friction law and the other two materials with 0:
`commitState` of the element returns 0. -/
theorem commit_returns_zero_though_material_failed :
    ((statusMaterial (1000 : ℚ)).commitState
        ((create (statusMaterial (1000 : ℚ)) (constantFriction 50) (0 : ℕ) (1 / 100)
          ![-1, 1, 0, 0] (some ![0, 1, 0]) (some ![1, 0, 0]) 0 20
          (1 / 100000000)).theMaterials 0)).2 = -1 ∧
      (commitState (statusMaterial (1000 : ℚ)) (constantFriction 50)
        (create (statusMaterial (1000 : ℚ)) (constantFriction 50) (0 : ℕ) (1 / 100)
          ![-1, 1, 0, 0] (some ![0, 1, 0]) (some ![1, 0, 0]) 0 20 (1 / 100000000))).2 = 0 :=
  ⟨rfl, rfl⟩

end StatusRuns

/-! ## The plastic tangent as a derivative -/

section Tangent

theorem radial_first_hasFDerivAt (Fy k c0 c1 : ℝ) (p : ℝ × ℝ)
    (hpos : 0 < Real.sqrt (k * (p.1 - c0) * (k * (p.1 - c0)) +
      k * (p.2 - c1) * (k * (p.2 - c1)))) :
    HasFDerivAt (fun q : ℝ × ℝ => Fy * (k * (q.1 - c0)) /
        Real.sqrt (k * (q.1 - c0) * (k * (q.1 - c0)) + k * (q.2 - c1) * (k * (q.2 - c1))))
      ((Fy * k * (k * (p.2 - c1)) ^ 2 /
          Real.sqrt (k * (p.1 - c0) * (k * (p.1 - c0)) + k * (p.2 - c1) * (k * (p.2 - c1))) ^ 3) •
          ContinuousLinearMap.fst ℝ ℝ ℝ +
        (-Fy * k * (k * (p.1 - c0)) * (k * (p.2 - c1)) /
          Real.sqrt (k * (p.1 - c0) * (k * (p.1 - c0)) + k * (p.2 - c1) * (k * (p.2 - c1))) ^ 3) •
          ContinuousLinearMap.snd ℝ ℝ ℝ) p := by
  have hsne := ne_of_gt hpos
  have hgpos : 0 < k * (p.1 - c0) * (k * (p.1 - c0)) + k * (p.2 - c1) * (k * (p.2 - c1)) :=
    Real.sqrt_pos.mp hpos
  have h0 : HasFDerivAt (fun q : ℝ × ℝ => k * (q.1 - c0)) (k • ContinuousLinearMap.fst ℝ ℝ ℝ) p :=
    (hasFDerivAt_fst.sub_const c0).const_mul k
  have h1 : HasFDerivAt (fun q : ℝ × ℝ => k * (q.2 - c1)) (k • ContinuousLinearMap.snd ℝ ℝ ℝ) p :=
    (hasFDerivAt_snd.sub_const c1).const_mul k
  have hs := ((h0.mul h0).add (h1.mul h1)).sqrt (ne_of_gt hgpos)
  have hf := (h0.const_mul Fy).mul ((hasDerivAt_inv hsne).comp_hasFDerivAt p hs)
  refine hf.congr_fderiv ?_
  refine ContinuousLinearMap.ext fun q => ?_
  simp only [ContinuousLinearMap.add_apply, ContinuousLinearMap.smul_apply,
    ContinuousLinearMap.coe_fst', ContinuousLinearMap.coe_snd', smul_eq_mul, Function.comp_apply,
    Pi.mul_apply]
  field_simp
  have h2 := Real.sq_sqrt (le_of_lt hgpos)
  linear_combination (2 * Fy * k *
    Real.sqrt (k * (p.1 - c0) * (k * (p.1 - c0)) + k * (p.2 - c1) * (k * (p.2 - c1))) ^ 2 *
      (-(k * (p.1 - c0)) * (k * (p.2 - c1)) * q.2 - (k * (p.1 - c0)) ^ 2 * q.1 +
        q.1 * (k * (p.1 - c0) * (k * (p.1 - c0)) + k * (p.2 - c1) * (k * (p.2 - c1))))) * h2

theorem radial_second_hasFDerivAt (Fy k c0 c1 : ℝ) (p : ℝ × ℝ)
    (hpos : 0 < Real.sqrt (k * (p.1 - c0) * (k * (p.1 - c0)) +
      k * (p.2 - c1) * (k * (p.2 - c1)))) :
    HasFDerivAt (fun q : ℝ × ℝ => Fy * (k * (q.2 - c1)) /
        Real.sqrt (k * (q.1 - c0) * (k * (q.1 - c0)) + k * (q.2 - c1) * (k * (q.2 - c1))))
      ((-Fy * k * (k * (p.1 - c0)) * (k * (p.2 - c1)) /
          Real.sqrt (k * (p.1 - c0) * (k * (p.1 - c0)) + k * (p.2 - c1) * (k * (p.2 - c1))) ^ 3) •
          ContinuousLinearMap.fst ℝ ℝ ℝ +
        (Fy * k * (k * (p.1 - c0)) ^ 2 /
          Real.sqrt (k * (p.1 - c0) * (k * (p.1 - c0)) + k * (p.2 - c1) * (k * (p.2 - c1))) ^ 3) •
          ContinuousLinearMap.snd ℝ ℝ ℝ) p := by
  have hsne := ne_of_gt hpos
  have hgpos : 0 < k * (p.1 - c0) * (k * (p.1 - c0)) + k * (p.2 - c1) * (k * (p.2 - c1)) :=
    Real.sqrt_pos.mp hpos
  have h0 : HasFDerivAt (fun q : ℝ × ℝ => k * (q.1 - c0)) (k • ContinuousLinearMap.fst ℝ ℝ ℝ) p :=
    (hasFDerivAt_fst.sub_const c0).const_mul k
  have h1 : HasFDerivAt (fun q : ℝ × ℝ => k * (q.2 - c1)) (k • ContinuousLinearMap.snd ℝ ℝ ℝ) p :=
    (hasFDerivAt_snd.sub_const c1).const_mul k
  have hs := ((h0.mul h0).add (h1.mul h1)).sqrt (ne_of_gt hgpos)
  have hf := (h1.const_mul Fy).mul ((hasDerivAt_inv hsne).comp_hasFDerivAt p hs)
  refine hf.congr_fderiv ?_
  refine ContinuousLinearMap.ext fun q => ?_
  simp only [ContinuousLinearMap.add_apply, ContinuousLinearMap.smul_apply,
    ContinuousLinearMap.coe_fst', ContinuousLinearMap.coe_snd', smul_eq_mul, Function.comp_apply,
    Pi.mul_apply]
  field_simp
  have h2 := Real.sq_sqrt (le_of_lt hgpos)
  linear_combination (2 * Fy * k *
    Real.sqrt (k * (p.1 - c0) * (k * (p.1 - c0)) + k * (p.2 - c1) * (k * (p.2 - c1))) ^ 5 *
      (-(k * (p.1 - c0)) * (k * (p.2 - c1)) * q.1 - (k * (p.2 - c1)) ^ 2 * q.2 +
        q.2 * (k * (p.1 - c0) * (k * (p.1 - c0)) + k * (p.2 - c1) * (k * (p.2 - c1))))) * h2

variable (frn : FrictionModel ℝ F) (v : ℝ) (e : FlatSliderSimple3d ℝ M F)

theorem withShear_self : withShear e (e.ub 1) (e.ub 2) = e := by
  unfold withShear
  rw [Function.update_eq_self_iff.mpr, Function.update_eq_self_iff.mpr]
  · rfl
  · rfl

theorem withShear_trial_norm (a b : ℝ) :
    passTrialNorm frn Real.sqrt v (withShear e a b) =
      Real.sqrt (passK0 frn v e * (a - e.ubPlasticC 0) * (passK0 frn v e * (a - e.ubPlasticC 0)) +
        passK0 frn v e * (b - e.ubPlasticC 1) * (passK0 frn v e * (b - e.ubPlasticC 1))) := by
  rw [passTrialNorm, Norm, Fin.sum_univ_two]
  rfl

theorem withShear_plastic_force (a b : ℝ) :
    (plasticStep frn Real.sqrt v (withShear e a b)).qb 1 =
        passYield frn v e * (passK0 frn v e * (a - e.ubPlasticC 0)) /
          Real.sqrt (passK0 frn v e * (a - e.ubPlasticC 0) *
              (passK0 frn v e * (a - e.ubPlasticC 0)) +
            passK0 frn v e * (b - e.ubPlasticC 1) * (passK0 frn v e * (b - e.ubPlasticC 1))) -
          normalForce e * e.ul 5 ∧
      (plasticStep frn Real.sqrt v (withShear e a b)).qb 2 =
        passYield frn v e * (passK0 frn v e * (b - e.ubPlasticC 1)) /
          Real.sqrt (passK0 frn v e * (a - e.ubPlasticC 0) *
              (passK0 frn v e * (a - e.ubPlasticC 0)) +
            passK0 frn v e * (b - e.ubPlasticC 1) * (passK0 frn v e * (b - e.ubPlasticC 1))) +
          normalForce e * e.ul 4 := by
  have hn := withShear_trial_norm frn v e a b
  constructor
  · show passYield frn v (withShear e a b) * passTrial frn v (withShear e a b) 0 /
      passTrialNorm frn Real.sqrt v (withShear e a b) - _ = _
    rw [hn]
    rfl
  · show passYield frn v (withShear e a b) * passTrial frn v (withShear e a b) 1 /
      passTrialNorm frn Real.sqrt v (withShear e a b) + _ = _
    rw [hn]
    rfl

theorem withShear_passY (a b : ℝ) :
    passY frn Real.sqrt v (withShear e a b) =
      Real.sqrt (passK0 frn v e * (a - e.ubPlasticC 0) * (passK0 frn v e * (a - e.ubPlasticC 0)) +
        passK0 frn v e * (b - e.ubPlasticC 1) * (passK0 frn v e * (b - e.ubPlasticC 1))) -
        passYield frn v e := by
  rw [passY, withShear_trial_norm]
  rfl

theorem plasticStep_tangent :
    (plasticStep frn Real.sqrt v e).kb 1 1 =
        passYield frn v e * passK0 frn v e * passTrial frn v e 1 ^ 2 /
          passTrialNorm frn Real.sqrt v e ^ 3 ∧
      (plasticStep frn Real.sqrt v e).kb 1 2 =
        -passYield frn v e * passK0 frn v e * passTrial frn v e 0 * passTrial frn v e 1 /
          passTrialNorm frn Real.sqrt v e ^ 3 ∧
      (plasticStep frn Real.sqrt v e).kb 2 1 =
        -passYield frn v e * passK0 frn v e * passTrial frn v e 0 * passTrial frn v e 1 /
          passTrialNorm frn Real.sqrt v e ^ 3 ∧
      (plasticStep frn Real.sqrt v e).kb 2 2 =
        passYield frn v e * passK0 frn v e * passTrial frn v e 0 ^ 2 /
          passTrialNorm frn Real.sqrt v e ^ 3 := by
  refine ⟨?_, ?_, ?_, ?_⟩ <;> simp [plasticStep, setEntry]

/-- C24: in a pass that takes the plastic branch (`Y > 0`) with a trial shear
force `t` of positive norm, the shear block of the tangent written by the pass
is `(Fy*k0/|t|^3) * [[t1^2, -t0*t1], [-t0*t1, t0^2]]`; the yield force and `k0`
do not depend on the shear deformation `(ub(1), ub(2))`; and this block is the
derivative at `(ub(1), ub(2))` of the shear force of the pass, and of the
radial-return force `Fy*t/|t|`, as functions of the shear deformation. -/
theorem plastic_tangent_is_jacobian (hpl : 0 < passY frn Real.sqrt v e)
    (hpos : 0 < passTrialNorm frn Real.sqrt v e) :
    ((shearPass frn Real.sqrt v e).kb 1 1 =
        passYield frn v e * passK0 frn v e / passTrialNorm frn Real.sqrt v e ^ 3 *
          passTrial frn v e 1 ^ 2 ∧
      (shearPass frn Real.sqrt v e).kb 1 2 =
        passYield frn v e * passK0 frn v e / passTrialNorm frn Real.sqrt v e ^ 3 *
          -(passTrial frn v e 0 * passTrial frn v e 1) ∧
      (shearPass frn Real.sqrt v e).kb 2 1 =
        passYield frn v e * passK0 frn v e / passTrialNorm frn Real.sqrt v e ^ 3 *
          -(passTrial frn v e 0 * passTrial frn v e 1) ∧
      (shearPass frn Real.sqrt v e).kb 2 2 =
        passYield frn v e * passK0 frn v e / passTrialNorm frn Real.sqrt v e ^ 3 *
          passTrial frn v e 0 ^ 2) ∧
      (∀ a b : ℝ, passYield frn v (withShear e a b) = passYield frn v e ∧
        passK0 frn v (withShear e a b) = passK0 frn v e ∧
        passTrial frn v (withShear e a b) =
          ![passK0 frn v e * (a - e.ubPlasticC 0), passK0 frn v e * (b - e.ubPlasticC 1)]) ∧
      withShear e (e.ub 1) (e.ub 2) = e ∧
      HasFDerivAt (fun p : ℝ × ℝ => ((shearPass frn Real.sqrt v (withShear e p.1 p.2)).qb 1,
          (shearPass frn Real.sqrt v (withShear e p.1 p.2)).qb 2))
        (((shearPass frn Real.sqrt v e).kb 1 1 • ContinuousLinearMap.fst ℝ ℝ ℝ +
            (shearPass frn Real.sqrt v e).kb 1 2 • ContinuousLinearMap.snd ℝ ℝ ℝ).prod
          ((shearPass frn Real.sqrt v e).kb 2 1 • ContinuousLinearMap.fst ℝ ℝ ℝ +
            (shearPass frn Real.sqrt v e).kb 2 2 • ContinuousLinearMap.snd ℝ ℝ ℝ))
        (e.ub 1, e.ub 2) ∧
      HasFDerivAt (fun p : ℝ × ℝ =>
          (passYield frn v e * passTrial frn v (withShear e p.1 p.2) 0 /
              passTrialNorm frn Real.sqrt v (withShear e p.1 p.2),
            passYield frn v e * passTrial frn v (withShear e p.1 p.2) 1 /
              passTrialNorm frn Real.sqrt v (withShear e p.1 p.2)))
        (((shearPass frn Real.sqrt v e).kb 1 1 • ContinuousLinearMap.fst ℝ ℝ ℝ +
            (shearPass frn Real.sqrt v e).kb 1 2 • ContinuousLinearMap.snd ℝ ℝ ℝ).prod
          ((shearPass frn Real.sqrt v e).kb 2 1 • ContinuousLinearMap.fst ℝ ℝ ℝ +
            (shearPass frn Real.sqrt v e).kb 2 2 • ContinuousLinearMap.snd ℝ ℝ ℝ))
        (e.ub 1, e.ub 2) := by
  obtain ⟨k11, k12, k21, k22⟩ := plasticStep_tangent frn v e
  have hself := withShear_self e
  have hN := withShear_trial_norm frn v e (e.ub 1) (e.ub 2)
  rw [hself] at hN
  have ht0 : passTrial frn v e 0 = passK0 frn v e * (e.ub 1 - e.ubPlasticC 0) := rfl
  have ht1 : passTrial frn v e 1 = passK0 frn v e * (e.ub 2 - e.ubPlasticC 1) := rfl
  have hpos2 := hpos
  rw [hN] at hpos2
  have d1 := radial_first_hasFDerivAt (passYield frn v e) (passK0 frn v e) (e.ubPlasticC 0)
    (e.ubPlasticC 1) (e.ub 1, e.ub 2) hpos2
  have d2 := radial_second_hasFDerivAt (passYield frn v e) (passK0 frn v e) (e.ubPlasticC 0)
    (e.ubPlasticC 1) (e.ub 1, e.ub 2) hpos2
  have hc : Continuous (fun p : ℝ × ℝ => passY frn Real.sqrt v (withShear e p.1 p.2)) := by
    simp only [withShear_passY]
    fun_prop
  have hpl2 : 0 < passY frn Real.sqrt v (withShear e (e.ub 1) (e.ub 2)) := by
    rw [hself]
    exact hpl
  have hev : ∀ᶠ p : ℝ × ℝ in nhds (e.ub 1, e.ub 2),
      0 < passY frn Real.sqrt v (withShear e p.1 p.2) :=
    hc.continuousAt.eventually (lt_mem_nhds hpl2)
  refine ⟨⟨?_, ?_, ?_, ?_⟩, fun a b => ⟨rfl, rfl, ?_⟩, hself, ?_, ?_⟩
  · rw [shearPass_of_plastic frn Real.sqrt v e hpl, k11]
    ring
  · rw [shearPass_of_plastic frn Real.sqrt v e hpl, k12]
    ring
  · rw [shearPass_of_plastic frn Real.sqrt v e hpl, k21]
    ring
  · rw [shearPass_of_plastic frn Real.sqrt v e hpl, k22]
    ring
  · rfl
  · rw [shearPass_of_plastic frn Real.sqrt v e hpl, k11, k12, k21, k22, ht0, ht1, hN]
    refine HasFDerivAt.congr_of_eventuallyEq
      ((d1.sub_const (normalForce e * e.ul 5)).prod (d2.add_const (normalForce e * e.ul 4))) ?_
    filter_upwards [hev] with p hp
    rw [shearPass_of_plastic frn Real.sqrt v _ hp]
    obtain ⟨f1, f2⟩ := withShear_plastic_force frn v e p.1 p.2
    rw [f1, f2]
  · rw [shearPass_of_plastic frn Real.sqrt v e hpl, k11, k12, k21, k22, ht0, ht1, hN]
    refine (d1.prod d2).congr_of_eventuallyEq (Filter.Eventually.of_forall fun p => ?_)
    show (_, _) = (_, _)
    rw [withShear_trial_norm]
    rfl

end Tangent

section TangentRuns

theorem oblique_quantities (frn : FrictionModel ℝ F) (v : ℝ) (e : FlatSliderSimple3d ℝ M F)
    (hFy : passYield frn v e = 50) (hk : passK0 frn v e = 5000) (hc0 : e.ubPlasticC 0 = 0)
    (hc1 : e.ubPlasticC 1 = 0) :
    passTrial frn v (withShear e (3 / 250) (2 / 125)) 0 = 60 ∧
      passTrial frn v (withShear e (3 / 250) (2 / 125)) 1 = 80 ∧
      passTrialNorm frn Real.sqrt v (withShear e (3 / 250) (2 / 125)) = 100 ∧
      passY frn Real.sqrt v (withShear e (3 / 250) (2 / 125)) = 50 ∧
      passYield frn v (withShear e (3 / 250) (2 / 125)) = 50 ∧
      passK0 frn v (withShear e (3 / 250) (2 / 125)) = 5000 := by
  have hs : (5000 * (3 / 250 - 0) * (5000 * (3 / 250 - 0)) +
      5000 * (2 / 125 - 0) * (5000 * (2 / 125 - 0)) : ℝ) = 100 * 100 := by norm_num
  have hn : passTrialNorm frn Real.sqrt v (withShear e (3 / 250) (2 / 125)) = 100 := by
    rw [withShear_trial_norm, hk, hc0, hc1, hs, Real.sqrt_mul_self (by norm_num)]
  refine ⟨?_, ?_, hn, ?_, hFy, hk⟩
  · show passK0 frn v e * (3 / 250 - e.ubPlasticC 0) = 60
    rw [hk, hc0]
    norm_num
  · show passK0 frn v e * (2 / 125 - e.ubPlasticC 1) = 80
    rw [hk, hc1]
    norm_num
  · rw [withShear_passY, hk, hc0, hc1, hs, Real.sqrt_mul_self (by norm_num), hFy]
    norm_num

/-- C24 (witness): the element left by the constructor with `uy = 0.01` and a
constant friction force 50, at the shear deformation `(0.012, 0.016)`: trial
shear force `(60, 80)` of norm 100, plastic pass, tangent block
`[[1600, -1200], [-1200, 900]]`. -/
theorem plastic_tangent_is_jacobian_witness :
    (shearPass (constantFriction (50 : ℝ)) Real.sqrt 0
        (withShear (create (elasticMaterial (1000 : ℝ)) (constantFriction 50) (0 : ℕ) (1 / 100)
          (fun _ => (0, 0)) (some ![0, 1, 0]) (some ![1, 0, 0]) 0 20 (1 / 100000000))
          (3 / 250) (2 / 125))).kb 1 1 = 1600 ∧
      (shearPass (constantFriction (50 : ℝ)) Real.sqrt 0
        (withShear (create (elasticMaterial (1000 : ℝ)) (constantFriction 50) (0 : ℕ) (1 / 100)
          (fun _ => (0, 0)) (some ![0, 1, 0]) (some ![1, 0, 0]) 0 20 (1 / 100000000))
          (3 / 250) (2 / 125))).kb 1 2 = -1200 ∧
      (shearPass (constantFriction (50 : ℝ)) Real.sqrt 0
        (withShear (create (elasticMaterial (1000 : ℝ)) (constantFriction 50) (0 : ℕ) (1 / 100)
          (fun _ => (0, 0)) (some ![0, 1, 0]) (some ![1, 0, 0]) 0 20 (1 / 100000000))
          (3 / 250) (2 / 125))).kb 2 1 = -1200 ∧
      (shearPass (constantFriction (50 : ℝ)) Real.sqrt 0
        (withShear (create (elasticMaterial (1000 : ℝ)) (constantFriction 50) (0 : ℕ) (1 / 100)
          (fun _ => (0, 0)) (some ![0, 1, 0]) (some ![1, 0, 0]) 0 20 (1 / 100000000))
          (3 / 250) (2 / 125))).kb 2 2 = 900 := by
  have hk : passK0 (constantFriction (50 : ℝ)) 0
      (create (elasticMaterial (1000 : ℝ)) (constantFriction 50) (0 : ℕ) (1 / 100)
        (fun _ => (0, 0)) (some ![0, 1, 0]) (some ![1, 0, 0]) 0 20 (1 / 100000000)) = 5000 := by
    show (50 : ℝ) / (1 / 100) = 5000
    norm_num
  obtain ⟨g0, g1, gn, gY, gF, gk⟩ := oblique_quantities (constantFriction (50 : ℝ)) 0
    (create (elasticMaterial (1000 : ℝ)) (constantFriction 50) (0 : ℕ) (1 / 100)
      (fun _ => (0, 0)) (some ![0, 1, 0]) (some ![1, 0, 0]) 0 20 (1 / 100000000)) rfl hk rfl rfl
  obtain ⟨⟨a11, a12, a21, a22⟩, -⟩ := plastic_tangent_is_jacobian (constantFriction (50 : ℝ)) 0
    (withShear (create (elasticMaterial (1000 : ℝ)) (constantFriction 50) (0 : ℕ) (1 / 100)
      (fun _ => (0, 0)) (some ![0, 1, 0]) (some ![1, 0, 0]) 0 20 (1 / 100000000))
      (3 / 250) (2 / 125)) (by rw [gY]; norm_num) (by rw [gn]; norm_num)
  rw [gF, gk, gn, g1] at a11
  rw [gF, gk, gn, g0, g1] at a12 a21
  rw [gF, gk, gn, g0] at a22
  refine ⟨a11.trans ?_, a12.trans ?_, a21.trans ?_, a22.trans ?_⟩ <;> norm_num

end TangentRuns

end FlatSliderSimple3d

end OpenSees
